import Mathlib

/-!
# APEX five-stage pipeline simulator (`apex_cpu.c`)

A shallow embedding of the stage handlers `APEX_fetch`, `APEX_decode`,
`APEX_execute`, `APEX_memory`, `APEX_writeback`, of the constructor
`APEX_cpu_init` and of the simulation loop `APEX_cpu_run`.

Conventions of the embedding.

* C `int` data (register values, immediates, addresses, the program counter)
  is `Int`; the results of `+`, `-`, `*` on such data are reduced to the 32-bit
  two's-complement range by `wrap32`.  The two counters `clock` and
  `insn_completed` only ever count up from `0` by `++` and are kept unreduced.
* C arrays are total maps (`regs`, `regsStatus`, `reg_values : Nat → Int`,
  `data_memory : Int → Int`); an access outside the declared bounds is
  undefined behaviour in C and is simply the map's value here.
* `apex_cpu.h` and `apex_macros.h` are not among the sources.  Opcodes are the
  constructors of `Opcode` (every `OPCODE_*` name the source uses), the flag
  fields that only ever hold `TRUE`/`FALSE` are `Bool`, and `regsStatus` keeps
  C `int` entries because `APEX_cpu_init` fills it bytewise with `memset`.
* Printing (`print_stage_content`, `print_reg_file`, the `printf` calls) has no
  effect on the machine state and is left out, as is `opcode_str`.
-/

namespace Apex

/-! ## Machine integers -/

/-- Reduction of an integer to the 32-bit two's-complement range. -/
def wrap32 (x : Int) : Int := (x + 2147483648) % 4294967296 - 2147483648

/-- C `a + b` on `int`. -/
def add32 (a b : Int) : Int := wrap32 (a + b)

/-- C `a - b` on `int`. -/
def sub32 (a b : Int) : Int := wrap32 (a - b)

/-- C `a * b` on `int`. -/
def mul32 (a b : Int) : Int := wrap32 (a * b)

/-- C `a & b` on `int`. -/
def and32 (a b : Int) : Int := wrap32 (Int.land a b)

/-- C `a | b` on `int`. -/
def or32 (a b : Int) : Int := wrap32 (Int.lor a b)

/-- C `a ^ b` on `int`. -/
def xor32 (a b : Int) : Int := wrap32 (Int.xor a b)

/-- The macro `TRUE` as stored in an `int` array entry. -/
def TRUE : Int := 1

/-- The macro `FALSE` as stored in an `int` array entry. -/
def FALSE : Int := 0

/-- Array assignment `a[i] = v` on a total map. -/
def upd {α : Type} [DecidableEq α] (a : α → Int) (i : α) (v : Int) : α → Int :=
  fun j => if j = i then v else a j

/-! ## Data model -/

/-- The opcodes named in `apex_cpu.c`. -/
inductive Opcode where
  | OPCODE_ADD | OPCODE_SUB | OPCODE_MUL | OPCODE_DIV
  | OPCODE_AND | OPCODE_OR | OPCODE_XOR
  | OPCODE_MOVC
  | OPCODE_ADDL | OPCODE_SUBL | OPCODE_LDI | OPCODE_LOAD
  | OPCODE_STI | OPCODE_STORE
  | OPCODE_BP | OPCODE_BNP | OPCODE_BZ | OPCODE_BNZ
  | OPCODE_CMP | OPCODE_JUMP | OPCODE_HALT | OPCODE_NOP
  deriving DecidableEq, Repr

open Opcode

/-- One entry of code memory (`APEX_Instruction`). -/
structure APEX_Instruction where
  opcode : Opcode
  rd : Nat
  rs1 : Nat
  rs2 : Nat
  imm : Int
  deriving DecidableEq, Repr

/-- A pipeline latch (`CPU_Stage`). -/
structure CPU_Stage where
  pc : Int
  opcode : Opcode
  rs1 : Nat
  rs2 : Nat
  rd : Nat
  imm : Int
  rs1_value : Int
  rs2_value : Int
  result_buffer : Int
  memory_address : Int
  has_insn : Bool
  deriving DecidableEq, Repr

/-- The machine (`APEX_CPU`). -/
structure APEX_CPU where
  pc : Int
  clock : Int
  insn_completed : Int
  regs : Nat → Int
  regsStatus : Nat → Int
  reg_values : Nat → Int
  code_memory : List APEX_Instruction
  data_memory : Int → Int
  single_step : Bool
  simulate : Bool
  cycle : Int
  zero_flag : Bool
  pos_flag : Bool
  fetch_from_next_cycle : Bool
  fetch : CPU_Stage
  decode : CPU_Stage
  execute : CPU_Stage
  memory : CPU_Stage
  writeback : CPU_Stage

/-- A latch as `calloc` leaves it: every field zero.  The opcode numbered `0`
is taken to be `OPCODE_ADD`; a latch whose `has_insn` is `FALSE` is never
dispatched on. -/
def zero_stage : CPU_Stage :=
  { pc := 0, opcode := OPCODE_ADD, rs1 := 0, rs2 := 0, rd := 0, imm := 0,
    rs1_value := 0, rs2_value := 0, result_buffer := 0, memory_address := 0,
    has_insn := false }

/-- What a read of `code_memory` outside the table yields in the model (the C
read is undefined). -/
def undefined_insn : APEX_Instruction :=
  { opcode := OPCODE_NOP, rd := 0, rs1 := 0, rs2 := 0, imm := 0 }

/-- The read `cpu->code_memory[i]`. -/
def code_at (code : List APEX_Instruction) (i : Int) : APEX_Instruction :=
  match i with
  | Int.ofNat k => code.getD k undefined_insn
  | Int.negSucc _ => undefined_insn

/-! ## Stage handlers -/

/-- Converts the PC (4000 series) into an index of code memory. -/
def get_code_memory_index_from_pc (pc : Int) : Int := Int.tdiv (sub32 pc 4000) 4

/-- Fetch stage. -/
def APEX_fetch (cpu : APEX_CPU) : APEX_CPU :=
  if cpu.fetch.has_insn then
    if cpu.fetch_from_next_cycle then
      { cpu with fetch_from_next_cycle := false }
    else
      let current_ins := code_at cpu.code_memory (get_code_memory_index_from_pc cpu.pc)
      let latch : CPU_Stage :=
        { cpu.fetch with
          pc := cpu.pc, opcode := current_ins.opcode, rd := current_ins.rd,
          rs1 := current_ins.rs1, rs2 := current_ins.rs2, imm := current_ins.imm }
      { cpu with
        pc := add32 cpu.pc 4
        decode := latch
        fetch := if latch.opcode = OPCODE_HALT then { latch with has_insn := false } else latch }
  else cpu

/-- The operand read of Decode: `v = cpu->regs[r]; if (cpu->regsStatus[r] == TRUE)
v = cpu->reg_values[r];`. -/
def read_operand (cpu : APEX_CPU) (r : Nat) : Int :=
  if cpu.regsStatus r = TRUE then cpu.reg_values r else cpu.regs r

/-- The `switch` of `APEX_decode`: the Decode latch with its operands read. -/
def decode_operands (cpu : APEX_CPU) : CPU_Stage :=
  let d := cpu.decode
  match d.opcode with
  | OPCODE_ADD | OPCODE_SUB | OPCODE_MUL | OPCODE_AND | OPCODE_OR | OPCODE_XOR =>
      { d with rs1_value := read_operand cpu d.rs1, rs2_value := read_operand cpu d.rs2 }
  | OPCODE_ADDL | OPCODE_SUBL =>
      { d with rs1_value := read_operand cpu d.rs1 }
  | OPCODE_STI | OPCODE_STORE =>
      { d with rs1_value := read_operand cpu d.rs1, rs2_value := read_operand cpu d.rs2 }
  | OPCODE_LDI | OPCODE_LOAD =>
      { d with rs1_value := read_operand cpu d.rs1 }
  | OPCODE_MOVC => d
  | OPCODE_CMP =>
      { d with rs1_value := read_operand cpu d.rs1, rs2_value := read_operand cpu d.rs2 }
  | OPCODE_BZ => d
  | OPCODE_BP => d
  | OPCODE_BNP => d
  | OPCODE_NOP => d
  | OPCODE_HALT => d
  | OPCODE_JUMP =>
      { d with rs1_value := read_operand cpu d.rs1 }
  | OPCODE_BNZ => d
  | OPCODE_DIV => d

/-- Decode stage. -/
def APEX_decode (cpu : APEX_CPU) : APEX_CPU :=
  if cpu.decode.has_insn then
    let d := decode_operands cpu
    { cpu with execute := d, decode := { d with has_insn := false } }
  else cpu

/-- The flag update shared by ADD, ADDL, SUB, SUBL and MUL: the three branches
of the source, of which the last two assign the same values. -/
def set_arith_flags (cpu : APEX_CPU) (result : Int) : APEX_CPU :=
  if result = 0 then { cpu with zero_flag := true, pos_flag := false }
  else if result > 0 then { cpu with zero_flag := false, pos_flag := true }
  else { cpu with zero_flag := false, pos_flag := true }

/-- The tail of every Execute case that defines a destination register:
`regsStatus[rd] = TRUE; reg_values[rd] = result_buffer;`. -/
def mark_pending (cpu : APEX_CPU) : APEX_CPU :=
  { cpu with
    regsStatus := upd cpu.regsStatus cpu.execute.rd TRUE
    reg_values := upd cpu.reg_values cpu.execute.rd cpu.execute.result_buffer }

/-- The body of a taken branch or jump to `target`. -/
def redirect (cpu : APEX_CPU) (target : Int) : APEX_CPU :=
  { cpu with
    pc := target
    fetch_from_next_cycle := true
    decode := { cpu.decode with has_insn := false }
    fetch := { cpu.fetch with has_insn := true } }

/-- The `switch` of `APEX_execute`. -/
def execute_dispatch (cpu : APEX_CPU) : APEX_CPU :=
  let e := cpu.execute
  match e.opcode with
  | OPCODE_ADD =>
      let r := add32 e.rs1_value e.rs2_value
      mark_pending (set_arith_flags { cpu with execute := { e with result_buffer := r } } r)
  | OPCODE_ADDL =>
      let r := add32 e.rs1_value e.imm
      mark_pending (set_arith_flags { cpu with execute := { e with result_buffer := r } } r)
  | OPCODE_SUB =>
      let r := sub32 e.rs1_value e.rs2_value
      mark_pending (set_arith_flags { cpu with execute := { e with result_buffer := r } } r)
  | OPCODE_SUBL =>
      let r := sub32 e.rs1_value e.imm
      mark_pending (set_arith_flags { cpu with execute := { e with result_buffer := r } } r)
  | OPCODE_MUL =>
      let r := mul32 e.rs1_value e.rs2_value
      mark_pending (set_arith_flags { cpu with execute := { e with result_buffer := r } } r)
  | OPCODE_AND =>
      mark_pending { cpu with execute := { e with result_buffer := and32 e.rs1_value e.rs2_value } }
  | OPCODE_OR =>
      mark_pending { cpu with execute := { e with result_buffer := or32 e.rs1_value e.rs2_value } }
  | OPCODE_XOR =>
      mark_pending { cpu with execute := { e with result_buffer := xor32 e.rs1_value e.rs2_value } }
  | OPCODE_LOAD =>
      mark_pending { cpu with execute := { e with memory_address := add32 e.rs1_value e.imm } }
  | OPCODE_LDI =>
      mark_pending { cpu with execute :=
        { e with memory_address := add32 e.rs1_value e.imm, result_buffer := add32 e.rs1_value 4 } }
  | OPCODE_STORE =>
      { cpu with execute := { e with memory_address := add32 e.rs1_value e.imm } }
  | OPCODE_STI =>
      { cpu with execute :=
        { e with memory_address := add32 e.rs1_value e.imm, rs1_value := add32 e.rs1_value 4 } }
  | OPCODE_BP => if cpu.pos_flag = true then redirect cpu (add32 e.pc e.imm) else cpu
  | OPCODE_BZ => if cpu.zero_flag = true then redirect cpu (add32 e.pc e.imm) else cpu
  | OPCODE_BNP => if cpu.pos_flag = false then redirect cpu (add32 e.pc e.imm) else cpu
  | OPCODE_BNZ => if cpu.zero_flag = false then redirect cpu (add32 e.pc e.imm) else cpu
  | OPCODE_MOVC =>
      let c := { cpu with execute := { e with result_buffer := e.imm } }
      mark_pending (if e.imm = 0 then { c with zero_flag := true } else { c with zero_flag := false })
  | OPCODE_CMP =>
      if e.rs1_value > e.rs2_value then { cpu with pos_flag := true, zero_flag := false }
      else if e.rs1_value < e.rs2_value then { cpu with pos_flag := false, zero_flag := false }
      else { cpu with pos_flag := false, zero_flag := true }
  | OPCODE_NOP | OPCODE_JUMP => redirect cpu (add32 e.rs1_value e.imm)
  | OPCODE_HALT => cpu
  | OPCODE_DIV => cpu

/-- Execute stage. -/
def APEX_execute (cpu : APEX_CPU) : APEX_CPU :=
  if cpu.execute.has_insn then
    let c := execute_dispatch cpu
    { c with memory := c.execute, execute := { c.execute with has_insn := false } }
  else cpu

/-- The `switch` of `APEX_memory`. -/
def memory_dispatch (cpu : APEX_CPU) : APEX_CPU :=
  let m := cpu.memory
  match m.opcode with
  | OPCODE_LOAD | OPCODE_LDI =>
      { cpu with memory := { m with result_buffer := cpu.data_memory m.memory_address } }
  | OPCODE_STORE | OPCODE_STI =>
      { cpu with data_memory := upd cpu.data_memory m.memory_address m.rs2_value }
  | _ => cpu

/-- Memory stage. -/
def APEX_memory (cpu : APEX_CPU) : APEX_CPU :=
  if cpu.memory.has_insn then
    let c := memory_dispatch cpu
    { c with writeback := c.memory, memory := { c.memory with has_insn := false } }
  else cpu

/-- The `switch` of `APEX_writeback`. -/
def writeback_dispatch (cpu : APEX_CPU) : APEX_CPU :=
  let w := cpu.writeback
  match w.opcode with
  | OPCODE_ADD | OPCODE_SUB | OPCODE_ADDL | OPCODE_SUBL
  | OPCODE_MUL | OPCODE_AND | OPCODE_OR | OPCODE_XOR =>
      { cpu with regs := upd cpu.regs w.rd w.result_buffer,
                 regsStatus := upd cpu.regsStatus w.rd FALSE }
  | OPCODE_LDI =>
      { cpu with regs := upd (upd cpu.regs w.rs1 w.rs1_value) w.rd w.result_buffer,
                 regsStatus := upd cpu.regsStatus w.rd FALSE }
  | OPCODE_LOAD =>
      { cpu with regs := upd cpu.regs w.rd w.result_buffer,
                 regsStatus := upd cpu.regsStatus w.rd FALSE }
  | OPCODE_MOVC =>
      { cpu with regs := upd cpu.regs w.rd w.result_buffer,
                 regsStatus := upd cpu.regsStatus w.rd FALSE }
  | OPCODE_STI =>
      { cpu with regs := upd cpu.regs w.rs1 w.rs1_value,
                 regsStatus := upd cpu.regsStatus w.rs1 FALSE }
  | _ => cpu

/-- Writeback stage: the machine it leaves and its return value (`true` for
`TRUE`, the request to stop the simulator). -/
def APEX_writeback (cpu : APEX_CPU) : APEX_CPU × Bool :=
  if cpu.writeback.has_insn then
    let c := writeback_dispatch cpu
    let c := { c with insn_completed := c.insn_completed + 1,
                      writeback := { c.writeback with has_insn := false } }
    (c, decide (c.writeback.opcode = OPCODE_HALT))
  else (cpu, false)

/-! ## Construction -/

/-- The value of every `int` of an array that `memset(a, 1, n)` has filled:
each of its four bytes is `1`. -/
def memset_one_int : Int := 16843009

/-- The macro `ENABLE_SINGLE_STEP` (`apex_macros.h` is not among the sources;
the value is that of `TRUE`). -/
def ENABLE_SINGLE_STEP : Bool := true

/-- Creation and initialisation of the machine.  `filename` and `fun_` are
`none` for a null pointer; `create_code_memory`, the program loader, is not
among the sources and is a parameter (`none` for its `NULL`).  With a null
`fun_` that passes the first test `strcmp` dereferences a null pointer; the
model returns `none` there as well. -/
def APEX_cpu_init (filename : Option String) (fun_ : Option String) (n : Int)
    (create_code_memory : Option String → Option (List APEX_Instruction)) : Option APEX_CPU :=
  if filename.isNone ∧ fun_.isNone ∧ n = 0 then none
  else
    match fun_ with
    | none => none
    | some f =>
      match create_code_memory filename with
      | none => none
      | some code =>
        some
          { pc := 4000
            clock := 0
            insn_completed := 0
            regs := fun _ => 0
            regsStatus := fun _ => memset_one_int
            reg_values := fun _ => 0
            code_memory := code
            data_memory := fun _ => 0
            single_step := if f = "single_step" then ENABLE_SINGLE_STEP else false
            simulate := if f = "simulate" then false else true
            cycle := n
            zero_flag := false
            pos_flag := false
            fetch_from_next_cycle := false
            fetch := { zero_stage with has_insn := true }
            decode := zero_stage
            execute := zero_stage
            memory := zero_stage
            writeback := zero_stage }

/-- The machine `APEX_cpu_init` returns for a loaded program `code` in a
non-interactive mode with cycle budget `n`. -/
def boot (code : List APEX_Instruction) (simulate : Bool) (n : Int) : APEX_CPU :=
  { pc := 4000, clock := 0, insn_completed := 0,
    regs := fun _ => 0, regsStatus := fun _ => memset_one_int, reg_values := fun _ => 0,
    code_memory := code, data_memory := fun _ => 0,
    single_step := false, simulate := simulate, cycle := n,
    zero_flag := false, pos_flag := false, fetch_from_next_cycle := false,
    fetch := { zero_stage with has_insn := true },
    decode := zero_stage, execute := zero_stage, memory := zero_stage, writeback := zero_stage }

/-- The test `if(cpu->regsStatus[i])` by which `print_regstate` labels a
register "invalid". -/
def print_regstate_invalid (cpu : APEX_CPU) (i : Nat) : Bool :=
  decide (cpu.regsStatus i ≠ 0)

/-! ## Simulation loop -/

/-- The four calls that follow a Writeback which did not stop the loop. -/
def stages (cpu : APEX_CPU) : APEX_CPU :=
  APEX_fetch (APEX_decode (APEX_execute (APEX_memory cpu)))

/-- One full iteration of the loop of `APEX_cpu_run` that does not stop:
Writeback, Memory, Execute, Decode, Fetch, then `cpu->clock++`. -/
def tick (cpu : APEX_CPU) : APEX_CPU :=
  let c := stages (APEX_writeback cpu).1
  { c with clock := c.clock + 1 }

/-- The machine at the start of iteration `k` of the loop, when no earlier
iteration stopped. -/
def ticks : Nat → APEX_CPU → APEX_CPU
  | 0, cpu => cpu
  | k + 1, cpu => ticks k (tick cpu)

/-- Why the loop of `APEX_cpu_run` was left. -/
inductive StopCause where
  | halt_retired
  | budget
  | user_quit
  deriving DecidableEq, Repr

/-- The loop of `APEX_cpu_run`.  `fuel` bounds the number of iterations
(`none` when it runs out), `keys` is what `scanf` reads in single-step mode,
one character per iteration (`none` when the input is exhausted).  The result
is the machine when the loop is left and the reason for leaving it. -/
def APEX_cpu_run : Nat → List Char → APEX_CPU → Option (StopCause × APEX_CPU)
  | 0, _, _ => none
  | fuel + 1, keys, cpu =>
    let wb := APEX_writeback cpu
    if wb.2 then some (StopCause.halt_retired, wb.1)
    else if wb.1.clock = wb.1.cycle then some (StopCause.budget, wb.1)
    else
      let c := stages wb.1
      if c.single_step then
        match keys with
        | [] => none
        | k :: rest =>
          if k = 'Q' ∨ k = 'q' then some (StopCause.user_quit, c)
          else APEX_cpu_run fuel rest { c with clock := c.clock + 1 }
      else APEX_cpu_run fuel keys { c with clock := c.clock + 1 }

/-! ## Opcode classes and auxiliary notions used in the statements -/

/-- Opcodes for which Decode reads `rs1`. -/
def reads_rs1 : Opcode → Bool
  | OPCODE_ADD | OPCODE_SUB | OPCODE_MUL | OPCODE_AND | OPCODE_OR | OPCODE_XOR
  | OPCODE_ADDL | OPCODE_SUBL | OPCODE_STI | OPCODE_STORE | OPCODE_LDI | OPCODE_LOAD
  | OPCODE_CMP | OPCODE_JUMP => true
  | _ => false

/-- Opcodes for which Decode reads `rs2`. -/
def reads_rs2 : Opcode → Bool
  | OPCODE_ADD | OPCODE_SUB | OPCODE_MUL | OPCODE_AND | OPCODE_OR | OPCODE_XOR
  | OPCODE_STI | OPCODE_STORE | OPCODE_CMP => true
  | _ => false

/-- Opcodes whose Execute case marks `rd` pending and records a forwarded value. -/
def defines_rd : Opcode → Bool
  | OPCODE_ADD | OPCODE_SUB | OPCODE_MUL | OPCODE_AND | OPCODE_OR | OPCODE_XOR
  | OPCODE_ADDL | OPCODE_SUBL | OPCODE_MOVC | OPCODE_LOAD | OPCODE_LDI => true
  | _ => false

/-- The load-class opcodes of the Memory stage. -/
def is_load : Opcode → Bool
  | OPCODE_LOAD | OPCODE_LDI => true
  | _ => false

/-- The store-class opcodes of the Memory stage. -/
def is_store : Opcode → Bool
  | OPCODE_STORE | OPCODE_STI => true
  | _ => false

/-- Opcodes whose Writeback case commits `result_buffer` to `regs[rd]` and
clears the pending bit of `rd`. -/
def commits_rd : Opcode → Bool
  | OPCODE_ADD | OPCODE_SUB | OPCODE_ADDL | OPCODE_SUBL | OPCODE_MUL | OPCODE_AND
  | OPCODE_OR | OPCODE_XOR | OPCODE_LDI | OPCODE_LOAD | OPCODE_MOVC => true
  | _ => false

/-- The latch Fetch fills from code memory. -/
def fetched_latch (cpu : APEX_CPU) : CPU_Stage :=
  { cpu.fetch with
    pc := cpu.pc
    opcode := (code_at cpu.code_memory (get_code_memory_index_from_pc cpu.pc)).opcode
    rd := (code_at cpu.code_memory (get_code_memory_index_from_pc cpu.pc)).rd
    rs1 := (code_at cpu.code_memory (get_code_memory_index_from_pc cpu.pc)).rs1
    rs2 := (code_at cpu.code_memory (get_code_memory_index_from_pc cpu.pc)).rs2
    imm := (code_at cpu.code_memory (get_code_memory_index_from_pc cpu.pc)).imm }

/-- The arithmetic and bitwise opcodes. -/
def is_arith : Opcode → Bool
  | OPCODE_ADD | OPCODE_SUB | OPCODE_MUL | OPCODE_AND | OPCODE_OR | OPCODE_XOR
  | OPCODE_ADDL | OPCODE_SUBL => true
  | _ => false

/-- The conditional-branch opcodes. -/
def is_cond_branch : Opcode → Bool
  | OPCODE_BP | OPCODE_BNP | OPCODE_BZ | OPCODE_BNZ => true
  | _ => false

/-- The test a conditional branch makes on the flags in Execute (`false` for
every other opcode). -/
def branch_condition (cpu : APEX_CPU) : Bool :=
  match cpu.execute.opcode with
  | OPCODE_BP => cpu.pos_flag
  | OPCODE_BNP => !cpu.pos_flag
  | OPCODE_BZ => cpu.zero_flag
  | OPCODE_BNZ => !cpu.zero_flag
  | _ => false

/-- The Execute latch holds a live instruction that redirects Fetch and flushes
the Decode latch: a conditional branch whose condition holds, a JUMP or a NOP. -/
def execute_redirects (cpu : APEX_CPU) : Bool :=
  cpu.execute.has_insn &&
    (branch_condition cpu || decide (cpu.execute.opcode = OPCODE_JUMP)
      || decide (cpu.execute.opcode = OPCODE_NOP))

/-- The latch `w` holds an instruction whose Writeback case clears the pending
bit of register `r`: one that commits to `rd = r`, or an STI with base `r`. -/
def clears_pending (w : CPU_Stage) (r : Nat) : Bool :=
  (commits_rd w.opcode && decide (w.rd = r)) || (decide (w.opcode = OPCODE_STI) && decide (w.rs1 = r))

/-- Iteration `j` of the loop of `APEX_cpu_run` (counted from `0`) meets the
stop test `APEX_writeback(cpu) || cpu->clock == cpu->cycle`. -/
def stops_at (cpu : APEX_CPU) (j : Nat) : Bool :=
  (APEX_writeback (ticks j cpu)).2 || decide ((ticks j cpu).clock = (ticks j cpu).cycle)

/-- The number of iterations among the first `k` whose Writeback found a live
instruction in its latch. -/
def retired_by (cpu : APEX_CPU) (k : Nat) : Nat :=
  ((List.range k).filter (fun j => (ticks j cpu).writeback.has_insn)).length

/-- The Fetch of iteration `j` reads inside the instruction table (or reads
nothing). -/
def fetch_in_range (cpu : APEX_CPU) (j : Nat) : Bool :=
  let c := APEX_decode (APEX_execute (APEX_memory (APEX_writeback (ticks j cpu)).1))
  !(c.fetch.has_insn && !c.fetch_from_next_cycle)
    || (decide (0 ≤ get_code_memory_index_from_pc c.pc)
        && decide (get_code_memory_index_from_pc c.pc < c.code_memory.length))

/-- The opcodes whose Execute case updates the flags from the result: ADD, ADDL,
SUB, SUBL and MUL. -/
def sets_flags : Opcode → Bool
  | OPCODE_ADD | OPCODE_ADDL | OPCODE_SUB | OPCODE_SUBL | OPCODE_MUL => true
  | _ => false

/-- The bitwise opcodes AND, OR and XOR. -/
def is_bitwise : Opcode → Bool
  | OPCODE_AND | OPCODE_OR | OPCODE_XOR => true
  | _ => false

/-- No NOP in the front of the pipeline carries a non-zero `rs1_value`: the
Fetch latch does not, nor does a NOP in the Decode or Execute latch. -/
def nop_operand_zero (s : APEX_CPU) : Prop :=
  s.fetch.rs1_value = 0
  ∧ (s.decode.opcode = OPCODE_NOP → s.decode.rs1_value = 0)
  ∧ (s.execute.opcode = OPCODE_NOP → s.execute.rs1_value = 0)

/-! ## In-order reference semantics

The register file obtained by executing instructions one at a time, each
reading and writing the register file directly. -/

/-- The opcodes of the register-to-register programs: MOVC and the arithmetic
and bitwise instructions. -/
def is_alu : Opcode → Bool
  | OPCODE_MOVC | OPCODE_ADD | OPCODE_SUB | OPCODE_MUL | OPCODE_AND | OPCODE_OR | OPCODE_XOR
  | OPCODE_ADDL | OPCODE_SUBL => true
  | _ => false

/-- The value an instruction computes from the register file. -/
def seq_result (i : APEX_Instruction) (regs : Nat → Int) : Int :=
  match i.opcode with
  | OPCODE_MOVC => i.imm
  | OPCODE_ADD => add32 (regs i.rs1) (regs i.rs2)
  | OPCODE_SUB => sub32 (regs i.rs1) (regs i.rs2)
  | OPCODE_MUL => mul32 (regs i.rs1) (regs i.rs2)
  | OPCODE_AND => and32 (regs i.rs1) (regs i.rs2)
  | OPCODE_OR => or32 (regs i.rs1) (regs i.rs2)
  | OPCODE_XOR => xor32 (regs i.rs1) (regs i.rs2)
  | OPCODE_ADDL => add32 (regs i.rs1) i.imm
  | OPCODE_SUBL => sub32 (regs i.rs1) i.imm
  | _ => 0

/-- One instruction executed directly on the register file. -/
def seq_step (regs : Nat → Int) (i : APEX_Instruction) : Nat → Int :=
  if is_alu i.opcode then upd regs i.rd (seq_result i regs) else regs

/-- A program executed in order on an all-zero register file. -/
def seq_exec (prog : List APEX_Instruction) : Nat → Int :=
  prog.foldl seq_step (fun _ => 0)

/-! ## Programs of the scenarios -/

/-- The instruction `MOVC rd,#imm`. -/
def MOVC (rd : Nat) (imm : Int) : APEX_Instruction :=
  { opcode := OPCODE_MOVC, rd := rd, rs1 := 0, rs2 := 0, imm := imm }

/-- The instruction `ADD rd,rs1,rs2`. -/
def ADD (rd rs1 rs2 : Nat) : APEX_Instruction :=
  { opcode := OPCODE_ADD, rd := rd, rs1 := rs1, rs2 := rs2, imm := 0 }

/-- The instruction `BZ #imm`. -/
def BZ (imm : Int) : APEX_Instruction :=
  { opcode := OPCODE_BZ, rd := 0, rs1 := 0, rs2 := 0, imm := imm }

/-- The instruction `HALT`. -/
def HALT : APEX_Instruction :=
  { opcode := OPCODE_HALT, rd := 0, rs1 := 0, rs2 := 0, imm := 0 }

/-- The instruction `JUMP rs1,#imm`. -/
def JUMP (rs1 : Nat) (imm : Int) : APEX_Instruction :=
  { opcode := OPCODE_JUMP, rd := 0, rs1 := rs1, rs2 := 0, imm := imm }

/-- The instruction `STORE rs2,rs1,#imm`: the word of `rs2` goes to address `rs1 + imm`. -/
def STORE (rs2 rs1 : Nat) (imm : Int) : APEX_Instruction :=
  { opcode := OPCODE_STORE, rd := 0, rs1 := rs1, rs2 := rs2, imm := imm }

/-- The instruction `LOAD rd,rs1,#imm`. -/
def LOAD (rd rs1 : Nat) (imm : Int) : APEX_Instruction :=
  { opcode := OPCODE_LOAD, rd := rd, rs1 := rs1, rs2 := 0, imm := imm }

/-- The instruction `LDI rd,rs1,#imm`. -/
def LDI (rd rs1 : Nat) (imm : Int) : APEX_Instruction :=
  { opcode := OPCODE_LDI, rd := rd, rs1 := rs1, rs2 := 0, imm := imm }

/-- The program of the first scenario. -/
def prog_add (x y : Int) (Ra Rb Rd : Nat) : List APEX_Instruction :=
  [MOVC Ra x, MOVC Rb y, ADD Rd Ra Rb, HALT]

/-- The program of the branch scenario. -/
def prog_bz (a b : Int) : List APEX_Instruction :=
  [MOVC 0 0, BZ 8, MOVC 1 a, MOVC 1 b, HALT]

/-- A program that loops for ever: `JUMP R0,#4000` with `R0 = 0` goes back to
the first instruction; the second instruction is fetched and flushed each time. -/
def prog_loop : List APEX_Instruction :=
  [JUMP 0 4000, MOVC 1 0]

/-- A store of 7 to address 0 followed by a load-with-increment from it. -/
def prog_ldi : List APEX_Instruction :=
  [MOVC 0 7, STORE 0 1 0, LDI 2 1 0, HALT]

/-- A store of 7 to address 0 followed by a load from it. -/
def prog_load : List APEX_Instruction :=
  [MOVC 0 7, STORE 0 1 0, LOAD 2 1 0, HALT]

/-- Two consecutive writers of `R0`. -/
def prog_two_movc : List APEX_Instruction :=
  [MOVC 0 1, MOVC 0 2, HALT]

/-- The instruction `AND rd,rs1,rs2`. -/
def AND (rd rs1 rs2 : Nat) : APEX_Instruction :=
  { opcode := OPCODE_AND, rd := rd, rs1 := rs1, rs2 := rs2, imm := 0 }

/-- The instruction `DIV rd,rs1,rs2`. -/
def DIV (rd rs1 rs2 : Nat) : APEX_Instruction :=
  { opcode := OPCODE_DIV, rd := rd, rs1 := rs1, rs2 := rs2, imm := 0 }

/-- The instruction `STI rs2,rs1,#imm`: the word of `rs2` goes to address
`rs1 + imm` and `rs1` is incremented. -/
def STI (rs2 rs1 : Nat) (imm : Int) : APEX_Instruction :=
  { opcode := OPCODE_STI, rd := 0, rs1 := rs1, rs2 := rs2, imm := imm }

/-- The instruction `NOP`, with the immediate the loader left in its entry. -/
def NOP (imm : Int) : APEX_Instruction :=
  { opcode := OPCODE_NOP, rd := 0, rs1 := 0, rs2 := 0, imm := imm }

/-- A bitwise instruction with result zero. -/
def prog_and : List APEX_Instruction :=
  [AND 1 0 0, HALT]

/-- An addition with a negative result. -/
def prog_neg : List APEX_Instruction :=
  [MOVC 0 (-1), ADD 1 0 0, HALT]

/-- A store-with-increment of 7 to address 0 with base `R1`. -/
def prog_sti : List APEX_Instruction :=
  [MOVC 0 7, STI 0 1 0, HALT]

/-- A program with an opcode that no stage handles. -/
def prog_div : List APEX_Instruction :=
  [DIV 1 0 0, HALT]

/-- A branch taken over a HALT that has already been fetched. -/
def prog_bz_halt : List APEX_Instruction :=
  [MOVC 0 0, BZ 8, HALT, MOVC 1 2, HALT]

/-- The program of the write-after-write scenario. -/
def prog_waw : List APEX_Instruction :=
  [MOVC 0 1, MOVC 0 2, MOVC 5 0, ADD 1 0 0, HALT]

/-- A NOP whose immediate is the address of the HALT that follows the MOVC. -/
def prog_nop : List APEX_Instruction :=
  [NOP 4008, MOVC 0 1, HALT]

/-! ## Straight-line programs

The vocabulary of the claims about programs without branches: which latch
holds which instruction at the start of which iteration. -/

/-- The opcodes whose Execute case can redirect Fetch: the conditional branches,
JUMP and NOP. -/
def may_redirect : Opcode → Bool
  | OPCODE_BP | OPCODE_BNP | OPCODE_BZ | OPCODE_BNZ | OPCODE_JUMP | OPCODE_NOP => true
  | _ => false

/-- The entry of index `i` of the program `P`. -/
def insn_at (P : List APEX_Instruction) (i : Nat) : APEX_Instruction :=
  P.getD i undefined_insn

/-- The address of the entry of index `i`. -/
def pc_of (i : Nat) : Int := 4000 + 4 * (i : Int)

/-- A non-empty program that contains no branch, JUMP or NOP, whose only HALT
is its last instruction and whose addresses fit a C `int`. -/
def straight_line (P : List APEX_Instruction) : Prop :=
  0 < P.length
  ∧ pc_of P.length ≤ 2147483647
  ∧ (∀ i, i < P.length → may_redirect (insn_at P i).opcode = false)
  ∧ (∀ i, i < P.length → ((insn_at P i).opcode = OPCODE_HALT ↔ i + 1 = P.length))

/-- The latches `a` and `b` carry the same instruction: address, opcode,
register numbers and immediate agree. -/
def same_insn (a b : CPU_Stage) : Prop :=
  a.pc = b.pc ∧ a.opcode = b.opcode ∧ a.rd = b.rd ∧ a.rs1 = b.rs1 ∧ a.rs2 = b.rs2
    ∧ a.imm = b.imm

/-- The latch `l` holds, live, the entry of index `i` of `P`. -/
def latch_holds (P : List APEX_Instruction) (i : Nat) (l : CPU_Stage) : Prop :=
  l.has_insn = true ∧ l.pc = pc_of i ∧ l.opcode = (insn_at P i).opcode
    ∧ l.rd = (insn_at P i).rd ∧ l.rs1 = (insn_at P i).rs1 ∧ l.rs2 = (insn_at P i).rs2
    ∧ l.imm = (insn_at P i).imm

/-- At the start of iteration `t` the latch `l` of the stage `d` places behind
Fetch holds the entry of index `t - d` if the program has one, and is not live
otherwise. -/
def stage_at (P : List APEX_Instruction) (t d : Nat) (l : CPU_Stage) : Prop :=
  (d ≤ t ∧ t < P.length + d → latch_holds P (t - d) l)
  ∧ (¬ (d ≤ t ∧ t < P.length + d) → l.has_insn = false)

/-- The state of the pipeline at the start of iteration `t` of a straight-line
program `P`: Fetch is about to fetch the entry of index `t` (or is disabled when
there is none left), the Decode, Execute, Memory and Writeback latches hold the
entries of index `t - 1`, `t - 2`, `t - 3` and `t - 4`, and the entries of
index below `t - 4` have been retired. -/
def schedule (P : List APEX_Instruction) (t : Nat) (s : APEX_CPU) : Prop :=
  s.code_memory = P
  ∧ s.fetch_from_next_cycle = false
  ∧ s.pc = pc_of (min t P.length)
  ∧ (s.fetch.has_insn = true ↔ t < P.length)
  ∧ stage_at P t 1 s.decode
  ∧ stage_at P t 2 s.execute
  ∧ stage_at P t 3 s.memory
  ∧ stage_at P t 4 s.writeback
  ∧ s.insn_completed = ((min (t - 4) P.length : Nat) : Int)

/-- A body of MOVC, arithmetic and bitwise instructions in which no two
consecutive instructions have the same destination register. -/
def alu_program (body : List APEX_Instruction) : Prop :=
  (∀ i, i < body.length → is_alu (insn_at body i).opcode = true)
  ∧ (∀ i, i < body.length → i + 1 < body.length →
      (insn_at body i).rd ≠ (insn_at body (i + 1)).rd)

/-- The register file after the first `k` entries of `P` have been executed in
order. -/
def seq_regs (P : List APEX_Instruction) (k : Nat) : Nat → Int :=
  seq_exec (P.take k)

/-- The operand values in the latch `l` are those the entry of index `j` reads
from the in-order register file. -/
def operands_in_order (P : List APEX_Instruction) (j : Nat) (l : CPU_Stage) : Prop :=
  (reads_rs1 (insn_at P j).opcode = true → l.rs1_value = seq_regs P j (insn_at P j).rs1)
  ∧ (reads_rs2 (insn_at P j).opcode = true → l.rs2_value = seq_regs P j (insn_at P j).rs2)

/-- The data of the pipeline at the start of iteration `t`, in terms of in-order
execution: `regs` holds the results of the entries below `t - 4`, `reg_values`
those of the entries below `t - 2`, the Execute latch holds in-order operands,
the Memory and Writeback latches hold in-order results, and the destination of
the entry in the Memory latch is pending. -/
def in_order_data (P : List APEX_Instruction) (t : Nat) (s : APEX_CPU) : Prop :=
  s.regs = seq_regs P (t - 4)
  ∧ s.reg_values = seq_regs P (t - 2)
  ∧ (s.execute.has_insn = true → operands_in_order P (t - 2) s.execute)
  ∧ (s.memory.has_insn = true → is_alu (insn_at P (t - 3)).opcode = true →
      s.memory.result_buffer = seq_result (insn_at P (t - 3)) (seq_regs P (t - 3))
      ∧ s.regsStatus (insn_at P (t - 3)).rd = TRUE)
  ∧ (s.writeback.has_insn = true → is_alu (insn_at P (t - 4)).opcode = true →
      s.writeback.result_buffer = seq_result (insn_at P (t - 4)) (seq_regs P (t - 4)))

/-! ## Vocabulary of the frame and result statements -/

/-- The opcodes of the last case of the `switch` of Writeback, which does no
work: STORE, HALT, CMP, the conditional branches, NOP and JUMP. -/
def writeback_no_work : Opcode → Bool
  | OPCODE_STORE | OPCODE_HALT | OPCODE_CMP | OPCODE_BNZ | OPCODE_BZ | OPCODE_BP
  | OPCODE_BNP | OPCODE_NOP | OPCODE_JUMP => true
  | _ => false

/-- The opcodes whose Writeback case writes `regs[rd]` and nothing else in the
register file: ADD, SUB, MUL, AND, OR, XOR, ADDL, SUBL, MOVC and LOAD. -/
def writes_rd_only : Opcode → Bool
  | OPCODE_ADD | OPCODE_SUB | OPCODE_MUL | OPCODE_AND | OPCODE_OR | OPCODE_XOR
  | OPCODE_ADDL | OPCODE_SUBL | OPCODE_MOVC | OPCODE_LOAD => true
  | _ => false

/-- The value of the operation of an arithmetic or bitwise instruction on the
operands in the latch `l`, as an integer, before the reduction to 32 bits. -/
def alu_exact (l : CPU_Stage) : Int :=
  match l.opcode with
  | OPCODE_ADD => l.rs1_value + l.rs2_value
  | OPCODE_SUB => l.rs1_value - l.rs2_value
  | OPCODE_MUL => l.rs1_value * l.rs2_value
  | OPCODE_AND => Int.land l.rs1_value l.rs2_value
  | OPCODE_OR => Int.lor l.rs1_value l.rs2_value
  | OPCODE_XOR => Int.xor l.rs1_value l.rs2_value
  | OPCODE_ADDL => l.rs1_value + l.imm
  | OPCODE_SUBL => l.rs1_value - l.imm
  | _ => 0

/-- The instruction `CMP rs1,rs2`. -/
def CMP (rs1 rs2 : Nat) : APEX_Instruction :=
  { opcode := OPCODE_CMP, rd := 0, rs1 := rs1, rs2 := rs2, imm := 0 }

/-- A comparison of 3 with 5. -/
def prog_cmp : List APEX_Instruction :=
  [MOVC 0 3, MOVC 1 5, CMP 0 1, HALT]

/-! ## Vocabulary of the budget statement -/

/-- The address `pc` selects an entry of the instruction table `code`. -/
def in_table (code : List APEX_Instruction) (pc : Int) : Prop :=
  0 ≤ get_code_memory_index_from_pc pc
    ∧ get_code_memory_index_from_pc pc < (code.length : Int)

/-- No entry of the program is retired more than once by the Writebacks of
iterations `0..n`: two different iterations whose Writeback latch is live hold
instructions fetched from different entries of the table. -/
def retired_once (cpu : APEX_CPU) (n : Nat) : Prop :=
  ∀ i, i ≤ n → ∀ j, j ≤ n →
    (ticks i cpu).writeback.has_insn = true → (ticks j cpu).writeback.has_insn = true →
    get_code_memory_index_from_pc (ticks i cpu).writeback.pc
      = get_code_memory_index_from_pc (ticks j cpu).writeback.pc → i = j

/-! ## Stage lemmas

Each handler is characterised field by field: which fields of the machine it
leaves alone and how it computes the others. -/

theorem upd_same {α : Type} [DecidableEq α] (a : α → Int) (i : α) (v : Int) :
    upd a i v i = v := by
  simp [upd]

theorem upd_other {α : Type} [DecidableEq α] (a : α → Int) (i j : α) (v : Int) (h : j ≠ i) :
    upd a i v j = a j := by
  simp [upd, h]

theorem upd_apply {α : Type} [DecidableEq α] (a : α → Int) (i j : α) (v : Int) :
    upd a i v j = if j = i then v else a j := rfl

/-- Inside the 32-bit range `wrap32` is the identity. -/
theorem wrap32_of_range (x : Int) (h1 : -2147483648 ≤ x) (h2 : x ≤ 2147483647) :
    wrap32 x = x := by
  unfold wrap32
  omega

/-- The C sum of two integers is their sum when that fits an `int`. -/
theorem add32_of_range (a b : Int) (h1 : -2147483648 ≤ a + b) (h2 : a + b ≤ 2147483647) :
    add32 a b = a + b :=
  wrap32_of_range (a + b) h1 h2

/-- The arithmetic flag update, field by field. -/
theorem set_arith_flags_eq (cpu : APEX_CPU) (r : Int) :
    set_arith_flags cpu r = { cpu with zero_flag := decide (r = 0), pos_flag := decide (r ≠ 0) } := by
  unfold set_arith_flags
  by_cases h : r = 0
  · simp [h]
  · by_cases h2 : r > 0 <;> simp [h, h2]

/-- The `switch` of Writeback, field by field. -/
theorem writeback_dispatch_eqs (cpu : APEX_CPU) :
    (writeback_dispatch cpu).pc = cpu.pc
    ∧ (writeback_dispatch cpu).clock = cpu.clock
    ∧ (writeback_dispatch cpu).insn_completed = cpu.insn_completed
    ∧ (writeback_dispatch cpu).reg_values = cpu.reg_values
    ∧ (writeback_dispatch cpu).code_memory = cpu.code_memory
    ∧ (writeback_dispatch cpu).data_memory = cpu.data_memory
    ∧ (writeback_dispatch cpu).single_step = cpu.single_step
    ∧ (writeback_dispatch cpu).simulate = cpu.simulate
    ∧ (writeback_dispatch cpu).cycle = cpu.cycle
    ∧ (writeback_dispatch cpu).zero_flag = cpu.zero_flag
    ∧ (writeback_dispatch cpu).pos_flag = cpu.pos_flag
    ∧ (writeback_dispatch cpu).fetch_from_next_cycle = cpu.fetch_from_next_cycle
    ∧ (writeback_dispatch cpu).fetch = cpu.fetch
    ∧ (writeback_dispatch cpu).decode = cpu.decode
    ∧ (writeback_dispatch cpu).execute = cpu.execute
    ∧ (writeback_dispatch cpu).memory = cpu.memory
    ∧ (writeback_dispatch cpu).writeback = cpu.writeback
    ∧ (writeback_dispatch cpu).regs
      = (if cpu.writeback.opcode = OPCODE_LDI then
          upd (upd cpu.regs cpu.writeback.rs1 cpu.writeback.rs1_value)
            cpu.writeback.rd cpu.writeback.result_buffer
        else if cpu.writeback.opcode = OPCODE_STI then
          upd cpu.regs cpu.writeback.rs1 cpu.writeback.rs1_value
        else if commits_rd cpu.writeback.opcode then
          upd cpu.regs cpu.writeback.rd cpu.writeback.result_buffer
        else cpu.regs)
    ∧ (writeback_dispatch cpu).regsStatus
      = (if cpu.writeback.opcode = OPCODE_STI then
          upd cpu.regsStatus cpu.writeback.rs1 FALSE
        else if commits_rd cpu.writeback.opcode then
          upd cpu.regsStatus cpu.writeback.rd FALSE
        else cpu.regsStatus) := by
  cases h : cpu.writeback.opcode <;> simp [writeback_dispatch, h, commits_rd]

/-- Writeback, field by field. -/
theorem APEX_writeback_eqs (cpu : APEX_CPU) :
    (APEX_writeback cpu).1.pc = cpu.pc
    ∧ (APEX_writeback cpu).1.clock = cpu.clock
    ∧ (APEX_writeback cpu).1.reg_values = cpu.reg_values
    ∧ (APEX_writeback cpu).1.code_memory = cpu.code_memory
    ∧ (APEX_writeback cpu).1.data_memory = cpu.data_memory
    ∧ (APEX_writeback cpu).1.single_step = cpu.single_step
    ∧ (APEX_writeback cpu).1.simulate = cpu.simulate
    ∧ (APEX_writeback cpu).1.cycle = cpu.cycle
    ∧ (APEX_writeback cpu).1.zero_flag = cpu.zero_flag
    ∧ (APEX_writeback cpu).1.pos_flag = cpu.pos_flag
    ∧ (APEX_writeback cpu).1.fetch_from_next_cycle = cpu.fetch_from_next_cycle
    ∧ (APEX_writeback cpu).1.fetch = cpu.fetch
    ∧ (APEX_writeback cpu).1.decode = cpu.decode
    ∧ (APEX_writeback cpu).1.execute = cpu.execute
    ∧ (APEX_writeback cpu).1.memory = cpu.memory
    ∧ (APEX_writeback cpu).1.insn_completed
      = (if cpu.writeback.has_insn then cpu.insn_completed + 1 else cpu.insn_completed)
    ∧ (APEX_writeback cpu).1.writeback = { cpu.writeback with has_insn := false }
    ∧ (APEX_writeback cpu).1.regs
      = (if cpu.writeback.has_insn then (writeback_dispatch cpu).regs else cpu.regs)
    ∧ (APEX_writeback cpu).1.regsStatus
      = (if cpu.writeback.has_insn then (writeback_dispatch cpu).regsStatus else cpu.regsStatus)
    ∧ (APEX_writeback cpu).2
      = (cpu.writeback.has_insn && decide (cpu.writeback.opcode = OPCODE_HALT)) := by
  have hd := writeback_dispatch_eqs cpu
  cases h : cpu.writeback.has_insn
  · have hw : cpu.writeback = { cpu.writeback with has_insn := false } := by
      rcases hw : cpu.writeback with ⟨_, _, _, _, _, _, _, _, _, _, b⟩
      rw [hw] at h
      simp only at h
      rw [h]
    simp [APEX_writeback, h, ← hw]
  · simp [APEX_writeback, h, hd]

/-- The `switch` of the Memory stage, field by field. -/
theorem memory_dispatch_eqs (cpu : APEX_CPU) :
    (memory_dispatch cpu).pc = cpu.pc
    ∧ (memory_dispatch cpu).clock = cpu.clock
    ∧ (memory_dispatch cpu).insn_completed = cpu.insn_completed
    ∧ (memory_dispatch cpu).regs = cpu.regs
    ∧ (memory_dispatch cpu).regsStatus = cpu.regsStatus
    ∧ (memory_dispatch cpu).reg_values = cpu.reg_values
    ∧ (memory_dispatch cpu).code_memory = cpu.code_memory
    ∧ (memory_dispatch cpu).single_step = cpu.single_step
    ∧ (memory_dispatch cpu).simulate = cpu.simulate
    ∧ (memory_dispatch cpu).cycle = cpu.cycle
    ∧ (memory_dispatch cpu).zero_flag = cpu.zero_flag
    ∧ (memory_dispatch cpu).pos_flag = cpu.pos_flag
    ∧ (memory_dispatch cpu).fetch_from_next_cycle = cpu.fetch_from_next_cycle
    ∧ (memory_dispatch cpu).fetch = cpu.fetch
    ∧ (memory_dispatch cpu).decode = cpu.decode
    ∧ (memory_dispatch cpu).execute = cpu.execute
    ∧ (memory_dispatch cpu).writeback = cpu.writeback
    ∧ (memory_dispatch cpu).data_memory
      = (if is_store cpu.memory.opcode
        then upd cpu.data_memory cpu.memory.memory_address cpu.memory.rs2_value
        else cpu.data_memory)
    ∧ (memory_dispatch cpu).memory
      = (if is_load cpu.memory.opcode
        then { cpu.memory with result_buffer := cpu.data_memory cpu.memory.memory_address }
        else cpu.memory) := by
  cases h : cpu.memory.opcode <;> simp [memory_dispatch, h, is_store, is_load]

/-- The Memory stage, field by field. -/
theorem APEX_memory_eqs (cpu : APEX_CPU) :
    (APEX_memory cpu).pc = cpu.pc
    ∧ (APEX_memory cpu).clock = cpu.clock
    ∧ (APEX_memory cpu).insn_completed = cpu.insn_completed
    ∧ (APEX_memory cpu).regs = cpu.regs
    ∧ (APEX_memory cpu).regsStatus = cpu.regsStatus
    ∧ (APEX_memory cpu).reg_values = cpu.reg_values
    ∧ (APEX_memory cpu).code_memory = cpu.code_memory
    ∧ (APEX_memory cpu).single_step = cpu.single_step
    ∧ (APEX_memory cpu).simulate = cpu.simulate
    ∧ (APEX_memory cpu).cycle = cpu.cycle
    ∧ (APEX_memory cpu).zero_flag = cpu.zero_flag
    ∧ (APEX_memory cpu).pos_flag = cpu.pos_flag
    ∧ (APEX_memory cpu).fetch_from_next_cycle = cpu.fetch_from_next_cycle
    ∧ (APEX_memory cpu).fetch = cpu.fetch
    ∧ (APEX_memory cpu).decode = cpu.decode
    ∧ (APEX_memory cpu).execute = cpu.execute
    ∧ (APEX_memory cpu).data_memory
      = (if cpu.memory.has_insn then (memory_dispatch cpu).data_memory else cpu.data_memory)
    ∧ (APEX_memory cpu).writeback
      = (if cpu.memory.has_insn then (memory_dispatch cpu).memory else cpu.writeback)
    ∧ (APEX_memory cpu).memory
      = (if cpu.memory.has_insn then { (memory_dispatch cpu).memory with has_insn := false }
        else cpu.memory) := by
  have hd := memory_dispatch_eqs cpu
  cases h : cpu.memory.has_insn <;> simp [APEX_memory, h, hd]

/-- What the `switch` of Execute leaves alone. -/
theorem execute_dispatch_frame (cpu : APEX_CPU) :
    (execute_dispatch cpu).clock = cpu.clock
    ∧ (execute_dispatch cpu).insn_completed = cpu.insn_completed
    ∧ (execute_dispatch cpu).regs = cpu.regs
    ∧ (execute_dispatch cpu).code_memory = cpu.code_memory
    ∧ (execute_dispatch cpu).data_memory = cpu.data_memory
    ∧ (execute_dispatch cpu).single_step = cpu.single_step
    ∧ (execute_dispatch cpu).simulate = cpu.simulate
    ∧ (execute_dispatch cpu).cycle = cpu.cycle
    ∧ (execute_dispatch cpu).memory = cpu.memory
    ∧ (execute_dispatch cpu).writeback = cpu.writeback := by
  cases h : cpu.execute.opcode <;>
    simp only [execute_dispatch, h, mark_pending, set_arith_flags_eq, redirect] <;>
    (try split_ifs) <;> simp

/-- The `switch` of Execute, case by case, with the flag updates written field by field. -/
theorem execute_dispatch_cases (cpu : APEX_CPU) :
    (cpu.execute.opcode = OPCODE_ADD → execute_dispatch cpu =
      { cpu with
        execute := { cpu.execute with result_buffer := add32 cpu.execute.rs1_value cpu.execute.rs2_value }
        zero_flag := decide (add32 cpu.execute.rs1_value cpu.execute.rs2_value = 0)
        pos_flag := decide (add32 cpu.execute.rs1_value cpu.execute.rs2_value ≠ 0)
        regsStatus := upd cpu.regsStatus cpu.execute.rd TRUE
        reg_values := upd cpu.reg_values cpu.execute.rd (add32 cpu.execute.rs1_value cpu.execute.rs2_value) })
    ∧ (cpu.execute.opcode = OPCODE_ADDL → execute_dispatch cpu =
      { cpu with
        execute := { cpu.execute with result_buffer := add32 cpu.execute.rs1_value cpu.execute.imm }
        zero_flag := decide (add32 cpu.execute.rs1_value cpu.execute.imm = 0)
        pos_flag := decide (add32 cpu.execute.rs1_value cpu.execute.imm ≠ 0)
        regsStatus := upd cpu.regsStatus cpu.execute.rd TRUE
        reg_values := upd cpu.reg_values cpu.execute.rd (add32 cpu.execute.rs1_value cpu.execute.imm) })
    ∧ (cpu.execute.opcode = OPCODE_SUB → execute_dispatch cpu =
      { cpu with
        execute := { cpu.execute with result_buffer := sub32 cpu.execute.rs1_value cpu.execute.rs2_value }
        zero_flag := decide (sub32 cpu.execute.rs1_value cpu.execute.rs2_value = 0)
        pos_flag := decide (sub32 cpu.execute.rs1_value cpu.execute.rs2_value ≠ 0)
        regsStatus := upd cpu.regsStatus cpu.execute.rd TRUE
        reg_values := upd cpu.reg_values cpu.execute.rd (sub32 cpu.execute.rs1_value cpu.execute.rs2_value) })
    ∧ (cpu.execute.opcode = OPCODE_SUBL → execute_dispatch cpu =
      { cpu with
        execute := { cpu.execute with result_buffer := sub32 cpu.execute.rs1_value cpu.execute.imm }
        zero_flag := decide (sub32 cpu.execute.rs1_value cpu.execute.imm = 0)
        pos_flag := decide (sub32 cpu.execute.rs1_value cpu.execute.imm ≠ 0)
        regsStatus := upd cpu.regsStatus cpu.execute.rd TRUE
        reg_values := upd cpu.reg_values cpu.execute.rd (sub32 cpu.execute.rs1_value cpu.execute.imm) })
    ∧ (cpu.execute.opcode = OPCODE_MUL → execute_dispatch cpu =
      { cpu with
        execute := { cpu.execute with result_buffer := mul32 cpu.execute.rs1_value cpu.execute.rs2_value }
        zero_flag := decide (mul32 cpu.execute.rs1_value cpu.execute.rs2_value = 0)
        pos_flag := decide (mul32 cpu.execute.rs1_value cpu.execute.rs2_value ≠ 0)
        regsStatus := upd cpu.regsStatus cpu.execute.rd TRUE
        reg_values := upd cpu.reg_values cpu.execute.rd (mul32 cpu.execute.rs1_value cpu.execute.rs2_value) })
    ∧ (cpu.execute.opcode = OPCODE_AND → execute_dispatch cpu =
      { cpu with
        execute := { cpu.execute with result_buffer := and32 cpu.execute.rs1_value cpu.execute.rs2_value }
        regsStatus := upd cpu.regsStatus cpu.execute.rd TRUE
        reg_values := upd cpu.reg_values cpu.execute.rd (and32 cpu.execute.rs1_value cpu.execute.rs2_value) })
    ∧ (cpu.execute.opcode = OPCODE_OR → execute_dispatch cpu =
      { cpu with
        execute := { cpu.execute with result_buffer := or32 cpu.execute.rs1_value cpu.execute.rs2_value }
        regsStatus := upd cpu.regsStatus cpu.execute.rd TRUE
        reg_values := upd cpu.reg_values cpu.execute.rd (or32 cpu.execute.rs1_value cpu.execute.rs2_value) })
    ∧ (cpu.execute.opcode = OPCODE_XOR → execute_dispatch cpu =
      { cpu with
        execute := { cpu.execute with result_buffer := xor32 cpu.execute.rs1_value cpu.execute.rs2_value }
        regsStatus := upd cpu.regsStatus cpu.execute.rd TRUE
        reg_values := upd cpu.reg_values cpu.execute.rd (xor32 cpu.execute.rs1_value cpu.execute.rs2_value) })
    ∧ (cpu.execute.opcode = OPCODE_LOAD → execute_dispatch cpu =
      { cpu with
        execute := { cpu.execute with memory_address := add32 cpu.execute.rs1_value cpu.execute.imm }
        regsStatus := upd cpu.regsStatus cpu.execute.rd TRUE
        reg_values := upd cpu.reg_values cpu.execute.rd cpu.execute.result_buffer })
    ∧ (cpu.execute.opcode = OPCODE_LDI → execute_dispatch cpu =
      { cpu with
        execute := { cpu.execute with
          memory_address := add32 cpu.execute.rs1_value cpu.execute.imm
          result_buffer := add32 cpu.execute.rs1_value 4 }
        regsStatus := upd cpu.regsStatus cpu.execute.rd TRUE
        reg_values := upd cpu.reg_values cpu.execute.rd (add32 cpu.execute.rs1_value 4) })
    ∧ (cpu.execute.opcode = OPCODE_STORE → execute_dispatch cpu =
      { cpu with
        execute := { cpu.execute with memory_address := add32 cpu.execute.rs1_value cpu.execute.imm } })
    ∧ (cpu.execute.opcode = OPCODE_STI → execute_dispatch cpu =
      { cpu with
        execute := { cpu.execute with
          memory_address := add32 cpu.execute.rs1_value cpu.execute.imm
          rs1_value := add32 cpu.execute.rs1_value 4 } })
    ∧ (cpu.execute.opcode = OPCODE_BP → execute_dispatch cpu =
      (if cpu.pos_flag = true then redirect cpu (add32 cpu.execute.pc cpu.execute.imm) else cpu))
    ∧ (cpu.execute.opcode = OPCODE_BZ → execute_dispatch cpu =
      (if cpu.zero_flag = true then redirect cpu (add32 cpu.execute.pc cpu.execute.imm) else cpu))
    ∧ (cpu.execute.opcode = OPCODE_BNP → execute_dispatch cpu =
      (if cpu.pos_flag = false then redirect cpu (add32 cpu.execute.pc cpu.execute.imm) else cpu))
    ∧ (cpu.execute.opcode = OPCODE_BNZ → execute_dispatch cpu =
      (if cpu.zero_flag = false then redirect cpu (add32 cpu.execute.pc cpu.execute.imm) else cpu))
    ∧ (cpu.execute.opcode = OPCODE_MOVC → execute_dispatch cpu =
      { cpu with
        execute := { cpu.execute with result_buffer := cpu.execute.imm }
        zero_flag := decide (cpu.execute.imm = 0)
        regsStatus := upd cpu.regsStatus cpu.execute.rd TRUE
        reg_values := upd cpu.reg_values cpu.execute.rd cpu.execute.imm })
    ∧ (cpu.execute.opcode = OPCODE_CMP → execute_dispatch cpu =
      { cpu with
        pos_flag := decide (cpu.execute.rs1_value > cpu.execute.rs2_value)
        zero_flag := decide (cpu.execute.rs1_value = cpu.execute.rs2_value) })
    ∧ (cpu.execute.opcode = OPCODE_NOP → execute_dispatch cpu =
      redirect cpu (add32 cpu.execute.rs1_value cpu.execute.imm))
    ∧ (cpu.execute.opcode = OPCODE_JUMP → execute_dispatch cpu =
      redirect cpu (add32 cpu.execute.rs1_value cpu.execute.imm))
    ∧ (cpu.execute.opcode = OPCODE_HALT → execute_dispatch cpu =
      cpu)
    ∧ (cpu.execute.opcode = OPCODE_DIV → execute_dispatch cpu =
      cpu) := by
  refine ⟨?_, ?_, ?_, ?_, ?_, ?_, ?_, ?_, ?_, ?_, ?_, ?_, ?_, ?_, ?_, ?_, ?_, ?_, ?_, ?_, ?_, ?_⟩ <;>
    intro h
  case refine_17 =>
    by_cases hz : cpu.execute.imm = 0 <;> simp [execute_dispatch, h, mark_pending, hz]
  case refine_18 =>
    rcases lt_trichotomy cpu.execute.rs1_value cpu.execute.rs2_value with hc | hc | hc
    · have h1 : ¬ cpu.execute.rs1_value > cpu.execute.rs2_value := by omega
      have h2 : ¬ cpu.execute.rs1_value = cpu.execute.rs2_value := by omega
      simp [execute_dispatch, h, hc, h1, h2]
    · simp [execute_dispatch, h, hc]
    · have h1 : ¬ cpu.execute.rs1_value < cpu.execute.rs2_value := by omega
      have h2 : ¬ cpu.execute.rs1_value = cpu.execute.rs2_value := by omega
      simp [execute_dispatch, h, hc, h1, h2]
  all_goals simp only [execute_dispatch, h, mark_pending, set_arith_flags_eq]

/-- Execute, field by field. -/
theorem APEX_execute_eqs (cpu : APEX_CPU) :
    (APEX_execute cpu).clock = cpu.clock
    ∧ (APEX_execute cpu).insn_completed = cpu.insn_completed
    ∧ (APEX_execute cpu).regs = cpu.regs
    ∧ (APEX_execute cpu).code_memory = cpu.code_memory
    ∧ (APEX_execute cpu).data_memory = cpu.data_memory
    ∧ (APEX_execute cpu).single_step = cpu.single_step
    ∧ (APEX_execute cpu).simulate = cpu.simulate
    ∧ (APEX_execute cpu).cycle = cpu.cycle
    ∧ (APEX_execute cpu).writeback = cpu.writeback
    ∧ (APEX_execute cpu).pc
      = (if cpu.execute.has_insn then (execute_dispatch cpu).pc else cpu.pc)
    ∧ (APEX_execute cpu).regsStatus
      = (if cpu.execute.has_insn then (execute_dispatch cpu).regsStatus else cpu.regsStatus)
    ∧ (APEX_execute cpu).reg_values
      = (if cpu.execute.has_insn then (execute_dispatch cpu).reg_values else cpu.reg_values)
    ∧ (APEX_execute cpu).zero_flag
      = (if cpu.execute.has_insn then (execute_dispatch cpu).zero_flag else cpu.zero_flag)
    ∧ (APEX_execute cpu).pos_flag
      = (if cpu.execute.has_insn then (execute_dispatch cpu).pos_flag else cpu.pos_flag)
    ∧ (APEX_execute cpu).fetch_from_next_cycle
      = (if cpu.execute.has_insn then (execute_dispatch cpu).fetch_from_next_cycle else cpu.fetch_from_next_cycle)
    ∧ (APEX_execute cpu).fetch
      = (if cpu.execute.has_insn then (execute_dispatch cpu).fetch else cpu.fetch)
    ∧ (APEX_execute cpu).decode
      = (if cpu.execute.has_insn then (execute_dispatch cpu).decode else cpu.decode)
    ∧ (APEX_execute cpu).memory
      = (if cpu.execute.has_insn then (execute_dispatch cpu).execute else cpu.memory)
    ∧ (APEX_execute cpu).execute
      = (if cpu.execute.has_insn then { (execute_dispatch cpu).execute with has_insn := false }
        else cpu.execute) := by
  have hd := execute_dispatch_frame cpu
  cases h : cpu.execute.has_insn <;> simp [APEX_execute, h, hd]

/-- The `switch` of Decode, field by field. -/
theorem decode_operands_eqs (cpu : APEX_CPU) :
    (decode_operands cpu).pc = cpu.decode.pc
    ∧ (decode_operands cpu).opcode = cpu.decode.opcode
    ∧ (decode_operands cpu).rs1 = cpu.decode.rs1
    ∧ (decode_operands cpu).rs2 = cpu.decode.rs2
    ∧ (decode_operands cpu).rd = cpu.decode.rd
    ∧ (decode_operands cpu).imm = cpu.decode.imm
    ∧ (decode_operands cpu).result_buffer = cpu.decode.result_buffer
    ∧ (decode_operands cpu).memory_address = cpu.decode.memory_address
    ∧ (decode_operands cpu).has_insn = cpu.decode.has_insn
    ∧ (decode_operands cpu).rs1_value
      = (if reads_rs1 cpu.decode.opcode then read_operand cpu cpu.decode.rs1
        else cpu.decode.rs1_value)
    ∧ (decode_operands cpu).rs2_value
      = (if reads_rs2 cpu.decode.opcode then read_operand cpu cpu.decode.rs2
        else cpu.decode.rs2_value) := by
  cases h : cpu.decode.opcode <;> simp [decode_operands, h, reads_rs1, reads_rs2]

/-- Decode, field by field. -/
theorem APEX_decode_eqs (cpu : APEX_CPU) :
    (APEX_decode cpu).pc = cpu.pc
    ∧ (APEX_decode cpu).clock = cpu.clock
    ∧ (APEX_decode cpu).insn_completed = cpu.insn_completed
    ∧ (APEX_decode cpu).regs = cpu.regs
    ∧ (APEX_decode cpu).regsStatus = cpu.regsStatus
    ∧ (APEX_decode cpu).reg_values = cpu.reg_values
    ∧ (APEX_decode cpu).code_memory = cpu.code_memory
    ∧ (APEX_decode cpu).data_memory = cpu.data_memory
    ∧ (APEX_decode cpu).single_step = cpu.single_step
    ∧ (APEX_decode cpu).simulate = cpu.simulate
    ∧ (APEX_decode cpu).cycle = cpu.cycle
    ∧ (APEX_decode cpu).zero_flag = cpu.zero_flag
    ∧ (APEX_decode cpu).pos_flag = cpu.pos_flag
    ∧ (APEX_decode cpu).fetch_from_next_cycle = cpu.fetch_from_next_cycle
    ∧ (APEX_decode cpu).fetch = cpu.fetch
    ∧ (APEX_decode cpu).memory = cpu.memory
    ∧ (APEX_decode cpu).writeback = cpu.writeback
    ∧ (APEX_decode cpu).execute
      = (if cpu.decode.has_insn then decode_operands cpu else cpu.execute)
    ∧ (APEX_decode cpu).decode
      = (if cpu.decode.has_insn then { decode_operands cpu with has_insn := false }
        else cpu.decode) := by
  cases h : cpu.decode.has_insn <;> simp [APEX_decode, h]

/-- Fetch, field by field. -/
theorem APEX_fetch_eqs (cpu : APEX_CPU) :
    (APEX_fetch cpu).clock = cpu.clock
    ∧ (APEX_fetch cpu).insn_completed = cpu.insn_completed
    ∧ (APEX_fetch cpu).regs = cpu.regs
    ∧ (APEX_fetch cpu).regsStatus = cpu.regsStatus
    ∧ (APEX_fetch cpu).reg_values = cpu.reg_values
    ∧ (APEX_fetch cpu).code_memory = cpu.code_memory
    ∧ (APEX_fetch cpu).data_memory = cpu.data_memory
    ∧ (APEX_fetch cpu).single_step = cpu.single_step
    ∧ (APEX_fetch cpu).simulate = cpu.simulate
    ∧ (APEX_fetch cpu).cycle = cpu.cycle
    ∧ (APEX_fetch cpu).zero_flag = cpu.zero_flag
    ∧ (APEX_fetch cpu).pos_flag = cpu.pos_flag
    ∧ (APEX_fetch cpu).execute = cpu.execute
    ∧ (APEX_fetch cpu).memory = cpu.memory
    ∧ (APEX_fetch cpu).writeback = cpu.writeback
    ∧ (APEX_fetch cpu).pc
      = (if cpu.fetch.has_insn = true ∧ cpu.fetch_from_next_cycle = false then add32 cpu.pc 4
        else cpu.pc)
    ∧ (APEX_fetch cpu).fetch_from_next_cycle
      = (if cpu.fetch.has_insn then false else cpu.fetch_from_next_cycle)
    ∧ (APEX_fetch cpu).decode
      = (if cpu.fetch.has_insn = true ∧ cpu.fetch_from_next_cycle = false then fetched_latch cpu
        else cpu.decode)
    ∧ (APEX_fetch cpu).fetch
      = (if cpu.fetch.has_insn = true ∧ cpu.fetch_from_next_cycle = false then
          (if (fetched_latch cpu).opcode = OPCODE_HALT
            then { fetched_latch cpu with has_insn := false } else fetched_latch cpu)
        else cpu.fetch) := by
  cases h : cpu.fetch.has_insn <;> cases h2 : cpu.fetch_from_next_cycle <;>
    simp [APEX_fetch, fetched_latch, h, h2]

/-- One tick is the five handlers in the order Writeback, Memory, Execute, Decode, Fetch, and one more clock cycle. -/
theorem tick_eqs (cpu : APEX_CPU) :
    (tick cpu).pc = (APEX_fetch (APEX_decode (APEX_execute (APEX_memory (APEX_writeback cpu).1)))).pc
    ∧ (tick cpu).insn_completed = (APEX_fetch (APEX_decode (APEX_execute (APEX_memory (APEX_writeback cpu).1)))).insn_completed
    ∧ (tick cpu).regs = (APEX_fetch (APEX_decode (APEX_execute (APEX_memory (APEX_writeback cpu).1)))).regs
    ∧ (tick cpu).regsStatus = (APEX_fetch (APEX_decode (APEX_execute (APEX_memory (APEX_writeback cpu).1)))).regsStatus
    ∧ (tick cpu).reg_values = (APEX_fetch (APEX_decode (APEX_execute (APEX_memory (APEX_writeback cpu).1)))).reg_values
    ∧ (tick cpu).code_memory = (APEX_fetch (APEX_decode (APEX_execute (APEX_memory (APEX_writeback cpu).1)))).code_memory
    ∧ (tick cpu).data_memory = (APEX_fetch (APEX_decode (APEX_execute (APEX_memory (APEX_writeback cpu).1)))).data_memory
    ∧ (tick cpu).single_step = (APEX_fetch (APEX_decode (APEX_execute (APEX_memory (APEX_writeback cpu).1)))).single_step
    ∧ (tick cpu).simulate = (APEX_fetch (APEX_decode (APEX_execute (APEX_memory (APEX_writeback cpu).1)))).simulate
    ∧ (tick cpu).cycle = (APEX_fetch (APEX_decode (APEX_execute (APEX_memory (APEX_writeback cpu).1)))).cycle
    ∧ (tick cpu).zero_flag = (APEX_fetch (APEX_decode (APEX_execute (APEX_memory (APEX_writeback cpu).1)))).zero_flag
    ∧ (tick cpu).pos_flag = (APEX_fetch (APEX_decode (APEX_execute (APEX_memory (APEX_writeback cpu).1)))).pos_flag
    ∧ (tick cpu).fetch_from_next_cycle = (APEX_fetch (APEX_decode (APEX_execute (APEX_memory (APEX_writeback cpu).1)))).fetch_from_next_cycle
    ∧ (tick cpu).fetch = (APEX_fetch (APEX_decode (APEX_execute (APEX_memory (APEX_writeback cpu).1)))).fetch
    ∧ (tick cpu).decode = (APEX_fetch (APEX_decode (APEX_execute (APEX_memory (APEX_writeback cpu).1)))).decode
    ∧ (tick cpu).execute = (APEX_fetch (APEX_decode (APEX_execute (APEX_memory (APEX_writeback cpu).1)))).execute
    ∧ (tick cpu).memory = (APEX_fetch (APEX_decode (APEX_execute (APEX_memory (APEX_writeback cpu).1)))).memory
    ∧ (tick cpu).writeback = (APEX_fetch (APEX_decode (APEX_execute (APEX_memory (APEX_writeback cpu).1)))).writeback
    ∧ (tick cpu).clock = cpu.clock + 1 := by
  have h1 := APEX_fetch_eqs (APEX_decode (APEX_execute (APEX_memory (APEX_writeback cpu).1)))
  have h2 := APEX_decode_eqs (APEX_execute (APEX_memory (APEX_writeback cpu).1))
  have h3 := APEX_execute_eqs (APEX_memory (APEX_writeback cpu).1)
  have h4 := APEX_memory_eqs (APEX_writeback cpu).1
  have h5 := APEX_writeback_eqs cpu
  simp [tick, stages, h1, h2, h3, h4, h5]

/-! ## The simulation loop -/

theorem ticks_zero (cpu : APEX_CPU) : ticks 0 cpu = cpu := rfl

theorem ticks_succ (k : Nat) (cpu : APEX_CPU) : ticks (k + 1) cpu = ticks k (tick cpu) := rfl

theorem ticks_succ_outer (k : Nat) (cpu : APEX_CPU) : ticks (k + 1) cpu = tick (ticks k cpu) := by
  induction k generalizing cpu with
  | zero => rfl
  | succ k ih => rw [ticks_succ, ih (tick cpu), ticks_succ]

/-- What a tick does to the fields no stage but Writeback and Memory writes. -/
theorem tick_frame (cpu : APEX_CPU) :
    (tick cpu).cycle = cpu.cycle
    ∧ (tick cpu).single_step = cpu.single_step
    ∧ (tick cpu).simulate = cpu.simulate
    ∧ (tick cpu).code_memory = cpu.code_memory
    ∧ (tick cpu).insn_completed
      = (if cpu.writeback.has_insn then cpu.insn_completed + 1 else cpu.insn_completed)
    ∧ (tick cpu).regs = (APEX_writeback cpu).1.regs
    ∧ (tick cpu).data_memory
      = (if cpu.memory.has_insn = true ∧ is_store cpu.memory.opcode = true
        then upd cpu.data_memory cpu.memory.memory_address cpu.memory.rs2_value
        else cpu.data_memory) := by
  simp only [tick_eqs, APEX_fetch_eqs, APEX_decode_eqs, APEX_execute_eqs, APEX_memory_eqs,
    APEX_writeback_eqs, memory_dispatch_eqs, true_and]
  cases cpu.memory.has_insn <;> cases is_store cpu.memory.opcode <;> simp

theorem ticks_clock (k : Nat) (cpu : APEX_CPU) : (ticks k cpu).clock = cpu.clock + k := by
  induction k generalizing cpu with
  | zero => simp [ticks]
  | succ k ih => rw [ticks_succ, ih, (tick_eqs cpu).2.2.2.2.2.2.2.2.2.2.2.2.2.2.2.2.2.2]; push_cast; ring

theorem ticks_cycle (k : Nat) (cpu : APEX_CPU) : (ticks k cpu).cycle = cpu.cycle := by
  induction k generalizing cpu with
  | zero => rfl
  | succ k ih => rw [ticks_succ, ih, (tick_frame cpu).1]

theorem ticks_single_step (k : Nat) (cpu : APEX_CPU) :
    (ticks k cpu).single_step = cpu.single_step := by
  induction k generalizing cpu with
  | zero => rfl
  | succ k ih => rw [ticks_succ, ih, (tick_frame cpu).2.1]

theorem ticks_code_memory (k : Nat) (cpu : APEX_CPU) :
    (ticks k cpu).code_memory = cpu.code_memory := by
  induction k generalizing cpu with
  | zero => rfl
  | succ k ih => rw [ticks_succ, ih, (tick_frame cpu).2.2.2.1]

/-- An iteration whose Writeback retires HALT leaves the loop. -/
theorem run_halt (fuel : Nat) (keys : List Char) (cpu : APEX_CPU)
    (h : (APEX_writeback cpu).2 = true) :
    APEX_cpu_run (fuel + 1) keys cpu = some (StopCause.halt_retired, (APEX_writeback cpu).1) := by
  simp only [APEX_cpu_run, h, ↓reduceIte]

/-- An iteration that finds `clock == cycle` after a Writeback that did not
retire HALT leaves the loop. -/
theorem run_budget (fuel : Nat) (keys : List Char) (cpu : APEX_CPU)
    (h : (APEX_writeback cpu).2 = false) (hc : cpu.clock = cpu.cycle) :
    APEX_cpu_run (fuel + 1) keys cpu = some (StopCause.budget, (APEX_writeback cpu).1) := by
  have h1 : (APEX_writeback cpu).1.clock = (APEX_writeback cpu).1.cycle := by
    simp only [APEX_writeback_eqs, hc]
  simp only [APEX_cpu_run, h, h1, ↓reduceIte, Bool.false_eq_true]

/-- Any other iteration of the non-interactive loop is one `tick`. -/
theorem run_step (fuel : Nat) (keys : List Char) (cpu : APEX_CPU)
    (hs : cpu.single_step = false)
    (h : (APEX_writeback cpu).2 = false) (hc : cpu.clock ≠ cpu.cycle) :
    APEX_cpu_run (fuel + 1) keys cpu = APEX_cpu_run fuel keys (tick cpu) := by
  have h1 : ¬ (APEX_writeback cpu).1.clock = (APEX_writeback cpu).1.cycle := by
    simp only [APEX_writeback_eqs]; exact hc
  have hs2 : (stages (APEX_writeback cpu).1).single_step = false := by
    have := (tick_frame cpu).2.1
    rw [hs] at this
    exact this
  simp only [APEX_cpu_run, h, h1, hs2, ↓reduceIte, Bool.false_eq_true, tick]

/-- As long as no iteration stops, `k` iterations of the non-interactive loop
are `k` ticks. -/
theorem run_ticks (k fuel : Nat) (keys : List Char) (cpu : APEX_CPU)
    (hs : cpu.single_step = false)
    (h : ∀ j, j < k → (APEX_writeback (ticks j cpu)).2 = false
      ∧ (ticks j cpu).clock ≠ (ticks j cpu).cycle) :
    APEX_cpu_run (fuel + k) keys cpu = APEX_cpu_run fuel keys (ticks k cpu) := by
  induction k generalizing cpu with
  | zero => rfl
  | succ k ih =>
    have h0 := h 0 (Nat.succ_pos k)
    rw [← Nat.add_assoc, run_step (fuel + k) keys cpu hs h0.1 h0.2, ticks_succ]
    apply ih
    · rw [(tick_frame cpu).2.1]; exact hs
    · intro j hj
      exact h (j + 1) (Nat.succ_lt_succ hj)

/-! ## Evaluation of concrete programs -/

/-- The code-memory reads at the first program counters. -/
theorem code_at_eqs (code : List APEX_Instruction) :
    code_at code (get_code_memory_index_from_pc 4000) = code.getD 0 undefined_insn
    ∧ code_at code (get_code_memory_index_from_pc 4004) = code.getD 1 undefined_insn
    ∧ code_at code (get_code_memory_index_from_pc 4008) = code.getD 2 undefined_insn
    ∧ code_at code (get_code_memory_index_from_pc 4012) = code.getD 3 undefined_insn
    ∧ code_at code (get_code_memory_index_from_pc 4016) = code.getD 4 undefined_insn :=
  ⟨rfl, rfl, rfl, rfl, rfl⟩

/-- The program-counter arithmetic of the scenarios. -/
theorem pc_eqs :
    add32 4000 4 = 4004 ∧ add32 4004 4 = 4008 ∧ add32 4008 4 = 4012 ∧ add32 4012 4 = 4016
    ∧ add32 4016 4 = 4020 ∧ add32 4004 8 = 4012 ∧ add32 0 4000 = 4000 := by
  decide

/-- In every mode but single-step, `APEX_cpu_init` returns `boot` of the loaded
program. -/
theorem APEX_cpu_init_boot (filename : Option String) (f : String) (n : Int)
    (loader : Option String → Option (List APEX_Instruction)) (code : List APEX_Instruction)
    (hf : f ≠ "single_step") (hl : loader filename = some code) :
    APEX_cpu_init filename (some f) n loader
      = some (boot code (if f = "simulate" then false else true) n) := by
  simp [APEX_cpu_init, hl, hf, boot]

/-! ## The claims -/

/-- C1: the program `[MOVC Ra,#x; MOVC Rb,#y; ADD Rd,Ra,Rb; HALT]` (with `Ra ≠ Rb`),
loaded in a non-interactive mode with a cycle budget of at least 8, runs until
Writeback retires HALT; then `regs[Rd]` is the 32-bit sum `x + y`, `zero_flag`
(which is `x + y` itself whenever that fits a C `int`), `zero_flag` is set
exactly when that sum is zero, `pos_flag` is set when it is positive, and four
instructions have been retired. -/
theorem C1_movc_add_halt (x y : Int) (Ra Rb Rd : Nat) (n : Int) (filename : Option String)
    (f : String) (loader : Option String → Option (List APEX_Instruction))
    (fuel : Nat) (keys : List Char)
    (hne : Ra ≠ Rb) (hn : 8 ≤ n) (hf : f ≠ "single_step")
    (hl : loader filename = some (prog_add x y Ra Rb Rd)) (hfuel : 8 ≤ fuel) :
    ∃ cpu final, APEX_cpu_init filename (some f) n loader = some cpu
      ∧ APEX_cpu_run fuel keys cpu = some (StopCause.halt_retired, final)
      ∧ final.regs Rd = add32 x y
      ∧ (-2147483648 ≤ x + y → x + y ≤ 2147483647 → final.regs Rd = x + y)
      ∧ (final.zero_flag = true ↔ add32 x y = 0)
      ∧ (0 < add32 x y → final.pos_flag = true)
      ∧ final.insn_completed = 4 := by
  obtain ⟨extra, rfl⟩ : ∃ extra, fuel = (extra + 1) + 7 := ⟨fuel - 8, by omega⟩
  refine ⟨_, (APEX_writeback (ticks 7 (boot (prog_add x y Ra Rb Rd)
    (if f = "simulate" then false else true) n))).1,
    APEX_cpu_init_boot filename f n loader _ hf hl, ?_, ?_, ?_, ?_, ?_, ?_⟩
  · rw [run_ticks 7 (extra + 1) keys _ rfl, run_halt]
    · simp only [ticks_succ, ticks_zero, tick_eqs, APEX_fetch_eqs, APEX_decode_eqs,
      APEX_execute_eqs, APEX_memory_eqs, APEX_writeback_eqs, decode_operands_eqs,
      execute_dispatch_frame, execute_dispatch_cases, memory_dispatch_eqs, writeback_dispatch_eqs,
      fetched_latch, redirect, read_operand, upd_same, is_load, is_store, reads_rs1, reads_rs2,
      commits_rd, TRUE, FALSE, memset_one_int, boot, zero_stage, code_at_eqs, pc_eqs, prog_add,
      MOVC, ADD, HALT, Bool.false_eq_true, if_false, if_true, ↓reduceIte, List.getD_cons_zero,
      List.getD_cons_succ, Int.reduceAdd, Int.reduceEq, reduceCtorEq, and_self, and_true,
      true_and, and_false, false_and, Bool.and_true, Bool.true_and, Bool.and_false,
      Bool.false_and, decide_True, decide_False, decide_eq_true_eq, decide_eq_false_iff_not,
      Bool.and_eq_true, ne_eq, not_true_eq_false, not_false_eq_true]
    · intro j hj
      rw [ticks_clock, ticks_cycle]
      refine ⟨?_, by simp only [boot]; omega⟩
      interval_cases j <;> simp only [ticks_succ, ticks_zero, tick_eqs, APEX_fetch_eqs,
        APEX_decode_eqs, APEX_execute_eqs, APEX_memory_eqs, APEX_writeback_eqs,
        decode_operands_eqs, execute_dispatch_frame, execute_dispatch_cases, memory_dispatch_eqs,
        writeback_dispatch_eqs, fetched_latch, redirect, read_operand, upd_same, is_load,
        is_store, reads_rs1, reads_rs2, commits_rd, TRUE, FALSE, memset_one_int, boot, zero_stage,
        code_at_eqs, pc_eqs, prog_add, MOVC, ADD, HALT, Bool.false_eq_true, if_false, if_true,
        ↓reduceIte, List.getD_cons_zero, List.getD_cons_succ, Int.reduceAdd, Int.reduceEq,
        reduceCtorEq, and_self, and_true, true_and, and_false, false_and, Bool.and_true,
        Bool.true_and, Bool.and_false, Bool.false_and, decide_True, decide_False,
        decide_eq_true_eq, decide_eq_false_iff_not, Bool.and_eq_true, ne_eq, not_true_eq_false,
        not_false_eq_true]
  all_goals simp only [ticks_succ, ticks_zero, tick_eqs, APEX_fetch_eqs, APEX_decode_eqs,
    APEX_execute_eqs, APEX_memory_eqs, APEX_writeback_eqs, decode_operands_eqs,
    execute_dispatch_frame, execute_dispatch_cases, memory_dispatch_eqs, writeback_dispatch_eqs,
    fetched_latch, redirect, read_operand, upd_same, is_load, is_store, reads_rs1, reads_rs2,
    commits_rd, TRUE, FALSE, memset_one_int, boot, zero_stage, code_at_eqs, pc_eqs, prog_add,
    MOVC, ADD, HALT, Bool.false_eq_true, if_false, if_true, ↓reduceIte, List.getD_cons_zero,
    List.getD_cons_succ, Int.reduceAdd, Int.reduceEq, reduceCtorEq, and_self, and_true, true_and,
    and_false, false_and, Bool.and_true, Bool.true_and, Bool.and_false, Bool.false_and,
    decide_True, decide_False, decide_eq_true_eq, decide_eq_false_iff_not, Bool.and_eq_true,
    ne_eq, not_true_eq_false, not_false_eq_true]
  · simp [upd_apply, hne]
  · intro h1 h2
    simp [upd_apply, hne, add32_of_range x y h1 h2]
  · simp [upd_apply, hne]
  · simp [upd_apply, hne]
    omega

/-- C1 at `x = 5`, `y = 10`, `Rd = R2`. -/
theorem C1_movc_add_halt_witness :
    ∃ cpu final,
      APEX_cpu_init (some "prog.asm") (some "simulate") 8 (fun _ => some (prog_add 5 10 0 1 2))
        = some cpu
      ∧ APEX_cpu_run 8 [] cpu = some (StopCause.halt_retired, final)
      ∧ final.regs 2 = 15 ∧ final.zero_flag = false ∧ final.pos_flag = true
      ∧ final.insn_completed = 4 := by
  obtain ⟨cpu, final, h1, h2, h3, _, h4, h5, h6⟩ :=
    C1_movc_add_halt 5 10 0 1 2 8 (some "prog.asm") "simulate"
      (fun _ => some (prog_add 5 10 0 1 2)) 8 [] (by decide) (by decide) (by decide) rfl
      (by decide)
  refine ⟨cpu, final, h1, h2, ?_, ?_, h5 (by decide), h6⟩
  · rw [h3]; decide
  · cases hz : final.zero_flag
    · rfl
    · exact absurd (h4.mp hz) (by decide)

/-- C2: the program `[MOVC R0,#0; BZ #8; MOVC R1,#a; MOVC R1,#b; HALT]`, loaded in a
non-interactive mode with a cycle budget of at least 9, runs until Writeback
retires HALT with `regs[R1] == b` and four instructions retired.  In none of
its iterations `0..9` does the Execute latch or the Writeback latch hold the
third instruction (the one fetched from pc 4008) live, and `regs[R1]` is `0` or
`b` throughout. -/
theorem C2_bz_skips_third (a b : Int) (n : Int) (filename : Option String)
    (f : String) (loader : Option String → Option (List APEX_Instruction))
    (fuel : Nat) (keys : List Char)
    (hn : 9 ≤ n) (hf : f ≠ "single_step")
    (hl : loader filename = some (prog_bz a b)) (hfuel : 10 ≤ fuel) :
    ∃ cpu final, APEX_cpu_init filename (some f) n loader = some cpu
      ∧ APEX_cpu_run fuel keys cpu = some (StopCause.halt_retired, final)
      ∧ final.regs 1 = b
      ∧ final.insn_completed = 4
      ∧ ∀ k, k ≤ 9 →
          ¬ ((ticks k cpu).execute.has_insn = true ∧ (ticks k cpu).execute.pc = 4008)
          ∧ ¬ ((ticks k cpu).writeback.has_insn = true ∧ (ticks k cpu).writeback.pc = 4008)
          ∧ ((ticks k cpu).regs 1 = 0 ∨ (ticks k cpu).regs 1 = b) := by
  obtain ⟨extra, rfl⟩ : ∃ extra, fuel = (extra + 1) + 9 := ⟨fuel - 10, by omega⟩
  refine ⟨_, (APEX_writeback (ticks 9 (boot (prog_bz a b)
    (if f = "simulate" then false else true) n))).1,
    APEX_cpu_init_boot filename f n loader _ hf hl, ?_, ?_, ?_, ?_⟩
  · rw [run_ticks 9 (extra + 1) keys _ rfl, run_halt]
    · simp only [ticks_succ, ticks_zero, tick_eqs, APEX_fetch_eqs, APEX_decode_eqs,
      APEX_execute_eqs, APEX_memory_eqs, APEX_writeback_eqs, decode_operands_eqs,
      execute_dispatch_frame, execute_dispatch_cases, memory_dispatch_eqs, writeback_dispatch_eqs,
      fetched_latch, redirect, read_operand, upd_same, is_load, is_store, reads_rs1, reads_rs2,
      commits_rd, TRUE, FALSE, memset_one_int, boot, zero_stage, code_at_eqs, pc_eqs, prog_bz,
      MOVC, BZ, HALT, Bool.false_eq_true, if_false, if_true, ↓reduceIte, List.getD_cons_zero,
      List.getD_cons_succ, Int.reduceAdd, Int.reduceEq, reduceCtorEq, and_self, and_true,
      true_and, and_false, false_and, Bool.and_true, Bool.true_and, Bool.and_false,
      Bool.false_and, decide_True, decide_False, decide_eq_true_eq, decide_eq_false_iff_not,
      Bool.and_eq_true, ne_eq, not_true_eq_false, not_false_eq_true]
    · intro j hj
      rw [ticks_clock, ticks_cycle]
      refine ⟨?_, by simp only [boot]; omega⟩
      interval_cases j <;> simp only [ticks_succ, ticks_zero, tick_eqs, APEX_fetch_eqs,
        APEX_decode_eqs, APEX_execute_eqs, APEX_memory_eqs, APEX_writeback_eqs,
        decode_operands_eqs, execute_dispatch_frame, execute_dispatch_cases, memory_dispatch_eqs,
        writeback_dispatch_eqs, fetched_latch, redirect, read_operand, upd_same, is_load,
        is_store, reads_rs1, reads_rs2, commits_rd, TRUE, FALSE, memset_one_int, boot, zero_stage,
        code_at_eqs, pc_eqs, prog_bz, MOVC, BZ, HALT, Bool.false_eq_true, if_false, if_true,
        ↓reduceIte, List.getD_cons_zero, List.getD_cons_succ, Int.reduceAdd, Int.reduceEq,
        reduceCtorEq, and_self, and_true, true_and, and_false, false_and, Bool.and_true,
        Bool.true_and, Bool.and_false, Bool.false_and, decide_True, decide_False,
        decide_eq_true_eq, decide_eq_false_iff_not, Bool.and_eq_true, ne_eq, not_true_eq_false,
        not_false_eq_true]
  · simp only [ticks_succ, ticks_zero, tick_eqs, APEX_fetch_eqs, APEX_decode_eqs,
    APEX_execute_eqs, APEX_memory_eqs, APEX_writeback_eqs, decode_operands_eqs,
    execute_dispatch_frame, execute_dispatch_cases, memory_dispatch_eqs, writeback_dispatch_eqs,
    fetched_latch, redirect, read_operand, upd_same, is_load, is_store, reads_rs1, reads_rs2,
    commits_rd, TRUE, FALSE, memset_one_int, boot, zero_stage, code_at_eqs, pc_eqs, prog_bz, MOVC,
    BZ, HALT, Bool.false_eq_true, if_false, if_true, ↓reduceIte, List.getD_cons_zero,
    List.getD_cons_succ, Int.reduceAdd, Int.reduceEq, reduceCtorEq, and_self, and_true, true_and,
    and_false, false_and, Bool.and_true, Bool.true_and, Bool.and_false, Bool.false_and,
    decide_True, decide_False, decide_eq_true_eq, decide_eq_false_iff_not, Bool.and_eq_true,
    ne_eq, not_true_eq_false, not_false_eq_true]
  · simp only [ticks_succ, ticks_zero, tick_eqs, APEX_fetch_eqs, APEX_decode_eqs,
    APEX_execute_eqs, APEX_memory_eqs, APEX_writeback_eqs, decode_operands_eqs,
    execute_dispatch_frame, execute_dispatch_cases, memory_dispatch_eqs, writeback_dispatch_eqs,
    fetched_latch, redirect, read_operand, upd_same, is_load, is_store, reads_rs1, reads_rs2,
    commits_rd, TRUE, FALSE, memset_one_int, boot, zero_stage, code_at_eqs, pc_eqs, prog_bz, MOVC,
    BZ, HALT, Bool.false_eq_true, if_false, if_true, ↓reduceIte, List.getD_cons_zero,
    List.getD_cons_succ, Int.reduceAdd, Int.reduceEq, reduceCtorEq, and_self, and_true, true_and,
    and_false, false_and, Bool.and_true, Bool.true_and, Bool.and_false, Bool.false_and,
    decide_True, decide_False, decide_eq_true_eq, decide_eq_false_iff_not, Bool.and_eq_true,
    ne_eq, not_true_eq_false, not_false_eq_true]
  · intro k hk
    interval_cases k <;> simp only [ticks_succ, ticks_zero, tick_eqs, APEX_fetch_eqs,
      APEX_decode_eqs, APEX_execute_eqs, APEX_memory_eqs, APEX_writeback_eqs, decode_operands_eqs,
      execute_dispatch_frame, execute_dispatch_cases, memory_dispatch_eqs, writeback_dispatch_eqs,
      fetched_latch, redirect, read_operand, upd_same, is_load, is_store, reads_rs1, reads_rs2,
      commits_rd, TRUE, FALSE, memset_one_int, boot, zero_stage, code_at_eqs, pc_eqs, prog_bz,
      MOVC, BZ, HALT, Bool.false_eq_true, if_false, if_true, ↓reduceIte, List.getD_cons_zero,
      List.getD_cons_succ, Int.reduceAdd, Int.reduceEq, reduceCtorEq, and_self, and_true,
      true_and, and_false, false_and, Bool.and_true, Bool.true_and, Bool.and_false,
      Bool.false_and, decide_True, decide_False, decide_eq_true_eq, decide_eq_false_iff_not,
      Bool.and_eq_true, ne_eq, not_true_eq_false, not_false_eq_true] <;> simp [upd_apply]

/-- C2 at `a = 1`, `b = 2`: `R1` ends as 2 and is never 1. -/
theorem C2_bz_skips_third_witness :
    ∃ cpu final,
      APEX_cpu_init (some "prog.asm") (some "simulate") 9 (fun _ => some (prog_bz 1 2)) = some cpu
      ∧ APEX_cpu_run 10 [] cpu = some (StopCause.halt_retired, final)
      ∧ final.regs 1 = 2 ∧ final.insn_completed = 4
      ∧ ∀ k, k ≤ 9 → (ticks k cpu).regs 1 ≠ 1 := by
  obtain ⟨cpu, final, h1, h2, h3, h4, h5⟩ :=
    C2_bz_skips_third 1 2 9 (some "prog.asm") "simulate" (fun _ => some (prog_bz 1 2)) 10 []
      (by decide) (by decide) rfl (by decide)
  refine ⟨cpu, final, h1, h2, h3, h4, ?_⟩
  intro k hk
  rcases (h5 k hk).2.2 with h | h <;> rw [h] <;> decide

/-- When the Execute latch does not redirect, Execute leaves `pc`, the
fetch-suspension flag and the Fetch and Decode latches alone. -/
theorem execute_no_redirect (cpu : APEX_CPU) (h : execute_redirects cpu = false) :
    (APEX_execute cpu).pc = cpu.pc
    ∧ (APEX_execute cpu).fetch_from_next_cycle = cpu.fetch_from_next_cycle
    ∧ (APEX_execute cpu).fetch = cpu.fetch
    ∧ (APEX_execute cpu).decode = cpu.decode := by
  unfold execute_redirects branch_condition at h
  cases hl : cpu.execute.has_insn
  · simp [APEX_execute_eqs, hl]
  · cases hop : cpu.execute.opcode <;>
      simp [hl, hop] at h <;>
      simp [APEX_execute_eqs, execute_dispatch_cases, hl, hop, h, redirect]

/-- C3: let `MOVC R,#v` sit live in the Decode latch (just fetched), let Fetch
be enabled and not suspended, let the instruction at `pc` be an arithmetic
instruction `c`, and let the instruction in Execute not flush.  Two ticks
later the Execute latch holds `c` with the operand read from `R` equal to `v`,
while the MOVC has only reached the Memory latch and the register file is what
the Writebacks of older instructions made it. -/
theorem C3_movc_forwarded (s : APEX_CPU) (R : Nat) (v : Int) (c : APEX_Instruction)
    (hd : s.decode.has_insn = true) (hop : s.decode.opcode = OPCODE_MOVC)
    (hrd : s.decode.rd = R) (himm : s.decode.imm = v)
    (hf : s.fetch.has_insn = true) (hn : s.fetch_from_next_cycle = false)
    (hnext : code_at s.code_memory (get_code_memory_index_from_pc s.pc) = c)
    (hc : is_arith c.opcode = true)
    (hnf : execute_redirects s = false) :
    (tick (tick s)).execute.has_insn = true
    ∧ (tick (tick s)).execute.opcode = c.opcode
    ∧ (tick (tick s)).execute.pc = s.pc
    ∧ (c.rs1 = R → (tick (tick s)).execute.rs1_value = v)
    ∧ (reads_rs2 c.opcode = true → c.rs2 = R → (tick (tick s)).execute.rs2_value = v)
    ∧ (tick (tick s)).memory.has_insn = true
    ∧ (tick (tick s)).memory.opcode = OPCODE_MOVC
    ∧ (tick (tick s)).memory.rd = R
    ∧ (tick (tick s)).memory.result_buffer = v
    ∧ (tick (tick s)).regs = (APEX_writeback (tick s)).1.regs := by
  have hM : execute_redirects (APEX_memory (APEX_writeback s).1) = false := by
    simpa only [execute_redirects, branch_condition, APEX_memory_eqs, APEX_writeback_eqs]
      using hnf
  have h1 := execute_no_redirect _ hM
  have h2 : (APEX_execute (APEX_memory (APEX_writeback s).1)).code_memory = s.code_memory := by
    simp only [APEX_execute_eqs, APEX_memory_eqs, APEX_writeback_eqs]
  have e1 : (tick s).execute.has_insn = true ∧ (tick s).execute.opcode = OPCODE_MOVC
      ∧ (tick s).execute.rd = R ∧ (tick s).execute.imm = v := by
    simp only [tick_eqs, APEX_fetch_eqs, APEX_decode_eqs, h1, APEX_memory_eqs,
      APEX_writeback_eqs, decode_operands_eqs, hd, hop, hrd, himm, if_true, and_self]
  have d1 : (tick s).decode.has_insn = true ∧ (tick s).decode.opcode = c.opcode
      ∧ (tick s).decode.rs1 = c.rs1 ∧ (tick s).decode.rs2 = c.rs2
      ∧ (tick s).decode.pc = s.pc := by
    simp only [tick_eqs, APEX_fetch_eqs, APEX_decode_eqs, h1, h2, APEX_memory_eqs,
      APEX_writeback_eqs, decode_operands_eqs, fetched_latch, hd, hf, hn, hnext, if_true,
      and_self]
  obtain ⟨e1a, e1b, e1c, e1d⟩ := e1
  obtain ⟨d1a, d1b, d1c, d1d, d1e⟩ := d1
  have hr1 : reads_rs1 c.opcode = true := by
    revert hc; cases c.opcode <;> simp [is_arith, reads_rs1]
  simp only [tick_eqs (tick s), APEX_fetch_eqs, APEX_decode_eqs, APEX_execute_eqs,
    APEX_memory_eqs, APEX_writeback_eqs, decode_operands_eqs, execute_dispatch_frame,
    execute_dispatch_cases, read_operand, e1a, e1b, e1c, e1d, d1a, d1b, d1c, d1d, d1e, hr1,
    if_true, true_and, and_true]
  refine ⟨?_, ?_⟩
  · intro h
    simp only [h, upd_same, if_true]
  · intro h2 h
    simp only [h2, h, upd_same, if_true]

/-- C3 on the first scenario: the ADD reads 10 for `R1` while `regs[R1]` is still 0. -/
theorem C3_movc_forwarded_witness :
    (ticks 2 (boot (prog_add 5 10 0 1 2) false 8)).decode.opcode = OPCODE_MOVC
    ∧ (tick (tick (ticks 2 (boot (prog_add 5 10 0 1 2) false 8)))).execute.opcode = OPCODE_ADD
    ∧ (tick (tick (ticks 2 (boot (prog_add 5 10 0 1 2) false 8)))).execute.rs2_value = 10
    ∧ (tick (tick (ticks 2 (boot (prog_add 5 10 0 1 2) false 8)))).memory.opcode = OPCODE_MOVC
    ∧ (tick (tick (ticks 2 (boot (prog_add 5 10 0 1 2) false 8)))).regs 1 = 0 := by
  have h := C3_movc_forwarded (ticks 2 (boot (prog_add 5 10 0 1 2) false 8)) 1 10 (ADD 2 0 1)
    (by decide) (by decide) (by decide) (by decide) (by decide) (by decide) (by decide)
    (by decide) (by decide)
  exact ⟨by decide, h.2.1, h.2.2.2.2.1 (by decide) (by decide), h.2.2.2.2.2.2.1, by decide⟩

/-- The effect of Execute on a live conditional branch whose condition holds. -/
theorem execute_taken_branch (cpu : APEX_CPU)
    (hb : is_cond_branch cpu.execute.opcode = true) (ht : branch_condition cpu = true) :
    execute_dispatch cpu = redirect cpu (add32 cpu.execute.pc cpu.execute.imm) := by
  unfold branch_condition at ht
  cases hop : cpu.execute.opcode <;> simp [hop, is_cond_branch] at hb ht <;>
    simp [execute_dispatch_cases, hop, ht]

/-- C4: one tick on a state whose Execute latch holds a live conditional branch
whose condition holds.  The Decode latch is invalidated, Decode processes
nothing and hands nothing to Execute; Fetch fetches nothing, `pc` is the
branch's pc plus `imm` and the suspension flag is clear again; the branch moves
on to the Memory latch, the instruction of the Memory latch moves on to the
Writeback latch and the instruction of the Writeback latch is retired.  The
next tick fetches the instruction at the target into the Decode latch, the
Execute latch staying empty. -/
theorem C4_taken_branch (s : APEX_CPU) (hl : s.execute.has_insn = true)
    (hb : is_cond_branch s.execute.opcode = true) (ht : branch_condition s = true) :
    (tick s).decode = { s.decode with has_insn := false }
    ∧ APEX_decode (APEX_execute (APEX_memory (APEX_writeback s).1))
        = APEX_execute (APEX_memory (APEX_writeback s).1)
    ∧ (tick s).execute.has_insn = false
    ∧ (tick s).pc = add32 s.execute.pc s.execute.imm
    ∧ (tick s).fetch_from_next_cycle = false
    ∧ (tick s).fetch.has_insn = true
    ∧ (tick s).memory.has_insn = true
    ∧ (tick s).memory.opcode = s.execute.opcode
    ∧ (tick s).memory.pc = s.execute.pc
    ∧ (s.memory.has_insn = true →
        (tick s).writeback.has_insn = true ∧ (tick s).writeback.pc = s.memory.pc
        ∧ (tick s).writeback.opcode = s.memory.opcode)
    ∧ (tick s).insn_completed
        = (if s.writeback.has_insn then s.insn_completed + 1 else s.insn_completed)
    ∧ (tick (tick s)).execute.has_insn = false
    ∧ (tick (tick s)).decode.has_insn = true
    ∧ (tick (tick s)).decode.pc = add32 s.execute.pc s.execute.imm
    ∧ (tick (tick s)).decode.opcode
        = (code_at s.code_memory
            (get_code_memory_index_from_pc (add32 s.execute.pc s.execute.imm))).opcode
    ∧ (tick (tick s)).decode.rd
        = (code_at s.code_memory
            (get_code_memory_index_from_pc (add32 s.execute.pc s.execute.imm))).rd
    ∧ (tick (tick s)).decode.rs1
        = (code_at s.code_memory
            (get_code_memory_index_from_pc (add32 s.execute.pc s.execute.imm))).rs1
    ∧ (tick (tick s)).decode.rs2
        = (code_at s.code_memory
            (get_code_memory_index_from_pc (add32 s.execute.pc s.execute.imm))).rs2
    ∧ (tick (tick s)).decode.imm
        = (code_at s.code_memory
            (get_code_memory_index_from_pc (add32 s.execute.pc s.execute.imm))).imm
    ∧ (tick (tick s)).pc = add32 (add32 s.execute.pc s.execute.imm) 4 := by
  have hM1 : (APEX_memory (APEX_writeback s).1).execute = s.execute := by
    simp only [APEX_memory_eqs, APEX_writeback_eqs]
  have hx : execute_dispatch (APEX_memory (APEX_writeback s).1)
      = redirect (APEX_memory (APEX_writeback s).1) (add32 s.execute.pc s.execute.imm) := by
    rw [execute_taken_branch _ (by rw [hM1]; exact hb)
      (by simpa only [branch_condition, APEX_memory_eqs, APEX_writeback_eqs] using ht), hM1]
  have hE : (APEX_execute (APEX_memory (APEX_writeback s).1)).decode.has_insn = false := by
    simp only [APEX_execute_eqs, hM1, hl, hx, redirect, if_true]
  have t1 : (tick s).decode = { s.decode with has_insn := false }
      ∧ (tick s).execute.has_insn = false
      ∧ (tick s).pc = add32 s.execute.pc s.execute.imm
      ∧ (tick s).fetch_from_next_cycle = false
      ∧ (tick s).fetch.has_insn = true
      ∧ (tick s).code_memory = s.code_memory := by
    simp [tick_eqs, APEX_fetch_eqs, APEX_decode_eqs, APEX_execute_eqs, hM1, hl, hx, redirect,
      APEX_memory_eqs, APEX_writeback_eqs]
  obtain ⟨t1a, t1b, t1c, t1d, t1e, t1f⟩ := t1
  have t1g : (tick s).decode.has_insn = false := by rw [t1a]
  refine ⟨t1a, ?_, t1b, t1c, t1d, t1e, ?_, ?_, ?_, ?_, ?_, ?_⟩
  · unfold APEX_decode
    rw [if_neg (by rw [hE]; exact Bool.false_ne_true)]
  · simp [tick_eqs, APEX_fetch_eqs, APEX_decode_eqs, APEX_execute_eqs, hM1, hl, hx, redirect]
  · simp [tick_eqs, APEX_fetch_eqs, APEX_decode_eqs, APEX_execute_eqs, hM1, hl, hx, redirect]
  · simp [tick_eqs, APEX_fetch_eqs, APEX_decode_eqs, APEX_execute_eqs, hM1, hl, hx, redirect]
  · intro hm
    have hd := memory_dispatch_eqs (APEX_writeback s).1
    simp only [APEX_writeback_eqs] at hd
    simp only [tick_eqs, APEX_fetch_eqs, APEX_decode_eqs, APEX_execute_eqs, APEX_memory_eqs,
      APEX_writeback_eqs, hm, hd, if_true]
    cases is_load s.memory.opcode <;> simp [hm]
  · exact (tick_frame s).2.2.2.2.1
  · have hnr : execute_redirects (tick s) = false := by
      simp [execute_redirects, t1b]
    have hM : execute_redirects (APEX_memory (APEX_writeback (tick s)).1) = false := by
      simpa only [execute_redirects, branch_condition, APEX_memory_eqs, APEX_writeback_eqs]
        using hnr
    have h1 := execute_no_redirect _ hM
    have h2 : (APEX_execute (APEX_memory (APEX_writeback (tick s)).1)).code_memory
        = s.code_memory := by
      simp only [APEX_execute_eqs, APEX_memory_eqs, APEX_writeback_eqs, t1f]
    have h3 : (APEX_execute (APEX_memory (APEX_writeback (tick s)).1)).execute.has_insn
        = false := by
      simp [APEX_execute_eqs, APEX_memory_eqs, APEX_writeback_eqs, t1b]
    simp [tick_eqs (tick s), APEX_fetch_eqs, APEX_decode_eqs, h1, h2, h3, APEX_memory_eqs,
      APEX_writeback_eqs, fetched_latch, t1c, t1d, t1e, t1g]

/-- C4 on the branch scenario, at the tick in which BZ is in Execute. -/
theorem C4_taken_branch_witness :
    (ticks 3 (boot (prog_bz 1 2) false 9)).execute.opcode = OPCODE_BZ
    ∧ (tick (ticks 3 (boot (prog_bz 1 2) false 9))).decode.has_insn = false
    ∧ (tick (ticks 3 (boot (prog_bz 1 2) false 9))).pc = 4012
    ∧ (tick (ticks 3 (boot (prog_bz 1 2) false 9))).fetch_from_next_cycle = false
    ∧ (tick (tick (ticks 3 (boot (prog_bz 1 2) false 9)))).decode.pc = 4012
    ∧ (tick (tick (ticks 3 (boot (prog_bz 1 2) false 9)))).decode.has_insn = true := by
  have h := C4_taken_branch (ticks 3 (boot (prog_bz 1 2) false 9)) (by decide) (by decide)
    (by decide)
  refine ⟨by decide, ?_, ?_, h.2.2.2.2.1, ?_, h.2.2.2.2.2.2.2.2.2.2.2.2.1⟩
  · rw [h.1]
  · rw [h.2.2.2.1]; decide
  · rw [h.2.2.2.2.2.2.2.2.2.2.2.2.2.1]; decide

/-- The word at `A` survives every tick in which the Memory latch holds no
live store to `A`. -/
theorem ticks_data_memory_kept (s : APEX_CPU) (A : Int) (k : Nat)
    (hno : ∀ j, j < k →
      ¬ ((ticks j s).memory.has_insn = true ∧ is_store (ticks j s).memory.opcode = true
        ∧ (ticks j s).memory.memory_address = A)) :
    (ticks k s).data_memory A = s.data_memory A := by
  induction k with
  | zero => rfl
  | succ k ih =>
    have hk := hno k (Nat.lt_succ_self k)
    rw [ticks_succ_outer, (tick_frame (ticks k s)).2.2.2.2.2.2]
    rw [← ih (fun j hj => hno j (Nat.lt_succ_of_lt hj))]
    by_cases hc : (ticks k s).memory.has_insn = true ∧ is_store (ticks k s).memory.opcode = true
    · rw [if_pos hc]
      exact upd_other _ _ _ _ (fun h => hk ⟨hc.1, hc.2, h.symm⟩)
    · rw [if_neg hc]

/-- C5: once the Memory stage has processed a live store-class instruction with
`memory_address == A` and `rs2_value == V`, and then for `k` ticks anything but
a live store to `A`, a live load-class instruction with `memory_address == A`
in the Memory latch is handed to the Writeback latch with `result_buffer == V`. -/
theorem C5_store_load_roundtrip (s : APEX_CPU) (A V : Int) (k : Nat)
    (hs : s.memory.has_insn = true ∧ is_store s.memory.opcode = true
      ∧ s.memory.memory_address = A ∧ s.memory.rs2_value = V)
    (hno : ∀ j, 1 ≤ j → j ≤ k →
      ¬ ((ticks j s).memory.has_insn = true ∧ is_store (ticks j s).memory.opcode = true
        ∧ (ticks j s).memory.memory_address = A))
    (hl : (ticks (k + 1) s).memory.has_insn = true
      ∧ is_load (ticks (k + 1) s).memory.opcode = true
      ∧ (ticks (k + 1) s).memory.memory_address = A) :
    (ticks (k + 2) s).writeback.has_insn = true
    ∧ (ticks (k + 2) s).writeback.opcode = (ticks (k + 1) s).memory.opcode
    ∧ (ticks (k + 2) s).writeback.pc = (ticks (k + 1) s).memory.pc
    ∧ (ticks (k + 2) s).writeback.result_buffer = V := by
  obtain ⟨hs1, hs2, hs3, hs4⟩ := hs
  obtain ⟨hl1, hl2, hl3⟩ := hl
  have h1 : (tick s).data_memory A = V := by
    rw [(tick_frame s).2.2.2.2.2.2, if_pos ⟨hs1, hs2⟩, hs3, hs4, upd_same]
  have h2 : (ticks (k + 1) s).data_memory A = V := by
    rw [ticks_succ, ticks_data_memory_kept (tick s) A k, h1]
    intro j hj
    have := hno (j + 1) (Nat.succ_le_succ (Nat.zero_le j)) hj
    rwa [ticks_succ] at this
  rw [ticks_succ_outer (k + 1) s]
  have hd := memory_dispatch_eqs (APEX_writeback (ticks (k + 1) s)).1
  simp only [APEX_writeback_eqs] at hd
  simp only [tick_eqs, APEX_fetch_eqs, APEX_decode_eqs, APEX_execute_eqs, APEX_memory_eqs,
    APEX_writeback_eqs, hd, hl1, hl2, hl3, h2, if_true, and_self]

/-- C5 on a store of 7 to address 0 followed at once by a load from it. -/
theorem C5_store_load_roundtrip_witness :
    (ticks 4 (boot prog_load false 20)).memory.opcode = OPCODE_STORE
    ∧ (ticks 5 (boot prog_load false 20)).memory.opcode = OPCODE_LOAD
    ∧ (ticks (0 + 2) (ticks 4 (boot prog_load false 20))).writeback.has_insn = true
    ∧ (ticks (0 + 2) (ticks 4 (boot prog_load false 20))).writeback.result_buffer = 7 := by
  have h := C5_store_load_roundtrip (ticks 4 (boot prog_load false 20)) 0 7 0 (by decide)
    (by intro j h1 h2; omega) (by decide)
  exact ⟨by decide, by decide, h.1, h.2.2.2⟩

/-- C6: Writeback adds exactly one to `insn_completed` when its latch holds a
live instruction and leaves it alone otherwise; Memory, Execute, Decode and
Fetch never change it; and Writeback returns the stop signal exactly when its
latch was live with opcode HALT. -/
theorem C6_retire_count_and_stop (cpu : APEX_CPU) :
    (cpu.writeback.has_insn = true →
      (APEX_writeback cpu).1.insn_completed = cpu.insn_completed + 1)
    ∧ (cpu.writeback.has_insn = false →
      (APEX_writeback cpu).1.insn_completed = cpu.insn_completed)
    ∧ (APEX_memory cpu).insn_completed = cpu.insn_completed
    ∧ (APEX_execute cpu).insn_completed = cpu.insn_completed
    ∧ (APEX_decode cpu).insn_completed = cpu.insn_completed
    ∧ (APEX_fetch cpu).insn_completed = cpu.insn_completed
    ∧ ((APEX_writeback cpu).2 = true
        ↔ cpu.writeback.has_insn = true ∧ cpu.writeback.opcode = OPCODE_HALT) := by
  refine ⟨?_, ?_, ?_, ?_, ?_, ?_, ?_⟩
  · intro h; simp [APEX_writeback_eqs, h]
  · intro h; simp [APEX_writeback_eqs, h]
  · simp [APEX_memory_eqs]
  · simp [APEX_execute_eqs]
  · simp [APEX_decode_eqs]
  · simp [APEX_fetch_eqs]
  · simp [APEX_writeback_eqs]

theorem retired_by_succ (cpu : APEX_CPU) (k : Nat) :
    retired_by cpu (k + 1)
      = retired_by cpu k + (if (ticks k cpu).writeback.has_insn then 1 else 0) := by
  unfold retired_by
  rw [List.range_succ, List.filter_append, List.length_append]
  cases h : (ticks k cpu).writeback.has_insn <;> simp [h]

theorem ticks_insn_completed (cpu : APEX_CPU) (k : Nat) :
    (ticks k cpu).insn_completed = cpu.insn_completed + retired_by cpu k := by
  induction k with
  | zero => simp [ticks_zero, retired_by]
  | succ k ih =>
    rw [ticks_succ_outer, (tick_frame (ticks k cpu)).2.2.2.2.1, ih, retired_by_succ]
    cases h : (ticks k cpu).writeback.has_insn <;> simp
    ring

/-- The loop started with `fuel > k` leaves at iteration `k` when that is the
first iteration that meets the stop test. -/
theorem run_first_stop (cpu : APEX_CPU) (keys : List Char) (k fuel : Nat)
    (hs : cpu.single_step = false) (hk : stops_at cpu k = true)
    (hmin : ∀ j, j < k → stops_at cpu j = false) (hfuel : k < fuel) :
    APEX_cpu_run fuel keys cpu
      = some (if (APEX_writeback (ticks k cpu)).2 then StopCause.halt_retired
          else StopCause.budget, (APEX_writeback (ticks k cpu)).1) := by
  obtain ⟨extra, rfl⟩ : ∃ extra, fuel = (extra + 1) + k := ⟨fuel - k - 1, by omega⟩
  rw [run_ticks k (extra + 1) keys cpu hs]
  · cases hw : (APEX_writeback (ticks k cpu)).2
    · have hc : (ticks k cpu).clock = (ticks k cpu).cycle := by
        simpa [stops_at, hw] using hk
      rw [run_budget extra keys _ hw hc]
      simp
    · rw [run_halt extra keys _ hw]
      simp
  · intro j hj
    have := hmin j hj
    simpa [stops_at] using this

/-- C7, as stated, fails on a looping program: `[JUMP R0,#4000; MOVC R1,#0]` with
budget 10 retires no HALT, only ever fetches from pc 4000 and 4004, stops on the
budget with `clock == 10`, and has then retired 3 instructions, which is not
smaller than its instruction count 2. -/
theorem C7_counterexample_loop :
    (∀ j, j ≤ 10 → (APEX_writeback (ticks j (boot prog_loop false 10))).2 = false)
    ∧ (∀ j, j ≤ 10 → fetch_in_range (boot prog_loop false 10) j = true)
    ∧ ∃ final, APEX_cpu_run 11 [] (boot prog_loop false 10) = some (StopCause.budget, final)
        ∧ final.clock = 10
        ∧ final.insn_completed = 3
        ∧ ¬ (final.insn_completed < prog_loop.length) := by
  refine ⟨by decide, by decide, (APEX_writeback (ticks 10 (boot prog_loop false 10))).1, rfl,
    by decide, by decide, by decide⟩

/-- C8, as stated, fails: after `APEX_cpu_init` no entry of `regsStatus` is
false.  `memset(cpu->regsStatus, 1, ...)` leaves the non-zero word 0x01010101
in each entry, which `print_regstate` reports as "invalid". -/
theorem C8_counterexample_regsStatus :
    ∃ cpu, APEX_cpu_init (some "prog.asm") (some "simulate") 0 (fun _ => some [HALT]) = some cpu
      ∧ cpu.regsStatus 0 ≠ FALSE
      ∧ print_regstate_invalid cpu 0 = true := by
  refine ⟨_, rfl, by decide, by decide⟩

/-- C8 (amended): the machine `APEX_cpu_init` returns for a loaded program has
`pc == 4000`, every register zero, every `regsStatus` entry non-zero (so
`print_regstate` reports every register as invalid), every data-memory word
zero, `clock == 0`, `insn_completed == 0`, both flags false, `fetch.has_insn`
true, the other four latches empty, and the loaded program as code memory. -/
theorem C8_init_state (filename fun_ : Option String) (n : Int)
    (loader : Option String → Option (List APEX_Instruction)) (cpu : APEX_CPU)
    (h : APEX_cpu_init filename fun_ n loader = some cpu) :
    cpu.pc = 4000
    ∧ (∀ i, cpu.regs i = 0)
    ∧ (∀ i, cpu.regsStatus i ≠ FALSE ∧ print_regstate_invalid cpu i = true)
    ∧ (∀ a, cpu.data_memory a = 0)
    ∧ cpu.clock = 0
    ∧ cpu.insn_completed = 0
    ∧ cpu.zero_flag = false ∧ cpu.pos_flag = false
    ∧ cpu.fetch.has_insn = true
    ∧ cpu.decode.has_insn = false ∧ cpu.execute.has_insn = false
    ∧ cpu.memory.has_insn = false ∧ cpu.writeback.has_insn = false
    ∧ cpu.cycle = n
    ∧ loader filename = some cpu.code_memory := by
  unfold APEX_cpu_init at h
  split at h
  · exact absurd h (by simp)
  · cases fun_ with
    | none => exact absurd h (by simp)
    | some f =>
      cases hl : loader filename with
      | none => rw [hl] at h; exact absurd h (by simp)
      | some code =>
        rw [hl] at h
        simp only [Option.some.injEq] at h
        subst h
        simp [print_regstate_invalid, memset_one_int, FALSE, zero_stage]

/-- C8 (amended) on a one-instruction program. -/
theorem C8_init_state_witness :
    ∃ cpu, APEX_cpu_init (some "prog.asm") (some "simulate") 0 (fun _ => some [HALT]) = some cpu
      ∧ cpu.pc = 4000 ∧ cpu.regs 3 = 0 ∧ cpu.regsStatus 3 ≠ FALSE ∧ cpu.data_memory 5 = 0
      ∧ cpu.fetch.has_insn = true ∧ cpu.writeback.has_insn = false := by
  obtain ⟨cpu, hc⟩ : ∃ cpu,
      APEX_cpu_init (some "prog.asm") (some "simulate") 0 (fun _ => some [HALT]) = some cpu :=
    ⟨_, rfl⟩
  have h := C8_init_state (some "prog.asm") (some "simulate") 0 (fun _ => some [HALT]) cpu hc
  exact ⟨cpu, hc, h.1, h.2.1 3, (h.2.2.1 3).1, h.2.2.2.1 5, h.2.2.2.2.2.2.2.2.1,
    h.2.2.2.2.2.2.2.2.2.2.2.2.1⟩

/-- C9 fails for the load-class instructions.  In `[MOVC R0,#7; STORE R0,R1,#0;
LDI R2,R1,#0; HALT]` the LDI is in Execute in iteration 4; right after that
Execute `regsStatus[R2]` is TRUE and the forwarded value `reg_values[R2]` is 4
(the incremented base), while the Writeback of the same LDI, in iteration 6,
commits 7 to `regs[R2]`.  With LOAD in place of LDI the forwarded value is the
latch's stale `result_buffer`, 0, and the committed value is again 7. -/
theorem C9_load_forwards_other_value :
    ((ticks 4 (boot prog_ldi false 20)).execute.has_insn = true
      ∧ (ticks 4 (boot prog_ldi false 20)).execute.opcode = OPCODE_LDI
      ∧ (ticks 4 (boot prog_ldi false 20)).execute.rd = 2
      ∧ (APEX_execute (APEX_memory (APEX_writeback (ticks 4 (boot prog_ldi false 20))).1)).regsStatus 2
          = TRUE
      ∧ (APEX_execute (APEX_memory (APEX_writeback (ticks 4 (boot prog_ldi false 20))).1)).reg_values 2
          = 4
      ∧ (ticks 6 (boot prog_ldi false 20)).writeback.has_insn = true
      ∧ (ticks 6 (boot prog_ldi false 20)).writeback.opcode = OPCODE_LDI
      ∧ (ticks 6 (boot prog_ldi false 20)).regs 2 = 0
      ∧ (APEX_writeback (ticks 6 (boot prog_ldi false 20))).1.regs 2 = 7)
    ∧ ((ticks 4 (boot prog_load false 20)).execute.has_insn = true
      ∧ (ticks 4 (boot prog_load false 20)).execute.opcode = OPCODE_LOAD
      ∧ (ticks 4 (boot prog_load false 20)).execute.rd = 2
      ∧ (APEX_execute (APEX_memory (APEX_writeback (ticks 4 (boot prog_load false 20))).1)).regsStatus 2
          = TRUE
      ∧ (APEX_execute (APEX_memory (APEX_writeback (ticks 4 (boot prog_load false 20))).1)).reg_values 2
          = 0
      ∧ (ticks 6 (boot prog_load false 20)).writeback.has_insn = true
      ∧ (ticks 6 (boot prog_load false 20)).writeback.opcode = OPCODE_LOAD
      ∧ (ticks 6 (boot prog_load false 20)).regs 2 = 0
      ∧ (APEX_writeback (ticks 6 (boot prog_load false 20))).1.regs 2 = 7) := by
  decide

/-- Execute only ever sets pending bits. -/
theorem execute_keeps_pending (cpu : APEX_CPU) (r : Nat) (h : cpu.regsStatus r = TRUE) :
    (APEX_execute cpu).regsStatus r = TRUE := by
  cases hl : cpu.execute.has_insn
  · simp [APEX_execute_eqs, hl, h]
  · cases hop : cpu.execute.opcode <;>
      simp [APEX_execute_eqs, execute_dispatch_cases, hl, hop, h, redirect, upd_apply] <;>
      split_ifs <;> simp [h]

/-- Execute on a live instruction that defines `rd` marks `rd` pending and
hands the instruction to the Memory latch. -/
theorem execute_marks_pending (cpu : APEX_CPU) (hl : cpu.execute.has_insn = true)
    (hd : defines_rd cpu.execute.opcode = true) :
    (APEX_execute cpu).regsStatus cpu.execute.rd = TRUE
    ∧ (APEX_execute cpu).memory.has_insn = true
    ∧ (APEX_execute cpu).memory.opcode = cpu.execute.opcode
    ∧ (APEX_execute cpu).memory.rd = cpu.execute.rd
    ∧ (APEX_execute cpu).memory.pc = cpu.execute.pc := by
  cases hop : cpu.execute.opcode <;> simp [hop, defines_rd] at hd <;>
    simp [APEX_execute_eqs, execute_dispatch_cases, hl, hop, upd_same]

/-- Writeback leaves the pending bit of `r` alone unless its latch holds a live
instruction that clears it. -/
theorem writeback_keeps_pending (cpu : APEX_CPU) (r : Nat)
    (h : ¬ (cpu.writeback.has_insn = true ∧ clears_pending cpu.writeback r = true)) :
    (APEX_writeback cpu).1.regsStatus r = cpu.regsStatus r := by
  cases hl : cpu.writeback.has_insn
  · simp [APEX_writeback_eqs, hl]
  · simp only [hl, true_and] at h
    unfold clears_pending at h
    cases hop : cpu.writeback.opcode <;>
      simp [hop, commits_rd] at h <;>
      simp [APEX_writeback_eqs, writeback_dispatch_eqs, hl, hop, commits_rd, upd_apply] <;>
      intro h2 <;> exact absurd h2.symm h

/-- Writeback on a live instruction that defines `rd` clears the pending bit of
`rd`. -/
theorem writeback_clears_pending (cpu : APEX_CPU) (hl : cpu.writeback.has_insn = true)
    (hd : defines_rd cpu.writeback.opcode = true) :
    (APEX_writeback cpu).1.regsStatus cpu.writeback.rd = FALSE := by
  cases hop : cpu.writeback.opcode <;> simp [hop, defines_rd] at hd <;>
    simp [APEX_writeback_eqs, writeback_dispatch_eqs, hl, hop, commits_rd, upd_same]

/-- The Memory stage hands a live instruction to the Writeback latch with its
opcode, registers and pc unchanged. -/
theorem memory_hands_on (cpu : APEX_CPU) (hl : cpu.memory.has_insn = true) :
    (APEX_memory cpu).writeback.has_insn = true
    ∧ (APEX_memory cpu).writeback.opcode = cpu.memory.opcode
    ∧ (APEX_memory cpu).writeback.rd = cpu.memory.rd
    ∧ (APEX_memory cpu).writeback.rs1 = cpu.memory.rs1
    ∧ (APEX_memory cpu).writeback.pc = cpu.memory.pc := by
  cases h : is_load cpu.memory.opcode <;>
    simp [APEX_memory_eqs, memory_dispatch_eqs, hl, h]

/-- C10, as stated, fails when two consecutive instructions write the same
register.  In `[MOVC R0,#1; MOVC R0,#2; HALT]` the second MOVC (pc 4004) is in
Execute in iteration 3 and in Writeback in iteration 5; at the end of tick 4 it
sits live in the Writeback latch, not yet written back, and `regsStatus[R0]` is
FALSE, cleared by the Writeback of the first MOVC. -/
theorem C10_counterexample_same_rd :
    (ticks 3 (boot prog_two_movc false 20)).execute.has_insn = true
    ∧ (ticks 3 (boot prog_two_movc false 20)).execute.pc = 4004
    ∧ (ticks 3 (boot prog_two_movc false 20)).execute.opcode = OPCODE_MOVC
    ∧ (ticks 3 (boot prog_two_movc false 20)).execute.rd = 0
    ∧ (ticks 4 (boot prog_two_movc false 20)).regsStatus 0 = TRUE
    ∧ (ticks 5 (boot prog_two_movc false 20)).writeback.has_insn = true
    ∧ (ticks 5 (boot prog_two_movc false 20)).writeback.pc = 4004
    ∧ (ticks 5 (boot prog_two_movc false 20)).regsStatus 0 = FALSE
    ∧ (ticks 5 (boot prog_two_movc false 20)).regsStatus 0 ≠ TRUE
    ∧ (∀ j, j ≤ 5 → stops_at (boot prog_two_movc false 20) j = false) := by
  decide

/-- C10 (amended): let the Execute latch hold a live instruction that defines a
destination register `rd`, and let the instruction just ahead of it (the one in
the Memory latch) not be one whose Writeback clears the pending bit of `rd`.
Then `regsStatus[rd]` is TRUE at the end of the tick in which the instruction
completes Execute and at the end of the next tick, after which the instruction
is live in the Writeback latch, and its own Writeback sets the bit to FALSE. -/
theorem C10_pending_until_writeback (s : APEX_CPU) (hl : s.execute.has_insn = true)
    (hd : defines_rd s.execute.opcode = true)
    (ha : ¬ (s.memory.has_insn = true ∧ clears_pending s.memory s.execute.rd = true)) :
    (tick s).regsStatus s.execute.rd = TRUE
    ∧ (tick (tick s)).regsStatus s.execute.rd = TRUE
    ∧ (tick (tick s)).writeback.has_insn = true
    ∧ (tick (tick s)).writeback.opcode = s.execute.opcode
    ∧ (tick (tick s)).writeback.rd = s.execute.rd
    ∧ (tick (tick s)).writeback.pc = s.execute.pc
    ∧ (APEX_writeback (tick (tick s))).1.regsStatus s.execute.rd = FALSE := by
  -- first tick
  have hM : (APEX_memory (APEX_writeback s).1).execute = s.execute := by
    simp only [APEX_memory_eqs, APEX_writeback_eqs]
  have hx := execute_marks_pending (APEX_memory (APEX_writeback s).1)
    (by rw [hM]; exact hl) (by rw [hM]; exact hd)
  rw [hM] at hx
  obtain ⟨x1, x2, x3, x4, x5⟩ := hx
  have t1 : (tick s).regsStatus s.execute.rd = TRUE ∧ (tick s).memory.has_insn = true
      ∧ (tick s).memory.opcode = s.execute.opcode ∧ (tick s).memory.rd = s.execute.rd
      ∧ (tick s).memory.pc = s.execute.pc := by
    simp only [tick_eqs, APEX_fetch_eqs, APEX_decode_eqs, x1, x2, x3, x4, x5, and_self]
  obtain ⟨t1a, t1b, t1c, t1d, t1e⟩ := t1
  have t1w : ¬ ((tick s).writeback.has_insn = true
      ∧ clears_pending (tick s).writeback s.execute.rd = true) := by
    have hw : (tick s).writeback = (APEX_memory (APEX_writeback s).1).writeback := by
      simp only [tick_eqs, APEX_fetch_eqs, APEX_decode_eqs, APEX_execute_eqs]
    rw [hw]
    cases hm : s.memory.has_insn
    · simp [APEX_memory_eqs, APEX_writeback_eqs, hm]
    · have hm2 : (APEX_writeback s).1.memory = s.memory := by simp only [APEX_writeback_eqs]
      have hh := memory_hands_on (APEX_writeback s).1 (by rw [hm2]; exact hm)
      rw [hm2] at hh
      simp only [hm, true_and] at ha
      simpa only [clears_pending, hh, true_and] using ha
  -- second tick
  have w2 := writeback_keeps_pending (tick s) s.execute.rd t1w
  have m2 : (APEX_memory (APEX_writeback (tick s)).1).regsStatus s.execute.rd = TRUE := by
    simp only [APEX_memory_eqs, w2, t1a]
  have e2 := execute_keeps_pending _ _ m2
  have hm3 : (APEX_writeback (tick s)).1.memory = (tick s).memory := by
    simp only [APEX_writeback_eqs]
  have hh2 := memory_hands_on (APEX_writeback (tick s)).1 (by rw [hm3]; exact t1b)
  rw [hm3, t1c, t1d, t1e] at hh2
  have t2 : (tick (tick s)).regsStatus s.execute.rd = TRUE
      ∧ (tick (tick s)).writeback.has_insn = true
      ∧ (tick (tick s)).writeback.opcode = s.execute.opcode
      ∧ (tick (tick s)).writeback.rd = s.execute.rd
      ∧ (tick (tick s)).writeback.pc = s.execute.pc := by
    simp only [tick_eqs (tick s), APEX_fetch_eqs, APEX_decode_eqs, e2, hh2, and_self,
      (APEX_execute_eqs _).2.2.2.2.2.2.2.2.1]
  obtain ⟨t2a, t2b, t2c, t2d, t2e⟩ := t2
  refine ⟨t1a, t2a, t2b, t2c, t2d, t2e, ?_⟩
  have := writeback_clears_pending (tick (tick s)) t2b (by rw [t2c]; exact hd)
  rwa [t2d] at this

/-- C10 (amended) on the first MOVC of the first scenario. -/
theorem C10_pending_until_writeback_witness :
    (ticks 2 (boot (prog_add 5 10 0 1 2) false 8)).execute.opcode = OPCODE_MOVC
    ∧ (tick (ticks 2 (boot (prog_add 5 10 0 1 2) false 8))).regsStatus 0 = TRUE
    ∧ (tick (tick (ticks 2 (boot (prog_add 5 10 0 1 2) false 8)))).regsStatus 0 = TRUE
    ∧ (APEX_writeback (tick (tick (ticks 2 (boot (prog_add 5 10 0 1 2) false 8))))).1.regsStatus 0
        = FALSE := by
  have h := C10_pending_until_writeback (ticks 2 (boot (prog_add 5 10 0 1 2) false 8))
    (by decide) (by decide) (by decide)
  exact ⟨by decide, h.1, h.2.1, h.2.2.2.2.2.2⟩

/-- C11: Decode on a live latch reads `rs1` and `rs2` for ADD, SUB, MUL, AND, OR,
XOR, STORE, STI and CMP, and `rs1` alone for ADDL, SUBL, LOAD, LDI and JUMP,
each register `s` as `reg_values[s]` when `regsStatus[s] == TRUE` and as
`regs[s]` otherwise; for MOVC, NOP, HALT and the conditional branches it
changes no operand value.  In every case the Execute latch receives the
resulting Decode latch, `decode.has_insn` becomes false and nothing else in
the machine changes.  On a latch that is not live Decode changes nothing. -/
theorem C11_decode_reads_operands (cpu : APEX_CPU) :
    (cpu.decode.has_insn = false → APEX_decode cpu = cpu)
    ∧ (cpu.decode.has_insn = true →
        (reads_rs2 cpu.decode.opcode = true →
            (APEX_decode cpu).execute.rs1_value
                = (if cpu.regsStatus cpu.decode.rs1 = TRUE then cpu.reg_values cpu.decode.rs1
                    else cpu.regs cpu.decode.rs1)
            ∧ (APEX_decode cpu).execute.rs2_value
                = (if cpu.regsStatus cpu.decode.rs2 = TRUE then cpu.reg_values cpu.decode.rs2
                    else cpu.regs cpu.decode.rs2))
        ∧ (reads_rs1 cpu.decode.opcode = true → reads_rs2 cpu.decode.opcode = false →
            (APEX_decode cpu).execute.rs1_value
                = (if cpu.regsStatus cpu.decode.rs1 = TRUE then cpu.reg_values cpu.decode.rs1
                    else cpu.regs cpu.decode.rs1)
            ∧ (APEX_decode cpu).execute.rs2_value = cpu.decode.rs2_value)
        ∧ (reads_rs1 cpu.decode.opcode = false →
            (APEX_decode cpu).execute.rs1_value = cpu.decode.rs1_value
            ∧ (APEX_decode cpu).execute.rs2_value = cpu.decode.rs2_value)
        ∧ (APEX_decode cpu).execute.has_insn = true
        ∧ (APEX_decode cpu).execute.pc = cpu.decode.pc
        ∧ (APEX_decode cpu).execute.opcode = cpu.decode.opcode
        ∧ (APEX_decode cpu).execute.rd = cpu.decode.rd
        ∧ (APEX_decode cpu).execute.rs1 = cpu.decode.rs1
        ∧ (APEX_decode cpu).execute.rs2 = cpu.decode.rs2
        ∧ (APEX_decode cpu).execute.imm = cpu.decode.imm
        ∧ (APEX_decode cpu).execute.result_buffer = cpu.decode.result_buffer
        ∧ (APEX_decode cpu).execute.memory_address = cpu.decode.memory_address
        ∧ (APEX_decode cpu).decode = { (APEX_decode cpu).execute with has_insn := false }
        ∧ (APEX_decode cpu).regs = cpu.regs
        ∧ (APEX_decode cpu).regsStatus = cpu.regsStatus
        ∧ (APEX_decode cpu).reg_values = cpu.reg_values
        ∧ (APEX_decode cpu).data_memory = cpu.data_memory
        ∧ (APEX_decode cpu).pc = cpu.pc
        ∧ (APEX_decode cpu).zero_flag = cpu.zero_flag
        ∧ (APEX_decode cpu).pos_flag = cpu.pos_flag
        ∧ (APEX_decode cpu).fetch = cpu.fetch
        ∧ (APEX_decode cpu).fetch_from_next_cycle = cpu.fetch_from_next_cycle
        ∧ (APEX_decode cpu).memory = cpu.memory
        ∧ (APEX_decode cpu).writeback = cpu.writeback
        ∧ (APEX_decode cpu).insn_completed = cpu.insn_completed)
    ∧ (∀ op, reads_rs2 op = true ↔
        op = OPCODE_ADD ∨ op = OPCODE_SUB ∨ op = OPCODE_MUL ∨ op = OPCODE_AND ∨ op = OPCODE_OR
        ∨ op = OPCODE_XOR ∨ op = OPCODE_STORE ∨ op = OPCODE_STI ∨ op = OPCODE_CMP)
    ∧ (∀ op, (reads_rs1 op = true ∧ reads_rs2 op = false) ↔
        op = OPCODE_ADDL ∨ op = OPCODE_SUBL ∨ op = OPCODE_LOAD ∨ op = OPCODE_LDI
        ∨ op = OPCODE_JUMP)
    ∧ (∀ op, reads_rs1 op = false ↔
        op = OPCODE_MOVC ∨ op = OPCODE_NOP ∨ op = OPCODE_HALT ∨ op = OPCODE_BP
        ∨ op = OPCODE_BNP ∨ op = OPCODE_BZ ∨ op = OPCODE_BNZ ∨ op = OPCODE_DIV) := by
  refine ⟨?_, ?_, ?_, ?_, ?_⟩
  · intro h
    unfold APEX_decode
    rw [if_neg (by rw [h]; exact Bool.false_ne_true)]
  · intro h
    have hr : ∀ op, reads_rs2 op = true → reads_rs1 op = true := by
      intro op; cases op <;> simp [reads_rs1, reads_rs2]
    refine ⟨?_, ?_, ?_, ?_⟩
    · intro h2
      simp [APEX_decode_eqs, decode_operands_eqs, h, h2, hr _ h2, read_operand]
    · intro h1 h2
      simp [APEX_decode_eqs, decode_operands_eqs, h, h1, h2, read_operand]
    · intro h1
      have h2 : reads_rs2 cpu.decode.opcode = false := by
        cases hh : reads_rs2 cpu.decode.opcode
        · rfl
        · rw [hr _ hh] at h1; exact absurd h1 (by simp)
      simp [APEX_decode_eqs, decode_operands_eqs, h, h1, h2]
    · simp [APEX_decode_eqs, decode_operands_eqs, h]
  · intro op; cases op <;> simp [reads_rs2]
  · intro op; cases op <;> simp [reads_rs1, reads_rs2]
  · intro op; cases op <;> simp [reads_rs1]

/-- C11 on a state whose Decode latch holds a live `ADD R2,R0,R1` with `R0`
pending and `R1` not. -/
theorem C11_decode_reads_operands_witness :
    (APEX_decode (ticks 3 (boot (prog_add 5 10 0 1 2) false 8))).execute.rs1_value = 5
    ∧ (APEX_decode (ticks 3 (boot (prog_add 5 10 0 1 2) false 8))).execute.rs2_value = 0
    ∧ (APEX_decode (ticks 3 (boot (prog_add 5 10 0 1 2) false 8))).decode.has_insn = false := by
  have h := (C11_decode_reads_operands (ticks 3 (boot (prog_add 5 10 0 1 2) false 8))).2.1
    (by decide)
  have h1 := h.1 (by decide)
  refine ⟨?_, ?_, ?_⟩
  · rw [h1.1]; decide
  · rw [h1.2]; decide
  · rw [h.2.2.2.2.2.2.2.2.2.2.2.2.1]

/-- C12, as stated, fails.  `AND R1,R0,R0` with result 0 leaves `zero_flag`
false (AND, OR and XOR do not touch the flags), and `ADD R1,R0,R0` with
`R0 == -1` has result -2 and sets `pos_flag`. -/
theorem C12_counterexample_flags :
    ((ticks 2 (boot prog_and false 20)).execute.has_insn = true
      ∧ (ticks 2 (boot prog_and false 20)).execute.opcode = OPCODE_AND
      ∧ (APEX_execute (ticks 2 (boot prog_and false 20))).memory.result_buffer = 0
      ∧ (APEX_execute (ticks 2 (boot prog_and false 20))).zero_flag = false)
    ∧ ((ticks 3 (boot prog_neg false 20)).execute.has_insn = true
      ∧ (ticks 3 (boot prog_neg false 20)).execute.opcode = OPCODE_ADD
      ∧ (APEX_execute (ticks 3 (boot prog_neg false 20))).memory.result_buffer = -2
      ∧ (APEX_execute (ticks 3 (boot prog_neg false 20))).pos_flag = true) := by
  decide

/-- C12 (amended): after Execute processes a live ADD, SUB, MUL, ADDL or SUBL,
`zero_flag` is true exactly when the result is 0, and `pos_flag` is true when
the result is positive and false when it is 0; a live AND, OR or XOR leaves
both flags as they were. -/
theorem C12_flags_of_result (cpu : APEX_CPU) (hl : cpu.execute.has_insn = true) :
    (sets_flags cpu.execute.opcode = true →
        ((APEX_execute cpu).zero_flag = true ↔ (APEX_execute cpu).memory.result_buffer = 0)
        ∧ ((APEX_execute cpu).memory.result_buffer > 0 → (APEX_execute cpu).pos_flag = true)
        ∧ ((APEX_execute cpu).memory.result_buffer = 0 → (APEX_execute cpu).pos_flag = false))
    ∧ (is_bitwise cpu.execute.opcode = true →
        (APEX_execute cpu).zero_flag = cpu.zero_flag
        ∧ (APEX_execute cpu).pos_flag = cpu.pos_flag) := by
  refine ⟨?_, ?_⟩
  · intro h
    cases hop : cpu.execute.opcode <;> simp [hop, sets_flags] at h <;>
      simp [APEX_execute_eqs, execute_dispatch_cases, hl, hop] <;>
      intro h0 <;> omega
  · intro h
    cases hop : cpu.execute.opcode <;> simp [hop, is_bitwise] at h <;>
      simp [APEX_execute_eqs, execute_dispatch_cases, hl, hop]

/-- C12 (amended) on the ADD of the first scenario, whose result is 15. -/
theorem C12_flags_of_result_witness :
    (APEX_execute (ticks 4 (boot (prog_add 5 10 0 1 2) false 8))).memory.result_buffer = 15
    ∧ (APEX_execute (ticks 4 (boot (prog_add 5 10 0 1 2) false 8))).pos_flag = true
    ∧ (APEX_execute (ticks 4 (boot (prog_add 5 10 0 1 2) false 8))).zero_flag = false := by
  have h := (C12_flags_of_result (ticks 4 (boot (prog_add 5 10 0 1 2) false 8))
    (by decide)).1 (by decide)
  refine ⟨by decide, h.2.1 (by decide), ?_⟩
  cases hz : (APEX_execute (ticks 4 (boot (prog_add 5 10 0 1 2) false 8))).zero_flag
  · rfl
  · exact absurd (h.1.mp hz) (by decide)

/-- C13 fails for LDI.  In `[MOVC R0,#7; STORE R0,R1,#0; LDI R2,R1,#0; HALT]` the
LDI reads its base `R1` as 0 at Decode and loads the word 7 into `R2`, but after
its Writeback `regs[R1]` is still 0, not 4: Execute puts the incremented base
in `result_buffer`, which the Memory stage overwrites with the loaded word, and
Writeback commits the unchanged `rs1_value`.  STI in `[MOVC R0,#7; STI R0,R1,#0;
HALT]` does leave `regs[R1] == 4`. -/
theorem C13_ldi_loses_increment :
    ((ticks 4 (boot prog_ldi false 20)).execute.has_insn = true
      ∧ (ticks 4 (boot prog_ldi false 20)).execute.opcode = OPCODE_LDI
      ∧ (ticks 4 (boot prog_ldi false 20)).execute.rs1 = 1
      ∧ (ticks 4 (boot prog_ldi false 20)).execute.rd = 2
      ∧ (ticks 4 (boot prog_ldi false 20)).execute.rs1_value = 0
      ∧ (ticks 6 (boot prog_ldi false 20)).writeback.has_insn = true
      ∧ (ticks 6 (boot prog_ldi false 20)).writeback.opcode = OPCODE_LDI
      ∧ (APEX_writeback (ticks 6 (boot prog_ldi false 20))).1.regs 1 = 0
      ∧ (APEX_writeback (ticks 6 (boot prog_ldi false 20))).1.regs 1 ≠ 0 + 4
      ∧ (APEX_writeback (ticks 6 (boot prog_ldi false 20))).1.regs 2 = 7
      ∧ (APEX_writeback (ticks 6 (boot prog_ldi false 20))).1.data_memory (0 + 0) = 7
      ∧ ∃ final, APEX_cpu_run 8 [] (boot prog_ldi false 20)
            = some (StopCause.halt_retired, final)
          ∧ final.regs 1 = 0 ∧ final.regs 2 = 7)
    ∧ ((ticks 3 (boot prog_sti false 20)).execute.has_insn = true
      ∧ (ticks 3 (boot prog_sti false 20)).execute.opcode = OPCODE_STI
      ∧ (ticks 3 (boot prog_sti false 20)).execute.rs1 = 1
      ∧ (ticks 3 (boot prog_sti false 20)).execute.rs1_value = 0
      ∧ (APEX_writeback (ticks 5 (boot prog_sti false 20))).1.regs 1 = 4
      ∧ (APEX_writeback (ticks 5 (boot prog_sti false 20))).1.regsStatus 1 = FALSE) := by
  refine ⟨⟨by decide, by decide, by decide, by decide, by decide, by decide, by decide,
    by decide, by decide, by decide, by decide,
    (APEX_writeback (ticks 7 (boot prog_ldi false 20))).1, rfl, by decide, by decide⟩,
    by decide⟩

/-- With Fetch disabled and no redirect from Execute, a tick leaves Fetch
disabled and `pc` and the Fetch latch as they were. -/
theorem tick_fetch_stays_off (c : APEX_CPU) (hf : c.fetch.has_insn = false)
    (hr : execute_redirects c = false) :
    (tick c).fetch = c.fetch ∧ (tick c).pc = c.pc := by
  have hM : execute_redirects (APEX_memory (APEX_writeback c).1) = false := by
    simpa only [execute_redirects, branch_condition, APEX_memory_eqs, APEX_writeback_eqs]
      using hr
  have h1 := execute_no_redirect _ hM
  simp [tick_eqs, APEX_fetch_eqs, APEX_decode_eqs, h1, APEX_memory_eqs, APEX_writeback_eqs, hf]

/-- Fetch does nothing when it is disabled. -/
theorem fetch_off (c : APEX_CPU) (hf : c.fetch.has_insn = false) : APEX_fetch c = c := by
  unfold APEX_fetch
  rw [if_neg (by rw [hf]; exact Bool.false_ne_true)]

/-- C14 (amended): let Fetch be enabled and not suspended, let Execute not
redirect, and let the instruction at `pc` be HALT.  The tick hands the HALT
live to the Decode latch and disables Fetch.  From then on, for as long as
Execute does not redirect, Fetch stays disabled, does nothing when called, and
`pc` and the Fetch latch keep their values.  Provided the Execute of the tick
after the fetch does not redirect (a taken branch, JUMP or NOP there would
invalidate the Decode latch that holds the HALT), the HALT goes through Decode,
Execute and Memory and the Writeback of the fourth iteration after its fetch
retires it. -/
theorem C14_halt_stops_fetch (s : APEX_CPU)
    (hf : s.fetch.has_insn = true) (hn : s.fetch_from_next_cycle = false)
    (hr : execute_redirects s = false)
    (hH : (code_at s.code_memory (get_code_memory_index_from_pc s.pc)).opcode = OPCODE_HALT) :
    (tick s).decode.has_insn = true
    ∧ (tick s).decode.opcode = OPCODE_HALT
    ∧ (tick s).decode.pc = s.pc
    ∧ (tick s).fetch.has_insn = false
    ∧ (∀ k, (∀ j, 1 ≤ j → j ≤ k → execute_redirects (ticks j s) = false) →
        (ticks (k + 1) s).fetch.has_insn = false
        ∧ (ticks (k + 1) s).pc = (tick s).pc
        ∧ (ticks (k + 1) s).fetch = (tick s).fetch
        ∧ ∀ j, 1 ≤ j → j ≤ k →
            APEX_fetch (APEX_decode (APEX_execute (APEX_memory (APEX_writeback (ticks j s)).1)))
              = APEX_decode (APEX_execute (APEX_memory (APEX_writeback (ticks j s)).1)))
    ∧ (execute_redirects (tick s) = false →
        (ticks 2 s).execute.has_insn = true ∧ (ticks 2 s).execute.opcode = OPCODE_HALT
        ∧ (ticks 2 s).execute.pc = s.pc
        ∧ (ticks 3 s).memory.has_insn = true ∧ (ticks 3 s).memory.opcode = OPCODE_HALT
        ∧ (ticks 3 s).memory.pc = s.pc
        ∧ (ticks 4 s).writeback.has_insn = true ∧ (ticks 4 s).writeback.opcode = OPCODE_HALT
        ∧ (ticks 4 s).writeback.pc = s.pc
        ∧ (APEX_writeback (ticks 4 s)).2 = true) := by
  have hM : execute_redirects (APEX_memory (APEX_writeback s).1) = false := by
    simpa only [execute_redirects, branch_condition, APEX_memory_eqs, APEX_writeback_eqs]
      using hr
  have h1 := execute_no_redirect _ hM
  have h2 : (APEX_execute (APEX_memory (APEX_writeback s).1)).code_memory = s.code_memory := by
    simp only [APEX_execute_eqs, APEX_memory_eqs, APEX_writeback_eqs]
  have t1 : (tick s).decode.has_insn = true ∧ (tick s).decode.opcode = OPCODE_HALT
      ∧ (tick s).decode.pc = s.pc ∧ (tick s).fetch.has_insn = false := by
    simp [tick_eqs, APEX_fetch_eqs, APEX_decode_eqs, h1, h2, APEX_memory_eqs,
      APEX_writeback_eqs, fetched_latch, hf, hn, hH]
  obtain ⟨t1a, t1b, t1c, t1d⟩ := t1
  have hA : ∀ k, (∀ j, 1 ≤ j → j ≤ k → execute_redirects (ticks j s) = false) →
      (ticks (k + 1) s).fetch = (tick s).fetch ∧ (ticks (k + 1) s).pc = (tick s).pc := by
    intro k
    induction k with
    | zero => intro _; exact ⟨rfl, rfl⟩
    | succ k ih =>
      intro hj
      have ih1 := ih (fun j h1 h2 => hj j h1 (Nat.le_succ_of_le h2))
      have hoff : (ticks (k + 1) s).fetch.has_insn = false := by rw [ih1.1]; exact t1d
      have hst := tick_fetch_stays_off (ticks (k + 1) s) hoff
        (hj (k + 1) (Nat.succ_le_succ (Nat.zero_le k)) (Nat.le_refl _))
      rw [ticks_succ_outer (k + 1) s, hst.1, hst.2]
      exact ih1
  refine ⟨t1a, t1b, t1c, t1d, ?_, ?_⟩
  · intro k hj
    have hk := hA k hj
    refine ⟨by rw [hk.1]; exact t1d, hk.2, hk.1, ?_⟩
    intro j hj1 hj2
    apply fetch_off
    obtain ⟨i, rfl⟩ : ∃ i, j = i + 1 := ⟨j - 1, by omega⟩
    have hi := hA i (fun j' h1 h2 => hj j' h1 (by omega))
    have hMj : execute_redirects (APEX_memory (APEX_writeback (ticks (i + 1) s)).1) = false := by
      simpa only [execute_redirects, branch_condition, APEX_memory_eqs, APEX_writeback_eqs]
        using hj (i + 1) hj1 hj2
    have h1j := execute_no_redirect _ hMj
    simp only [APEX_decode_eqs, h1j, APEX_memory_eqs, APEX_writeback_eqs, hi.1, t1d]
  · intro hr1
    have hM1 : execute_redirects (APEX_memory (APEX_writeback (tick s)).1) = false := by
      simpa only [execute_redirects, branch_condition, APEX_memory_eqs, APEX_writeback_eqs]
        using hr1
    have h11 := execute_no_redirect _ hM1
    have t2 : (tick (tick s)).execute.has_insn = true
        ∧ (tick (tick s)).execute.opcode = OPCODE_HALT
        ∧ (tick (tick s)).execute.pc = s.pc := by
      simp only [tick_eqs (tick s), APEX_fetch_eqs, APEX_decode_eqs, h11, APEX_memory_eqs,
        APEX_writeback_eqs, decode_operands_eqs, t1a, t1b, t1c, if_true, and_self]
    obtain ⟨t2a, t2b, t2c⟩ := t2
    have t3 : (tick (tick (tick s))).memory.has_insn = true
        ∧ (tick (tick (tick s))).memory.opcode = OPCODE_HALT
        ∧ (tick (tick (tick s))).memory.pc = s.pc := by
      simp [tick_eqs (tick (tick s)), APEX_fetch_eqs, APEX_decode_eqs, APEX_execute_eqs,
        execute_dispatch_cases, APEX_memory_eqs, APEX_writeback_eqs, t2a, t2b, t2c]
    obtain ⟨t3a, t3b, t3c⟩ := t3
    have hm3 : (APEX_writeback (tick (tick (tick s)))).1.memory = (tick (tick (tick s))).memory := by
      simp only [APEX_writeback_eqs]
    have hh := memory_hands_on (APEX_writeback (tick (tick (tick s)))).1 (by rw [hm3]; exact t3a)
    rw [hm3, t3b, t3c] at hh
    have t4 : (tick (tick (tick (tick s)))).writeback.has_insn = true
        ∧ (tick (tick (tick (tick s)))).writeback.opcode = OPCODE_HALT
        ∧ (tick (tick (tick (tick s)))).writeback.pc = s.pc := by
      simp only [tick_eqs (tick (tick (tick s))), APEX_fetch_eqs, APEX_decode_eqs,
        APEX_execute_eqs, hh, and_self]
    obtain ⟨t4a, t4b, t4c⟩ := t4
    have e2 : ticks 2 s = tick (tick s) := rfl
    have e3 : ticks 3 s = tick (tick (tick s)) := rfl
    have e4 : ticks 4 s = tick (tick (tick (tick s))) := rfl
    rw [e2, e3, e4]
    refine ⟨t2a, t2b, t2c, t3a, t3b, t3c, t4a, t4b, t4c, ?_⟩
    simp [APEX_writeback_eqs, t4a, t4b]

/-- C14, as stated, fails: a fetched HALT does not always drain.  In `[MOVC R0,#0;
BZ #8; HALT; MOVC R1,#2; HALT]` Fetch fetches the HALT of address 4008 in
iteration 2 (Fetch enabled, not suspended, no redirect in that tick) and hands
it live to the Decode latch; in iteration 3 the BZ in Execute is taken and
invalidates the Decode latch, so the HALT reaches neither Execute nor
Writeback: four ticks after its fetch Writeback does not stop the run, no
Writeback latch of iterations 0..12 holds the instruction of address 4008, and
the run ends by retiring the other HALT, after the MOVC behind the flushed one
has written `R1`. -/
theorem C14_counterexample_flushed_halt :
    ((ticks 2 (boot prog_bz_halt false 20)).fetch.has_insn = true
      ∧ (ticks 2 (boot prog_bz_halt false 20)).fetch_from_next_cycle = false
      ∧ execute_redirects (ticks 2 (boot prog_bz_halt false 20)) = false
      ∧ (code_at (ticks 2 (boot prog_bz_halt false 20)).code_memory
          (get_code_memory_index_from_pc (ticks 2 (boot prog_bz_halt false 20)).pc)).opcode
          = OPCODE_HALT)
    ∧ ((ticks 3 (boot prog_bz_halt false 20)).decode.has_insn = true
      ∧ (ticks 3 (boot prog_bz_halt false 20)).decode.opcode = OPCODE_HALT
      ∧ (ticks 3 (boot prog_bz_halt false 20)).decode.pc = 4008
      ∧ (ticks 3 (boot prog_bz_halt false 20)).fetch.has_insn = false)
    ∧ (execute_redirects (ticks 3 (boot prog_bz_halt false 20)) = true
      ∧ (ticks 4 (boot prog_bz_halt false 20)).execute.has_insn = false
      ∧ (ticks 4 (boot prog_bz_halt false 20)).fetch.has_insn = true
      ∧ (ticks 5 (boot prog_bz_halt false 20)).memory.has_insn = false
      ∧ (ticks 6 (boot prog_bz_halt false 20)).writeback.has_insn = false
      ∧ (APEX_writeback (ticks 6 (boot prog_bz_halt false 20))).2 = false)
    ∧ (∀ j, j ≤ 12 →
        ¬ ((ticks j (boot prog_bz_halt false 20)).writeback.has_insn = true
          ∧ (ticks j (boot prog_bz_halt false 20)).writeback.pc = 4008))
    ∧ ∃ final, APEX_cpu_run 11 [] (boot prog_bz_halt false 20)
          = some (StopCause.halt_retired, final)
        ∧ final.regs 1 = 2 ∧ final.insn_completed = 4 := by
  refine ⟨by decide, by decide, by decide, by decide,
    (APEX_writeback (ticks 9 (boot prog_bz_halt false 20))).1, rfl, by decide, by decide⟩

/-- C14 (amended) on the first scenario, whose HALT is fetched in iteration 3
and retired in iteration 7. -/
theorem C14_halt_stops_fetch_witness :
    (ticks 3 (boot (prog_add 5 10 0 1 2) false 8)).fetch.has_insn = true
    ∧ (tick (ticks 3 (boot (prog_add 5 10 0 1 2) false 8))).decode.opcode = OPCODE_HALT
    ∧ (tick (ticks 3 (boot (prog_add 5 10 0 1 2) false 8))).fetch.has_insn = false
    ∧ (ticks (2 + 1) (ticks 3 (boot (prog_add 5 10 0 1 2) false 8))).fetch.has_insn = false
    ∧ (APEX_writeback (ticks 4 (ticks 3 (boot (prog_add 5 10 0 1 2) false 8)))).2 = true := by
  have h := C14_halt_stops_fetch (ticks 3 (boot (prog_add 5 10 0 1 2) false 8))
    (by decide) (by decide) (by decide) (by decide)
  exact ⟨by decide, h.2.1, h.2.2.2.1, (h.2.2.2.2.1 2 (by decide)).1,
    (h.2.2.2.2.2 (by decide)).2.2.2.2.2.2.2.2.2⟩

/-- C15, as stated, fails: no handler reports an error.  In `[DIV R1,R0,R0; HALT]`
the DIV, which has no case in any dispatch, is handed on from latch to latch,
is retired by Writeback in iteration 4, and the run ends normally by retiring
HALT with two instructions retired. -/
theorem C15_counterexample_div_retired :
    (ticks 1 (boot prog_div false 20)).decode.has_insn = true
    ∧ (ticks 1 (boot prog_div false 20)).decode.opcode = OPCODE_DIV
    ∧ (ticks 2 (boot prog_div false 20)).execute.has_insn = true
    ∧ (ticks 2 (boot prog_div false 20)).execute.opcode = OPCODE_DIV
    ∧ (ticks 3 (boot prog_div false 20)).memory.has_insn = true
    ∧ (ticks 3 (boot prog_div false 20)).memory.opcode = OPCODE_DIV
    ∧ (ticks 4 (boot prog_div false 20)).writeback.has_insn = true
    ∧ (ticks 4 (boot prog_div false 20)).writeback.opcode = OPCODE_DIV
    ∧ (ticks 4 (boot prog_div false 20)).insn_completed = 0
    ∧ (APEX_writeback (ticks 4 (boot prog_div false 20))).1.insn_completed = 1
    ∧ ∃ final, APEX_cpu_run 6 [] (boot prog_div false 20)
          = some (StopCause.halt_retired, final)
        ∧ final.insn_completed = 2 := by
  refine ⟨by decide, by decide, by decide, by decide, by decide, by decide, by decide,
    by decide, by decide, by decide,
    (APEX_writeback (ticks 5 (boot prog_div false 20))).1, rfl, by decide⟩

/-- C15 (amended): a live instruction whose opcode has no case in a dispatch is
handed on unchanged and without any error.  Decode hands a DIV or BNZ to the
Execute latch as it is; Execute hands a DIV or HALT to the Memory latch as it
is and changes nothing else; the Memory stage hands a DIV to the Writeback
latch and leaves data memory alone; Writeback retires a DIV, counting it in
`insn_completed`, without touching a register or a pending bit and without
the stop signal. -/
theorem C15_unhandled_opcode_passes (cpu : APEX_CPU) :
    (cpu.decode.has_insn = true →
      cpu.decode.opcode = OPCODE_DIV ∨ cpu.decode.opcode = OPCODE_BNZ →
        (APEX_decode cpu).execute = cpu.decode
        ∧ (APEX_decode cpu).decode = { cpu.decode with has_insn := false })
    ∧ (cpu.execute.has_insn = true →
      cpu.execute.opcode = OPCODE_DIV ∨ cpu.execute.opcode = OPCODE_HALT →
        (APEX_execute cpu).memory = cpu.execute
        ∧ (APEX_execute cpu).execute = { cpu.execute with has_insn := false }
        ∧ (APEX_execute cpu).pc = cpu.pc
        ∧ (APEX_execute cpu).zero_flag = cpu.zero_flag
        ∧ (APEX_execute cpu).pos_flag = cpu.pos_flag
        ∧ (APEX_execute cpu).regsStatus = cpu.regsStatus
        ∧ (APEX_execute cpu).reg_values = cpu.reg_values
        ∧ (APEX_execute cpu).fetch = cpu.fetch
        ∧ (APEX_execute cpu).decode = cpu.decode
        ∧ (APEX_execute cpu).fetch_from_next_cycle = cpu.fetch_from_next_cycle)
    ∧ (cpu.memory.has_insn = true → cpu.memory.opcode = OPCODE_DIV →
        (APEX_memory cpu).writeback = cpu.memory
        ∧ (APEX_memory cpu).data_memory = cpu.data_memory)
    ∧ (cpu.writeback.has_insn = true → cpu.writeback.opcode = OPCODE_DIV →
        (APEX_writeback cpu).1.insn_completed = cpu.insn_completed + 1
        ∧ (APEX_writeback cpu).1.regs = cpu.regs
        ∧ (APEX_writeback cpu).1.regsStatus = cpu.regsStatus
        ∧ (APEX_writeback cpu).2 = false) := by
  refine ⟨?_, ?_, ?_, ?_⟩
  · intro hl hop
    have hd : decode_operands cpu = cpu.decode := by
      rcases hop with hop | hop <;> simp only [decode_operands, hop]
    simp [APEX_decode_eqs, hl, hd]
  · intro hl hop
    rcases hop with hop | hop <;>
      simp [APEX_execute_eqs, execute_dispatch_cases, hl, hop]
  · intro hl hop
    simp [APEX_memory_eqs, memory_dispatch_eqs, hl, hop, is_load, is_store]
  · intro hl hop
    simp [APEX_writeback_eqs, writeback_dispatch_eqs, hl, hop, commits_rd]

/-- C15 (amended) on the DIV of `[DIV R1,R0,R0; HALT]` in the Decode latch. -/
theorem C15_unhandled_opcode_passes_witness :
    (ticks 1 (boot prog_div false 20)).decode.opcode = OPCODE_DIV
    ∧ (APEX_decode (ticks 1 (boot prog_div false 20))).execute
        = (ticks 1 (boot prog_div false 20)).decode := by
  exact ⟨by decide, ((C15_unhandled_opcode_passes (ticks 1 (boot prog_div false 20))).1
    (by decide) (Or.inl (by decide))).1⟩

/-! ## Straight-line programs -/

/-- Execute hands a live instruction to the Memory latch and empties its own
latch. -/
theorem execute_hands_on (c : APEX_CPU) (hl : c.execute.has_insn = true) :
    (APEX_execute c).memory.has_insn = true
    ∧ same_insn (APEX_execute c).memory c.execute
    ∧ (APEX_execute c).execute.has_insn = false := by
  cases hop : c.execute.opcode <;>
    simp [APEX_execute_eqs, execute_dispatch_cases, hl, hop, redirect, same_insn] <;>
    split_ifs <;> simp [hl, hop]

/-- The Memory stage hands a live instruction to the Writeback latch and
empties its own latch. -/
theorem memory_hands_insn (c : APEX_CPU) (hl : c.memory.has_insn = true) :
    (APEX_memory c).writeback.has_insn = true
    ∧ same_insn (APEX_memory c).writeback c.memory
    ∧ (APEX_memory c).memory.has_insn = false := by
  cases h : is_load c.memory.opcode <;>
    simp [APEX_memory_eqs, memory_dispatch_eqs, hl, h, same_insn]

/-- Decode hands a live instruction to the Execute latch and empties its own
latch. -/
theorem decode_hands_on (c : APEX_CPU) (hl : c.decode.has_insn = true) :
    (APEX_decode c).execute.has_insn = true
    ∧ same_insn (APEX_decode c).execute c.decode
    ∧ (APEX_decode c).decode.has_insn = false := by
  simp [APEX_decode_eqs, decode_operands_eqs, hl, same_insn]

/-- An opcode that cannot redirect does not redirect. -/
theorem no_redirect_of_opcode (c : APEX_CPU)
    (h : c.execute.has_insn = true → may_redirect c.execute.opcode = false) :
    execute_redirects c = false := by
  unfold execute_redirects branch_condition
  cases hl : c.execute.has_insn
  · simp
  · have h2 := h hl
    cases hop : c.execute.opcode <;> simp [hop, may_redirect] at h2 ⊢

/-- One tick moves every live instruction one latch on when Execute holds no
instruction that can redirect Fetch. -/
theorem tick_moves_on (s : APEX_CPU)
    (hr : s.execute.has_insn = true → may_redirect s.execute.opcode = false)
    (hn : s.fetch_from_next_cycle = false) :
    (tick s).code_memory = s.code_memory
    ∧ (tick s).fetch_from_next_cycle = false
    ∧ (tick s).insn_completed
      = (if s.writeback.has_insn then s.insn_completed + 1 else s.insn_completed)
    ∧ (tick s).writeback.has_insn = s.memory.has_insn
    ∧ (s.memory.has_insn = true → same_insn (tick s).writeback s.memory)
    ∧ (tick s).memory.has_insn = s.execute.has_insn
    ∧ (s.execute.has_insn = true → same_insn (tick s).memory s.execute)
    ∧ (tick s).execute.has_insn = s.decode.has_insn
    ∧ (s.decode.has_insn = true → same_insn (tick s).execute s.decode)
    ∧ (s.fetch.has_insn = false →
        (tick s).decode.has_insn = false ∧ (tick s).pc = s.pc
        ∧ (tick s).fetch.has_insn = false)
    ∧ (s.fetch.has_insn = true →
        (tick s).decode.has_insn = true
        ∧ (tick s).decode.pc = s.pc
        ∧ (tick s).decode.opcode
            = (code_at s.code_memory (get_code_memory_index_from_pc s.pc)).opcode
        ∧ (tick s).decode.rd = (code_at s.code_memory (get_code_memory_index_from_pc s.pc)).rd
        ∧ (tick s).decode.rs1 = (code_at s.code_memory (get_code_memory_index_from_pc s.pc)).rs1
        ∧ (tick s).decode.rs2 = (code_at s.code_memory (get_code_memory_index_from_pc s.pc)).rs2
        ∧ (tick s).decode.imm = (code_at s.code_memory (get_code_memory_index_from_pc s.pc)).imm
        ∧ (tick s).pc = add32 s.pc 4
        ∧ ((tick s).fetch.has_insn = true
            ↔ (code_at s.code_memory (get_code_memory_index_from_pc s.pc)).opcode
              ≠ OPCODE_HALT)) := by
  have hM : execute_redirects (APEX_memory (APEX_writeback s).1) = false :=
    no_redirect_of_opcode _ (by simpa only [APEX_memory_eqs, APEX_writeback_eqs] using hr)
  have h1 := execute_no_redirect _ hM
  simp only [APEX_memory_eqs, APEX_writeback_eqs] at h1
  obtain ⟨e1, e2, e3, e4⟩ := h1
  have hEm : (tick s).memory = (APEX_execute (APEX_memory (APEX_writeback s).1)).memory := by
    simp only [tick_eqs, APEX_fetch_eqs, APEX_decode_eqs]
  have hEe : (tick s).execute
      = (APEX_decode (APEX_execute (APEX_memory (APEX_writeback s).1))).execute := by
    simp only [tick_eqs, APEX_fetch_eqs]
  have hW : (tick s).writeback = (APEX_memory (APEX_writeback s).1).writeback := by
    simp only [tick_eqs, APEX_fetch_eqs, APEX_decode_eqs, APEX_execute_eqs]
  have hDd : (APEX_execute (APEX_memory (APEX_writeback s).1)).decode.has_insn
      = s.decode.has_insn := by rw [e4]
  refine ⟨(tick_frame s).2.2.2.1, ?_, (tick_frame s).2.2.2.2.1, ?_, ?_, ?_, ?_, ?_, ?_, ?_, ?_⟩
  · simp only [tick_eqs, APEX_fetch_eqs, APEX_decode_eqs, e2, hn, ite_self]
  · rw [hW]
    cases hl : s.memory.has_insn
    · simp [APEX_memory_eqs, APEX_writeback_eqs, hl]
    · exact (memory_hands_insn (APEX_writeback s).1
        (by simpa only [APEX_writeback_eqs] using hl)).1
  · intro hl
    rw [hW]
    have := (memory_hands_insn (APEX_writeback s).1
      (by simpa only [APEX_writeback_eqs] using hl)).2.1
    simpa only [APEX_writeback_eqs] using this
  · rw [hEm]
    cases hl : s.execute.has_insn
    · simp [APEX_execute_eqs, APEX_memory_eqs, APEX_writeback_eqs, hl]
      cases hm : s.memory.has_insn <;> simp [hm]
    · exact (execute_hands_on (APEX_memory (APEX_writeback s).1)
        (by simpa only [APEX_memory_eqs, APEX_writeback_eqs] using hl)).1
  · intro hl
    rw [hEm]
    have := (execute_hands_on (APEX_memory (APEX_writeback s).1)
      (by simpa only [APEX_memory_eqs, APEX_writeback_eqs] using hl)).2.1
    simpa only [APEX_memory_eqs, APEX_writeback_eqs] using this
  · rw [hEe]
    cases hl : s.decode.has_insn
    · simp [APEX_decode_eqs, e4, hl, APEX_execute_eqs, APEX_memory_eqs, APEX_writeback_eqs]
      cases hm : s.execute.has_insn <;> simp [hm]
    · exact (decode_hands_on _ (by rw [hDd]; exact hl)).1
  · intro hl
    rw [hEe]
    have := (decode_hands_on _ (hDd.trans hl)).2.1
    rw [e4] at this
    exact this
  · intro hf
    simp [tick_eqs, APEX_fetch_eqs, APEX_decode_eqs, e1, e3, e4, hf]
    cases hm : s.decode.has_insn <;> simp [hm]
  · intro hf
    simp [tick_eqs, APEX_fetch_eqs, APEX_decode_eqs, e1, e2, e3, e4, hf, hn, fetched_latch,
      APEX_execute_eqs, APEX_memory_eqs, APEX_writeback_eqs]
    split_ifs <;> simp_all

/-- The entry Fetch reads at the address of index `i`. -/
theorem code_at_pc_of (P : List APEX_Instruction) (i : Nat) (h : pc_of i ≤ 2147483647) :
    code_at P (get_code_memory_index_from_pc (pc_of i)) = insn_at P i := by
  unfold pc_of at h
  have h1 : sub32 (pc_of i) 4000 = 4 * (i : Int) := by
    unfold sub32 pc_of
    rw [wrap32_of_range] <;> omega
  unfold get_code_memory_index_from_pc
  rw [h1, Int.mul_tdiv_cancel_left _ (by decide)]
  rfl

theorem pc_of_succ (i : Nat) (h : pc_of (i + 1) ≤ 2147483647) :
    add32 (pc_of i) 4 = pc_of (i + 1) := by
  unfold pc_of at *
  rw [add32_of_range] <;> push_cast <;> omega

theorem pc_of_mono (i j : Nat) (h : i ≤ j) : pc_of i ≤ pc_of j := by
  unfold pc_of
  omega

/-- A latch that takes over the instruction of the latch before it is one
place further behind Fetch at the next iteration. -/
theorem stage_at_shift (P : List APEX_Instruction) (t d : Nat) (l l2 : CPU_Stage)
    (h : stage_at P t d l) (hl : l2.has_insn = l.has_insn)
    (hs : l.has_insn = true → same_insn l2 l) : stage_at P (t + 1) (d + 1) l2 := by
  have e : t + 1 - (d + 1) = t - d := by omega
  refine ⟨fun hc => ?_, fun hc => ?_⟩
  · obtain ⟨a1, a2, a3, a4, a5, a6, a7⟩ := h.1 ⟨by omega, by omega⟩
    obtain ⟨b1, b2, b3, b4, b5, b6⟩ := hs a1
    rw [e]
    exact ⟨hl.trans a1, b1.trans a2, b2.trans a3, b3.trans a4, b4.trans a5, b5.trans a6,
      b6.trans a7⟩
  · rw [hl]
    exact h.2 (fun hc2 => hc ⟨by omega, by omega⟩)

/-- A live latch of a scheduled stage holds an entry of the program. -/
theorem stage_at_live (P : List APEX_Instruction) (t d : Nat) (l : CPU_Stage)
    (h : stage_at P t d l) (hl : l.has_insn = true) :
    d ≤ t ∧ t < P.length + d ∧ latch_holds P (t - d) l := by
  by_cases hc : d ≤ t ∧ t < P.length + d
  · exact ⟨hc.1, hc.2, h.1 hc⟩
  · rw [h.2 hc] at hl
    exact absurd hl (by simp)

/-- The schedule of a straight-line program holds before the first iteration. -/
theorem schedule_boot (P : List APEX_Instruction) (simulate : Bool) (n : Int)
    (hP : straight_line P) : schedule P 0 (boot P simulate n) := by
  refine ⟨rfl, rfl, ?_, ?_, ?_, ?_, ?_, ?_, ?_⟩
  · simp [boot, pc_of]
  · simp [boot, hP.1]
  all_goals first
    | exact ⟨fun hc => absurd hc.1 (by decide), fun _ => rfl⟩
    | simp [boot]

/-- One tick takes the schedule of a straight-line program from iteration `t`
to iteration `t + 1`. -/
theorem schedule_tick (P : List APEX_Instruction) (t : Nat) (s : APEX_CPU)
    (hP : straight_line P) (h : schedule P t s) : schedule P (t + 1) (tick s) := by
  obtain ⟨hN, hR, hnr, hH⟩ := hP
  obtain ⟨hc, hn, hpc, hf, hd, he, hm, hw, hi⟩ := h
  have hr : s.execute.has_insn = true → may_redirect s.execute.opcode = false := by
    intro hl
    obtain ⟨a1, a2, a3⟩ := stage_at_live P t 2 _ he hl
    rw [a3.2.2.1]
    exact hnr _ (by omega)
  obtain ⟨m1, m2, m3, m4, m5, m6, m7, m8, m9, m10, m11⟩ := tick_moves_on s hr hn
  refine ⟨m1.trans hc, m2, ?_, ?_, ?_, stage_at_shift P t 1 _ _ hd m8 m9,
    stage_at_shift P t 2 _ _ he m6 m7, stage_at_shift P t 3 _ _ hm m4 m5, ?_⟩
  · by_cases ht : t < P.length
    · rw [(m11 (hf.2 ht)).2.2.2.2.2.2.2.1, hpc, Nat.min_eq_left (by omega),
        Nat.min_eq_left (by omega)]
      exact pc_of_succ t (le_trans (pc_of_mono _ _ (by omega)) hR)
    · have hf2 : s.fetch.has_insn = false := by
        cases hx : s.fetch.has_insn
        · rfl
        · exact absurd (hf.1 hx) ht
      rw [(m10 hf2).2.1, hpc, Nat.min_eq_right (by omega), Nat.min_eq_right (by omega)]
  · by_cases ht : t < P.length
    · have hx := (m11 (hf.2 ht)).2.2.2.2.2.2.2.2
      rw [hx, hc, hpc, Nat.min_eq_left (by omega),
        code_at_pc_of P t (le_trans (pc_of_mono _ _ (by omega)) hR)]
      have := hH t ht
      constructor
      · intro h1
        have : ¬ t + 1 = P.length := fun h2 => h1 (this.2 h2)
        omega
      · intro h1 h2
        have := this.1 h2
        omega
    · have hf2 : s.fetch.has_insn = false := by
        cases hx : s.fetch.has_insn
        · rfl
        · exact absurd (hf.1 hx) ht
      rw [(m10 hf2).2.2]
      constructor
      · intro h1; exact absurd h1 (by simp)
      · intro h1; omega
  · by_cases ht : t < P.length
    · obtain ⟨f1, f2, f3, f4, f5, f6, f7, _⟩ := m11 (hf.2 ht)
      have hx : code_at s.code_memory (get_code_memory_index_from_pc s.pc) = insn_at P t := by
        rw [hc, hpc, Nat.min_eq_left (by omega),
          code_at_pc_of P t (le_trans (pc_of_mono _ _ (by omega)) hR)]
      rw [hx] at f3 f4 f5 f6 f7
      refine ⟨fun _ => ?_, fun hx => absurd ⟨by omega, by omega⟩ hx⟩
      rw [Nat.add_sub_cancel]
      refine ⟨f1, ?_, f3, f4, f5, f6, f7⟩
      rw [f2, hpc, Nat.min_eq_left (by omega)]
    · have hf2 : s.fetch.has_insn = false := by
        cases hx : s.fetch.has_insn
        · rfl
        · exact absurd (hf.1 hx) ht
      exact ⟨fun hx => absurd hx.2 (by omega), fun _ => (m10 hf2).1⟩
  · rw [m3, hi]
    cases hl : s.writeback.has_insn
    · have : ¬ (4 ≤ t ∧ t < P.length + 4) := by
        intro hx
        have := (hw.1 hx).1
        rw [hl] at this
        exact absurd this (by simp)
      simp only [Bool.false_eq_true, if_false]
      congr 1
      omega
    · obtain ⟨a1, a2, _⟩ := stage_at_live P t 4 _ hw hl
      simp only [if_true]
      rw [Nat.min_eq_left (by omega), Nat.min_eq_left (by omega)]
      push_cast
      omega

/-- The schedule of a straight-line program holds at the start of every
iteration. -/
theorem schedule_ticks (P : List APEX_Instruction) (simulate : Bool) (n : Int)
    (hP : straight_line P) (t : Nat) : schedule P t (ticks t (boot P simulate n)) := by
  induction t with
  | zero => exact schedule_boot P simulate n hP
  | succ t ih => rw [ticks_succ_outer]; exact schedule_tick P t _ hP ih

/-- The return value of Writeback. -/
theorem writeback_stops (c : APEX_CPU) :
    (APEX_writeback c).2 = (c.writeback.has_insn && decide (c.writeback.opcode = OPCODE_HALT)) :=
  (APEX_writeback_eqs c).2.2.2.2.2.2.2.2.2.2.2.2.2.2.2.2.2.2.2

/-- A straight-line program of `N` entries run with a cycle budget of at least
`N + 3` leaves the loop in iteration `N + 3`, in which Writeback retires HALT. -/
theorem straight_line_run (P : List APEX_Instruction) (simulate : Bool) (n : Int)
    (fuel : Nat) (keys : List Char)
    (hP : straight_line P) (hn : (P.length : Int) + 3 ≤ n) (hfuel : P.length + 3 < fuel) :
    APEX_cpu_run fuel keys (boot P simulate n)
      = some (StopCause.halt_retired,
          (APEX_writeback (ticks (P.length + 3) (boot P simulate n))).1) := by
  have hS := schedule_ticks P simulate n hP
  obtain ⟨hN, hR, hnr, hH⟩ := hP
  obtain ⟨extra, rfl⟩ : ∃ extra, fuel = (extra + 1) + (P.length + 3) :=
    ⟨fuel - (P.length + 3) - 1, by omega⟩
  have hlast := (hS (P.length + 3)).2.2.2.2.2.2.2.1.1 ⟨by omega, by omega⟩
  rw [run_ticks (P.length + 3) (extra + 1) keys _ rfl, run_halt]
  · rw [writeback_stops, hlast.1, hlast.2.2.1, (hH (P.length + 3 - 4) (by omega)).2 (by omega)]
    rfl
  · intro j hj
    refine ⟨?_, ?_⟩
    · rw [writeback_stops]
      cases hl : (ticks j (boot P simulate n)).writeback.has_insn
      · rfl
      · obtain ⟨c1, c2, c3⟩ := stage_at_live P j 4 _ (hS j).2.2.2.2.2.2.2.1 hl
        have hne : ¬ (insn_at P (j - 4)).opcode = OPCODE_HALT := by
          intro hx
          have := (hH (j - 4) (by omega)).1 hx
          omega
        rw [c3.2.2.1]
        simp [hne]
    · rw [ticks_clock, ticks_cycle]
      simp only [boot]
      omega

/-! ## Register-to-register programs -/

theorem seq_regs_zero (P : List APEX_Instruction) : seq_regs P 0 = fun _ => 0 := rfl

theorem seq_regs_succ (P : List APEX_Instruction) (k : Nat) (h : k < P.length) :
    seq_regs P (k + 1) = seq_step (seq_regs P k) (insn_at P k) := by
  unfold seq_regs seq_exec insn_at
  rw [List.take_succ, List.foldl_append]
  simp [List.getD, h]

theorem seq_regs_sat (P : List APEX_Instruction) (k : Nat) (h : P.length ≤ k) :
    seq_regs P (k + 1) = seq_regs P k := by
  unfold seq_regs
  rw [List.take_of_length_le h, List.take_of_length_le (Nat.le_succ_of_le h)]

theorem seq_regs_full (P : List APEX_Instruction) : seq_regs P P.length = seq_exec P := by
  unfold seq_regs
  rw [List.take_length]

/-- The value of register `r` after one more entry. -/
theorem seq_regs_succ_apply (P : List APEX_Instruction) (k r : Nat) :
    seq_regs P (k + 1) r
      = (if k < P.length ∧ is_alu (insn_at P k).opcode = true ∧ (insn_at P k).rd = r
        then seq_result (insn_at P k) (seq_regs P k) else seq_regs P k r) := by
  by_cases h : k < P.length
  · rw [seq_regs_succ P k h]
    unfold seq_step
    cases ha : is_alu (insn_at P k).opcode
    · simp
    · by_cases hr : (insn_at P k).rd = r
      · subst hr
        simp [h, upd_same]
      · simp [h, hr, upd_apply, Ne.symm hr]
  · rw [seq_regs_sat P k (by omega)]
    simp [h]

/-- Execute on a live MOVC, arithmetic or bitwise instruction whose operands
are those of the register file `R`: the forwarded value, the pending bit and
the result handed to the Memory latch. -/
theorem execute_alu (c : APEX_CPU) (i : APEX_Instruction) (R : Nat → Int)
    (hl : c.execute.has_insn = true) (hop : c.execute.opcode = i.opcode)
    (himm : c.execute.imm = i.imm) (ha : is_alu i.opcode = true)
    (h1 : reads_rs1 i.opcode = true → c.execute.rs1_value = R i.rs1)
    (h2 : reads_rs2 i.opcode = true → c.execute.rs2_value = R i.rs2) :
    (APEX_execute c).reg_values = upd c.reg_values c.execute.rd (seq_result i R)
    ∧ (APEX_execute c).regsStatus = upd c.regsStatus c.execute.rd TRUE
    ∧ (APEX_execute c).memory.result_buffer = seq_result i R := by
  cases hi : i.opcode <;> rw [hi] at hop ha h1 h2 <;> simp [is_alu] at ha <;>
    simp [APEX_execute_eqs, execute_dispatch_cases, hl, hop, himm, h1, h2, seq_result, hi,
      reads_rs1, reads_rs2]

/-- Execute on a HALT changes neither the forwarded values nor the pending
bits. -/
theorem execute_halt (c : APEX_CPU) (hop : c.execute.opcode = OPCODE_HALT) :
    (APEX_execute c).reg_values = c.reg_values
    ∧ (APEX_execute c).regsStatus = c.regsStatus := by
  cases hl : c.execute.has_insn <;>
    simp [APEX_execute_eqs, execute_dispatch_cases, hl, hop]

/-- Writeback on a live MOVC, arithmetic or bitwise instruction. -/
theorem writeback_alu (c : APEX_CPU) (hl : c.writeback.has_insn = true)
    (ha : is_alu c.writeback.opcode = true) :
    (APEX_writeback c).1.regs = upd c.regs c.writeback.rd c.writeback.result_buffer
    ∧ (APEX_writeback c).1.regsStatus = upd c.regsStatus c.writeback.rd FALSE := by
  cases hop : c.writeback.opcode <;> simp [hop, is_alu] at ha <;>
    simp [APEX_writeback_eqs, writeback_dispatch_eqs, hl, hop, commits_rd]

/-- Writeback on a HALT changes neither the register file nor the pending
bits. -/
theorem writeback_halt (c : APEX_CPU) (hop : c.writeback.opcode = OPCODE_HALT) :
    (APEX_writeback c).1.regs = c.regs
    ∧ (APEX_writeback c).1.regsStatus = c.regsStatus := by
  cases hl : c.writeback.has_insn <;>
    simp [APEX_writeback_eqs, writeback_dispatch_eqs, hl, hop, commits_rd]

/-- Where the data of a tick comes from. -/
theorem tick_data (s : APEX_CPU) :
    (tick s).regs = (APEX_writeback s).1.regs
    ∧ (tick s).reg_values = (APEX_execute (APEX_memory (APEX_writeback s).1)).reg_values
    ∧ (tick s).regsStatus = (APEX_execute (APEX_memory (APEX_writeback s).1)).regsStatus
    ∧ (tick s).memory = (APEX_execute (APEX_memory (APEX_writeback s).1)).memory
    ∧ (tick s).writeback = (APEX_memory (APEX_writeback s).1).writeback
    ∧ (tick s).execute
        = (APEX_decode (APEX_execute (APEX_memory (APEX_writeback s).1))).execute
    ∧ (APEX_memory (APEX_writeback s).1).execute = s.execute
    ∧ (APEX_memory (APEX_writeback s).1).reg_values = s.reg_values
    ∧ (APEX_memory (APEX_writeback s).1).regsStatus = (APEX_writeback s).1.regsStatus
    ∧ (APEX_execute (APEX_memory (APEX_writeback s).1)).regs = (APEX_writeback s).1.regs := by
  simp only [tick_eqs, APEX_fetch_eqs, APEX_decode_eqs, APEX_execute_eqs, APEX_memory_eqs,
    APEX_writeback_eqs, and_self]

/-- The Memory stage hands the result of an instruction that is not a load
unchanged to the Writeback latch. -/
theorem memory_keeps_result (c : APEX_CPU) (hl : c.memory.has_insn = true)
    (h : is_load c.memory.opcode = false) :
    (APEX_memory c).writeback.result_buffer = c.memory.result_buffer := by
  simp [APEX_memory_eqs, memory_dispatch_eqs, hl, h]

theorem is_alu_not_load (o : Opcode) (h : is_alu o = true) : is_load o = false := by
  cases o <;> simp [is_alu] at h <;> rfl

/-- One tick takes the in-order data of a register-to-register program from
iteration `t` to iteration `t + 1`. -/
theorem in_order_tick (P : List APEX_Instruction) (t : Nat) (s : APEX_CPU)
    (hP : straight_line P)
    (hA : ∀ j, j < P.length →
      is_alu (insn_at P j).opcode = true ∨ (insn_at P j).opcode = OPCODE_HALT)
    (hC : ∀ j, j + 1 < P.length → is_alu (insn_at P (j + 1)).opcode = true →
      (insn_at P j).rd ≠ (insn_at P (j + 1)).rd)
    (hs : schedule P t s) (hd : in_order_data P t s) :
    in_order_data P (t + 1) (tick s) := by
  obtain ⟨hN, hR, hnr, hH⟩ := hP
  obtain ⟨hc, hn, hpc, hf, sd, se, sm, sw, hi⟩ := hs
  obtain ⟨d1, d2, d3, d4, d5⟩ := hd
  obtain ⟨t1, t2, t3, t4, t5, t6, t7, t8, t9, t10⟩ := tick_data s
  have hr : s.execute.has_insn = true → may_redirect s.execute.opcode = false := by
    intro hl
    obtain ⟨a1, a2, a3⟩ := stage_at_live P t 2 _ se hl
    rw [a3.2.2.1]
    exact hnr _ (by omega)
  obtain ⟨m1, m2, m3, m4, m5, m6, m7, m8, m9, m10, m11⟩ := tick_moves_on s hr hn
  have hM : execute_redirects (APEX_memory (APEX_writeback s).1) = false :=
    no_redirect_of_opcode _ (by simpa only [APEX_memory_eqs, APEX_writeback_eqs] using hr)
  have hEd : (APEX_execute (APEX_memory (APEX_writeback s).1)).decode = s.decode := by
    rw [(execute_no_redirect _ hM).2.2.2]
    simp only [APEX_memory_eqs, APEX_writeback_eqs]
  -- the register file after Writeback
  have hWregs : (APEX_writeback s).1.regs = seq_regs P (t + 1 - 4) := by
    cases hl : s.writeback.has_insn
    · have hx : (APEX_writeback s).1.regs = s.regs := by simp [APEX_writeback_eqs, hl]
      rw [hx, d1]
      by_cases h4 : 4 ≤ t
      · have hge : P.length + 4 ≤ t := by
          by_contra hx
          have := (sw.1 ⟨h4, by omega⟩).1
          rw [hl] at this
          exact absurd this (by simp)
        have e : t + 1 - 4 = (t - 4) + 1 := by omega
        rw [e, seq_regs_sat P (t - 4) (by omega)]
      · have e1 : t - 4 = 0 := by omega
        have e2 : t + 1 - 4 = 0 := by omega
        rw [e1, e2]
    · obtain ⟨a1, a2, _, _, w3, w4, _⟩ := stage_at_live P t 4 _ sw hl
      have e : t + 1 - 4 = (t - 4) + 1 := by omega
      rw [e, seq_regs_succ P (t - 4) (by omega)]
      rcases hA (t - 4) (by omega) with ha | hh
      · have ha2 : is_alu s.writeback.opcode = true := by rw [w3]; exact ha
        rw [(writeback_alu s hl ha2).1, d1, d5 hl ha, w4]
        simp [seq_step, ha]
      · rw [(writeback_halt s (w3.trans hh)).1, d1]
        have hx : is_alu (insn_at P (t - 4)).opcode = false := by rw [hh]; rfl
        simp [seq_step, hx]
  -- the forwarded values and pending bits after Execute
  have hEx : (APEX_execute (APEX_memory (APEX_writeback s).1)).reg_values
        = seq_regs P (t + 1 - 2)
      ∧ (s.execute.has_insn = true → is_alu (insn_at P (t - 2)).opcode = true →
          (APEX_execute (APEX_memory (APEX_writeback s).1)).memory.result_buffer
              = seq_result (insn_at P (t - 2)) (seq_regs P (t - 2))
          ∧ (APEX_execute (APEX_memory (APEX_writeback s).1)).regsStatus
              (insn_at P (t - 2)).rd = TRUE) := by
    cases hl : s.execute.has_insn
    · have hx : (APEX_execute (APEX_memory (APEX_writeback s).1)).reg_values = s.reg_values := by
        simp [APEX_execute_eqs, t7, t8, hl]
      refine ⟨?_, fun h => absurd h (by simp)⟩
      rw [hx, d2]
      by_cases h2 : 2 ≤ t
      · have hge : P.length + 2 ≤ t := by
          by_contra hx
          have := (se.1 ⟨h2, by omega⟩).1
          rw [hl] at this
          exact absurd this (by simp)
        have e : t + 1 - 2 = (t - 2) + 1 := by omega
        rw [e, seq_regs_sat P (t - 2) (by omega)]
      · have e1 : t - 2 = 0 := by omega
        have e2 : t + 1 - 2 = 0 := by omega
        rw [e1, e2]
    · obtain ⟨a1, a2, _, _, w3, w4, _, _, w7⟩ := stage_at_live P t 2 _ se hl
      have e : t + 1 - 2 = (t - 2) + 1 := by omega
      rw [e, seq_regs_succ P (t - 2) (by omega)]
      rcases hA (t - 2) (by omega) with ha | hh
      · have hx := execute_alu (APEX_memory (APEX_writeback s).1) (insn_at P (t - 2))
          (seq_regs P (t - 2)) (by rw [t7]; exact hl) (by rw [t7]; exact w3)
          (by rw [t7]; exact w7) ha (by rw [t7]; exact (d3 hl).1) (by rw [t7]; exact (d3 hl).2)
        rw [t7, t8] at hx
        refine ⟨?_, fun _ _ => ⟨hx.2.2, ?_⟩⟩
        · rw [hx.1, d2, w4]
          simp [seq_step, ha]
        · rw [hx.2.1, w4, upd_same]
      · have hx := execute_halt (APEX_memory (APEX_writeback s).1) (by rw [t7]; exact w3.trans hh)
        have hx2 : is_alu (insn_at P (t - 2)).opcode = false := by rw [hh]; rfl
        refine ⟨?_, fun _ h => absurd h (by rw [hx2]; simp)⟩
        rw [hx.1, t8, d2]
        simp [seq_step, hx2]
  -- a register whose committed value is out of date is pending
  have hSt : ∀ r, seq_regs P (t + 1 - 4) r ≠ seq_regs P (t + 1 - 2) r →
      (APEX_execute (APEX_memory (APEX_writeback s).1)).regsStatus r = TRUE := by
    intro r hne
    by_cases c2 : 2 ≤ t ∧ t - 2 < P.length ∧ is_alu (insn_at P (t - 2)).opcode = true
        ∧ (insn_at P (t - 2)).rd = r
    · obtain ⟨c21, c22, c23, c24⟩ := c2
      have hl := (se.1 ⟨c21, by omega⟩).1
      rw [← c24]
      exact (hEx.2 hl c23).2
    · have e2 : seq_regs P (t + 1 - 2) r = seq_regs P (t - 2) r := by
        by_cases h2 : 2 ≤ t
        · have e : t + 1 - 2 = (t - 2) + 1 := by omega
          rw [e, seq_regs_succ_apply, if_neg]
          intro hx
          exact c2 ⟨h2, hx⟩
        · have e1 : t - 2 = 0 := by omega
          have e2 : t + 1 - 2 = 0 := by omega
          rw [e1, e2]
      by_cases c3 : 3 ≤ t ∧ t - 3 < P.length ∧ is_alu (insn_at P (t - 3)).opcode = true
          ∧ (insn_at P (t - 3)).rd = r
      · obtain ⟨c31, c32, c33, c34⟩ := c3
        have hl := (sm.1 ⟨c31, by omega⟩).1
        have hp : s.regsStatus r = TRUE := by rw [← c34]; exact (d4 hl c33).2
        have hW : (APEX_writeback s).1.regsStatus r = TRUE := by
          cases hw : s.writeback.has_insn
          · simp [APEX_writeback_eqs, hw, hp]
          · obtain ⟨a1, a2, _, _, w3, w4, _⟩ := stage_at_live P t 4 _ sw hw
            rcases hA (t - 4) (by omega) with ha | hh
            · have ha2 : is_alu s.writeback.opcode = true := by rw [w3]; exact ha
              have hne2 : (insn_at P (t - 4)).rd ≠ (insn_at P (t - 4 + 1)).rd :=
                hC (t - 4) (by omega) (by
                  have e : t - 4 + 1 = t - 3 := by omega
                  rw [e]; exact c33)
              have e : t - 4 + 1 = t - 3 := by omega
              rw [e, c34] at hne2
              rw [(writeback_alu s hw ha2).2, w4, upd_other _ _ _ _ (Ne.symm hne2), hp]
            · rw [(writeback_halt s (w3.trans hh)).2, hp]
        apply execute_keeps_pending
        rw [t9]
        exact hW
      · exfalso
        apply hne
        rw [e2]
        by_cases h3 : 3 ≤ t
        · have e : t - 2 = (t - 3) + 1 := by omega
          have e4 : t + 1 - 4 = t - 3 := by omega
          rw [e, e4, seq_regs_succ_apply, if_neg]
          intro hx
          exact c3 ⟨h3, hx⟩
        · have e1 : t - 2 = 0 := by omega
          have e4 : t + 1 - 4 = 0 := by omega
          rw [e1, e4]
  -- what Decode reads
  have hRead : ∀ r, read_operand (APEX_execute (APEX_memory (APEX_writeback s).1)) r
      = seq_regs P (t + 1 - 2) r := by
    intro r
    unfold read_operand
    by_cases hp : (APEX_execute (APEX_memory (APEX_writeback s).1)).regsStatus r = TRUE
    · rw [if_pos hp, hEx.1]
    · rw [if_neg hp, t10, hWregs]
      by_contra hx
      exact hp (hSt r hx)
  refine ⟨t1.trans hWregs, t2.trans hEx.1, ?_, ?_, ?_⟩
  · intro hl
    have hdl : s.decode.has_insn = true := m8.symm.trans hl
    obtain ⟨a1, a2, _, _, w3, w4, w5, w6, w7⟩ := stage_at_live P t 1 _ sd hdl
    have e : t + 1 - 2 = t - 1 := by omega
    rw [t6]
    simp only [APEX_decode_eqs, hEd, hdl, if_true, decode_operands_eqs, operands_in_order]
    rw [e] at hRead ⊢
    refine ⟨fun h1 => ?_, fun h2 => ?_⟩
    · rw [w3, if_pos h1, hRead, w5]
    · rw [w3, if_pos h2, hRead, w6]
  · intro hl ha
    have hel : s.execute.has_insn = true := m6.symm.trans hl
    obtain ⟨a1, a2, _⟩ := stage_at_live P t 2 _ se hel
    have e : t + 1 - 3 = t - 2 := by omega
    rw [e] at ha ⊢
    rw [t4, t3]
    exact hEx.2 hel ha
  · intro hl ha
    have hml : s.memory.has_insn = true := m4.symm.trans hl
    obtain ⟨a1, a2, _, _, w3, _⟩ := stage_at_live P t 3 _ sm hml
    have e : t + 1 - 4 = t - 3 := by omega
    rw [e] at ha ⊢
    rw [t5, memory_keeps_result _ (by simpa only [APEX_writeback_eqs] using hml)
      (by simp only [APEX_writeback_eqs]; rw [w3]; exact is_alu_not_load _ ha)]
    simp only [APEX_writeback_eqs]
    exact (d4 hml ha).1

/-- The in-order data holds before the first iteration. -/
theorem in_order_boot (P : List APEX_Instruction) (simulate : Bool) (n : Int) :
    in_order_data P 0 (boot P simulate n) :=
  ⟨rfl, rfl, fun h => absurd h (by simp [boot, zero_stage]),
    fun h => absurd h (by simp [boot, zero_stage]),
    fun h => absurd h (by simp [boot, zero_stage])⟩

/-- The in-order data of a register-to-register program holds at the start of
every iteration. -/
theorem in_order_ticks (P : List APEX_Instruction) (simulate : Bool) (n : Int)
    (hP : straight_line P)
    (hA : ∀ j, j < P.length →
      is_alu (insn_at P j).opcode = true ∨ (insn_at P j).opcode = OPCODE_HALT)
    (hC : ∀ j, j + 1 < P.length → is_alu (insn_at P (j + 1)).opcode = true →
      (insn_at P j).rd ≠ (insn_at P (j + 1)).rd)
    (t : Nat) : in_order_data P t (ticks t (boot P simulate n)) := by
  induction t with
  | zero => exact in_order_boot P simulate n
  | succ t ih =>
    rw [ticks_succ_outer]
    exact in_order_tick P t _ hP hA hC (schedule_ticks P simulate n hP t) ih

theorem insn_at_body (body : List APEX_Instruction) (h : APEX_Instruction) (j : Nat)
    (hj : j < body.length) : insn_at (body ++ [h]) j = insn_at body j := by
  unfold insn_at
  exact List.getD_append _ _ _ _ hj

theorem insn_at_last (body : List APEX_Instruction) (h : APEX_Instruction) :
    insn_at (body ++ [h]) body.length = h := by
  unfold insn_at
  rw [List.getD_append_right _ _ _ _ (le_refl _)]
  simp

theorem is_alu_no_redirect (o : Opcode) (h : is_alu o = true) :
    may_redirect o = false ∧ o ≠ OPCODE_HALT := by
  cases o <;> simp [is_alu] at h <;> exact ⟨rfl, by simp⟩

/-- A body of register-to-register instructions followed by a HALT is a
straight-line program. -/
theorem alu_program_straight (body : List APEX_Instruction) (h : APEX_Instruction)
    (hh : h.opcode = OPCODE_HALT) (hb : alu_program body)
    (hR : pc_of (body.length + 1) ≤ 2147483647) : straight_line (body ++ [h]) := by
  have hlen : (body ++ [h]).length = body.length + 1 := by simp
  refine ⟨by rw [hlen]; omega, by rw [hlen]; exact hR, ?_, ?_⟩
  · intro i hi
    rw [hlen] at hi
    by_cases hj : i < body.length
    · rw [insn_at_body body h i hj]
      exact (is_alu_no_redirect _ (hb.1 i hj)).1
    · have e : i = body.length := by omega
      rw [e, insn_at_last, hh]
      rfl
  · intro i hi
    rw [hlen] at hi ⊢
    by_cases hj : i < body.length
    · rw [insn_at_body body h i hj]
      constructor
      · intro hx
        exact absurd hx (is_alu_no_redirect _ (hb.1 i hj)).2
      · intro hx
        omega
    · have e : i = body.length := by omega
      rw [e, insn_at_last]
      exact ⟨fun _ => rfl, fun _ => hh⟩

/-- C16: let `body` consist of MOVC, ADD, SUB, MUL, AND, OR, XOR, ADDL and SUBL
instructions, no two consecutive ones with the same destination register, and
let it be followed by one HALT.  Run from the initial machine in a
non-interactive mode with a cycle budget that is not reached, the loop stops by
retiring HALT, and the register file is then the one obtained by executing the
instructions of `body` one at a time, in program order, on an all-zero
register file (`seq_exec`). -/
theorem C16_pipeline_matches_in_order (body : List APEX_Instruction) (h : APEX_Instruction)
    (simulate : Bool) (n : Int) (fuel : Nat) (keys : List Char)
    (hh : h.opcode = OPCODE_HALT) (hb : alu_program body)
    (hR : pc_of (body.length + 1) ≤ 2147483647)
    (hn : (body.length : Int) + 4 ≤ n) (hfuel : body.length + 4 < fuel) :
    ∃ final,
      APEX_cpu_run fuel keys (boot (body ++ [h]) simulate n)
        = some (StopCause.halt_retired, final)
      ∧ final.regs = seq_exec body := by
  have hP := alu_program_straight body h hh hb hR
  have hlen : (body ++ [h]).length = body.length + 1 := by simp
  have hA : ∀ j, j < (body ++ [h]).length →
      is_alu (insn_at (body ++ [h]) j).opcode = true
        ∨ (insn_at (body ++ [h]) j).opcode = OPCODE_HALT := by
    intro j hj
    rw [hlen] at hj
    by_cases hj2 : j < body.length
    · rw [insn_at_body body h j hj2]
      exact Or.inl (hb.1 j hj2)
    · have e : j = body.length := by omega
      rw [e, insn_at_last]
      exact Or.inr hh
  have hC : ∀ j, j + 1 < (body ++ [h]).length →
      is_alu (insn_at (body ++ [h]) (j + 1)).opcode = true →
      (insn_at (body ++ [h]) j).rd ≠ (insn_at (body ++ [h]) (j + 1)).rd := by
    intro j hj ha
    rw [hlen] at hj
    by_cases hj2 : j + 1 < body.length
    · rw [insn_at_body body h j (by omega), insn_at_body body h (j + 1) hj2]
      exact hb.2 j (by omega) hj2
    · have e : j + 1 = body.length := by omega
      rw [e, insn_at_last, hh] at ha
      exact absurd ha (by decide)
  have hS := schedule_ticks (body ++ [h]) simulate n hP ((body ++ [h]).length + 3)
  have hD := in_order_ticks (body ++ [h]) simulate n hP hA hC ((body ++ [h]).length + 3)
  have hlast := hS.2.2.2.2.2.2.2.1.1 ⟨by omega, by omega⟩
  refine ⟨_, straight_line_run (body ++ [h]) simulate n fuel keys hP
    (by rw [hlen]; push_cast; omega) (by rw [hlen]; omega), ?_⟩
  have hop : (ticks ((body ++ [h]).length + 3) (boot (body ++ [h]) simulate n)).writeback.opcode
      = OPCODE_HALT := by
    rw [hlast.2.2.1]
    have e : (body ++ [h]).length + 3 - 4 = body.length := by rw [hlen]; omega
    rw [e, insn_at_last, hh]
  rw [(writeback_halt _ hop).1, hD.1]
  have e : (body ++ [h]).length + 3 - 4 = body.length := by rw [hlen]; omega
  rw [e]
  unfold seq_regs
  rw [List.take_left']
  rfl

/-- C16 on `[MOVC R0,#5; MOVC R1,#10; ADD R0,R0,R1; ADD R2,R0,R0; HALT]`, in
which `R0` is written twice, two instructions apart: the run ends with
`regs[R0] == 15` and `regs[R2] == 30`. -/
theorem C16_pipeline_matches_in_order_witness :
    ∃ final,
      APEX_cpu_run 9 [] (boot ([MOVC 0 5, MOVC 1 10, ADD 0 0 1, ADD 2 0 0] ++ [HALT]) false 8)
        = some (StopCause.halt_retired, final)
      ∧ final.regs 0 = 15 ∧ final.regs 2 = 30 := by
  obtain ⟨final, h1, h2⟩ := C16_pipeline_matches_in_order
    [MOVC 0 5, MOVC 1 10, ADD 0 0 1, ADD 2 0 0] HALT false 8 9 [] rfl
    ⟨by decide, by decide⟩ (by decide) (by decide) (by decide)
  exact ⟨final, h1, by rw [h2]; decide, by rw [h2]; decide⟩

/-- C17: `[MOVC R0,#1; MOVC R0,#2; MOVC R5,#0; ADD R1,R0,R0; HALT]` run to the
retirement of HALT ends with `regs[R1] == 2`, whereas in-order execution gives
4.  In iteration 4 the Writeback of the first MOVC commits 1 to `R0` and clears
its pending bit while the second MOVC is still in the Memory latch; the Decode
of the ADD in the same iteration therefore reads the committed 1 twice. -/
theorem C17_pipeline_differs_from_in_order :
    (∃ final, APEX_cpu_run 9 [] (boot prog_waw false 20)
          = some (StopCause.halt_retired, final)
        ∧ final.regs 1 = 2)
    ∧ seq_exec prog_waw 1 = 4
    ∧ (ticks 4 (boot prog_waw false 20)).writeback.has_insn = true
    ∧ (ticks 4 (boot prog_waw false 20)).writeback.pc = 4000
    ∧ (ticks 4 (boot prog_waw false 20)).regsStatus 0 = TRUE
    ∧ (APEX_writeback (ticks 4 (boot prog_waw false 20))).1.regsStatus 0 = FALSE
    ∧ (APEX_writeback (ticks 4 (boot prog_waw false 20))).1.regs 0 = 1
    ∧ (ticks 4 (boot prog_waw false 20)).memory.has_insn = true
    ∧ (ticks 4 (boot prog_waw false 20)).memory.pc = 4004
    ∧ (ticks 4 (boot prog_waw false 20)).memory.result_buffer = 2
    ∧ (ticks 4 (boot prog_waw false 20)).decode.has_insn = true
    ∧ (ticks 4 (boot prog_waw false 20)).decode.opcode = OPCODE_ADD
    ∧ (ticks 5 (boot prog_waw false 20)).execute.opcode = OPCODE_ADD
    ∧ (ticks 5 (boot prog_waw false 20)).execute.rs1_value = 1
    ∧ (ticks 5 (boot prog_waw false 20)).execute.rs2_value = 1 := by
  refine ⟨⟨(APEX_writeback (ticks 8 (boot prog_waw false 20))).1, rfl, by decide⟩,
    by decide, by decide, by decide, by decide, by decide, by decide, by decide, by decide,
    by decide, by decide, by decide, by decide, by decide, by decide⟩

/-- Execute leaves the `rs1_value` of the Fetch latch and the instruction
fields of the Decode latch alone, and does not change the opcode of its own
latch nor the `rs1_value` of a NOP in it. -/
theorem execute_keeps_front (c : APEX_CPU) :
    (APEX_execute c).fetch.rs1_value = c.fetch.rs1_value
    ∧ (APEX_execute c).decode.opcode = c.decode.opcode
    ∧ (APEX_execute c).decode.rs1_value = c.decode.rs1_value
    ∧ (APEX_execute c).execute.opcode = c.execute.opcode
    ∧ (c.execute.opcode = OPCODE_NOP →
        (APEX_execute c).execute.rs1_value = c.execute.rs1_value) := by
  cases hl : c.execute.has_insn
  · simp [APEX_execute_eqs, hl]
  · cases hop : c.execute.opcode <;>
      simp [APEX_execute_eqs, execute_dispatch_cases, hl, hop, redirect] <;>
      split_ifs <;> simp [hop]

/-- The invariant `nop_operand_zero` survives a tick. -/
theorem nop_operand_zero_tick (s : APEX_CPU) (h : nop_operand_zero s) :
    nop_operand_zero (tick s) := by
  obtain ⟨h1, h2, h3⟩ := h
  have hx := execute_keeps_front (APEX_memory (APEX_writeback s).1)
  simp only [APEX_memory_eqs, APEX_writeback_eqs] at hx
  obtain ⟨x1, x2, x3, x4, x5⟩ := hx
  have hE : nop_operand_zero (APEX_execute (APEX_memory (APEX_writeback s).1)) := by
    refine ⟨by rw [x1]; exact h1, ?_, ?_⟩
    · rw [x2, x3]; exact h2
    · rw [x4]; intro hn; rw [x5 hn]; exact h3 hn
  have hs : nop_operand_zero (tick s) ↔ nop_operand_zero
      (APEX_fetch (APEX_decode (APEX_execute (APEX_memory (APEX_writeback s).1)))) := by
    simp only [nop_operand_zero, tick_eqs]
  rw [hs]
  generalize APEX_execute (APEX_memory (APEX_writeback s).1) = E at hE
  obtain ⟨e1, e2, e3⟩ := hE
  have hD : nop_operand_zero (APEX_decode E) := by
    refine ⟨by simp only [APEX_decode_eqs]; exact e1, ?_, ?_⟩
    · cases hl : E.decode.has_insn
      · simpa [APEX_decode_eqs, hl] using e2
      · intro hn
        simp only [APEX_decode_eqs, hl, if_true, decode_operands_eqs] at hn ⊢
        simp [hn, reads_rs1, e2 hn]
    · cases hl : E.decode.has_insn
      · simpa [APEX_decode_eqs, hl] using e3
      · intro hn
        simp only [APEX_decode_eqs, hl, if_true, decode_operands_eqs] at hn ⊢
        simp [hn, reads_rs1, e2 hn]
  generalize APEX_decode E = D at hD
  obtain ⟨d1, d2, d3⟩ := hD
  refine ⟨?_, ?_, ?_⟩
  · by_cases hc : D.fetch.has_insn = true ∧ D.fetch_from_next_cycle = false
    · simp only [APEX_fetch_eqs, hc, and_self, if_true, fetched_latch]
      split_ifs <;> exact d1
    · simp only [APEX_fetch_eqs, hc, if_false]
      exact d1
  · by_cases hc : D.fetch.has_insn = true ∧ D.fetch_from_next_cycle = false
    · simp only [APEX_fetch_eqs, hc, and_self, if_true, fetched_latch]
      intro _; exact d1
    · simp only [APEX_fetch_eqs, hc, if_false]
      exact d2
  · simp only [APEX_fetch_eqs]
    exact d3

/-- Every machine `APEX_cpu_init` returns satisfies `nop_operand_zero`. -/
theorem nop_operand_zero_init (filename fun_ : Option String) (n : Int)
    (loader : Option String → Option (List APEX_Instruction)) (cpu : APEX_CPU)
    (h : APEX_cpu_init filename fun_ n loader = some cpu) : nop_operand_zero cpu := by
  unfold APEX_cpu_init at h
  split at h
  · exact absurd h (by simp)
  · cases fun_ with
    | none => exact absurd h (by simp)
    | some f =>
      cases hl : loader filename with
      | none => rw [hl] at h; exact absurd h (by simp)
      | some code =>
        rw [hl] at h
        simp only [Option.some.injEq] at h
        subst h
        simp [nop_operand_zero, zero_stage]

theorem nop_operand_zero_ticks (s : APEX_CPU) (k : Nat) (h : nop_operand_zero s) :
    nop_operand_zero (ticks k s) := by
  induction k with
  | zero => exact h
  | succ k ih => rw [ticks_succ_outer]; exact nop_operand_zero_tick _ ih

/-- C18: Execute on a live JUMP or NOP sets `pc` to `rs1_value + imm`, suspends
Fetch, enables it and invalidates the Decode latch.  In every state reached
from a machine that `APEX_cpu_init` returned, a live NOP in the Execute latch
has `rs1_value == 0` (Fetch never writes that field and Decode reads no operand
for NOP), so the tick leaves `pc` equal to the NOP's immediate. -/
theorem C18_jump_and_nop (cpu : APEX_CPU) (filename fun_ : Option String) (n : Int)
    (loader : Option String → Option (List APEX_Instruction)) (cpu0 : APEX_CPU) (k : Nat) :
    (cpu.execute.has_insn = true →
      cpu.execute.opcode = OPCODE_JUMP ∨ cpu.execute.opcode = OPCODE_NOP →
        (APEX_execute cpu).pc = add32 cpu.execute.rs1_value cpu.execute.imm
        ∧ (APEX_execute cpu).fetch_from_next_cycle = true
        ∧ (APEX_execute cpu).fetch.has_insn = true
        ∧ (APEX_execute cpu).decode.has_insn = false)
    ∧ (APEX_cpu_init filename fun_ n loader = some cpu0 →
      (ticks k cpu0).execute.has_insn = true →
      (ticks k cpu0).execute.opcode = OPCODE_NOP →
        (ticks k cpu0).execute.rs1_value = 0
        ∧ (tick (ticks k cpu0)).pc = add32 0 (ticks k cpu0).execute.imm
        ∧ (-2147483648 ≤ (ticks k cpu0).execute.imm →
            (ticks k cpu0).execute.imm ≤ 2147483647 →
            (tick (ticks k cpu0)).pc = (ticks k cpu0).execute.imm)) := by
  refine ⟨?_, ?_⟩
  · intro hl hop
    rcases hop with hop | hop <;>
      simp [APEX_execute_eqs, execute_dispatch_cases, hl, hop, redirect]
  · intro hinit hl hop
    have hz := (nop_operand_zero_ticks cpu0 k
      (nop_operand_zero_init filename fun_ n loader cpu0 hinit)).2.2 hop
    have hpc : (tick (ticks k cpu0)).pc = add32 0 (ticks k cpu0).execute.imm := by
      simp [tick_eqs, APEX_fetch_eqs, APEX_decode_eqs, APEX_execute_eqs, execute_dispatch_cases,
        APEX_memory_eqs, APEX_writeback_eqs, hl, hop, hz, redirect]
    refine ⟨hz, hpc, ?_⟩
    intro h1 h2
    rw [hpc, add32_of_range 0 _ (by omega) (by omega)]
    simp

/-- C18 on the JUMP of the looping program, which sets `pc` to 4000, and on the
NOP of `[NOP #4008; MOVC R0,#1; HALT]`, which sets `pc` to 4008. -/
theorem C18_jump_and_nop_witness :
    (APEX_execute (ticks 2 (boot prog_loop false 9))).pc = 4000
    ∧ (ticks 2 (boot prog_nop false 9)).execute.rs1_value = 0
    ∧ (tick (ticks 2 (boot prog_nop false 9))).pc = 4008 := by
  have hA := (C18_jump_and_nop (ticks 2 (boot prog_loop false 9)) (some "prog.asm")
    (some "simulate") 9 (fun _ => some prog_nop) (boot prog_nop false 9) 2).1
    (by decide) (Or.inl (by decide))
  have hB := (C18_jump_and_nop (ticks 2 (boot prog_loop false 9)) (some "prog.asm")
    (some "simulate") 9 (fun _ => some prog_nop) (boot prog_nop false 9) 2).2
    (by rfl) (by decide) (by decide)
  exact ⟨hA.1.trans (by decide), hB.1, (hB.2.2 (by decide) (by decide)).trans (by decide)⟩

/-- C19: let `P` be a straight-line program of `N` entries (no branch, JUMP or
NOP, its only HALT last), run from the initial machine in a non-interactive
mode with a cycle budget of at least `N + 3`.  Iterations and entries are
counted from 0.  At the start of iteration `i` Fetch is enabled, not suspended,
and `pc` is the address of entry `i`, which Fetch reads in that iteration; the
entry is live in the Decode latch at the start of iteration `i + 1`, in the
Execute latch at `i + 2`, in the Memory latch at `i + 3` and in the Writeback
latch at `i + 4`.  At the start of every iteration `t` the four latches hold
the entries `t - 1`, `t - 2`, `t - 3`, `t - 4` and nothing else (`schedule`), so
no entry is in two stages in one tick.  The run stops by retiring HALT with
`clock == N + 3` and `insn_completed == N`.  (Arrays are total maps in the
embedding, so no hypothesis on the memory accesses is needed.) -/
theorem C19_one_stage_per_tick (P : List APEX_Instruction) (simulate : Bool) (n : Int)
    (fuel : Nat) (keys : List Char)
    (hP : straight_line P) (hn : (P.length : Int) + 3 ≤ n) (hfuel : P.length + 3 < fuel) :
    (∀ i, i < P.length →
      (ticks i (boot P simulate n)).fetch.has_insn = true
      ∧ (ticks i (boot P simulate n)).fetch_from_next_cycle = false
      ∧ (ticks i (boot P simulate n)).pc = pc_of i
      ∧ code_at (ticks i (boot P simulate n)).code_memory
          (get_code_memory_index_from_pc (ticks i (boot P simulate n)).pc) = insn_at P i
      ∧ latch_holds P i (ticks (i + 1) (boot P simulate n)).decode
      ∧ latch_holds P i (ticks (i + 2) (boot P simulate n)).execute
      ∧ latch_holds P i (ticks (i + 3) (boot P simulate n)).memory
      ∧ latch_holds P i (ticks (i + 4) (boot P simulate n)).writeback)
    ∧ (∀ t, schedule P t (ticks t (boot P simulate n)))
    ∧ ∃ final,
        APEX_cpu_run fuel keys (boot P simulate n) = some (StopCause.halt_retired, final)
        ∧ final.clock = (P.length : Int) + 3
        ∧ final.insn_completed = (P.length : Int) := by
  have hS := schedule_ticks P simulate n hP
  obtain ⟨hN, hR, hnr, hH⟩ := hP
  refine ⟨?_, hS, ?_⟩
  · intro i hi
    obtain ⟨a1, a2, a3, a4, _⟩ := hS i
    have hpc : (ticks i (boot P simulate n)).pc = pc_of i := by
      rw [a3, Nat.min_eq_left (by omega)]
    refine ⟨a4.2 hi, a2, hpc, ?_, ?_, ?_, ?_, ?_⟩
    · rw [a1, hpc]
      exact code_at_pc_of P i (le_trans (pc_of_mono _ _ (by omega)) hR)
    · have := (hS (i + 1)).2.2.2.2.1.1 ⟨by omega, by omega⟩
      rwa [Nat.add_sub_cancel] at this
    · have := (hS (i + 2)).2.2.2.2.2.1.1 ⟨by omega, by omega⟩
      rwa [Nat.add_sub_cancel] at this
    · have := (hS (i + 3)).2.2.2.2.2.2.1.1 ⟨by omega, by omega⟩
      rwa [Nat.add_sub_cancel] at this
    · have := (hS (i + 4)).2.2.2.2.2.2.2.1.1 ⟨by omega, by omega⟩
      rwa [Nat.add_sub_cancel] at this
  · obtain ⟨b1, b2⟩ := (hS (P.length + 3)).2.2.2.2.2.2.2
    have hlast := b1.1 ⟨by omega, by omega⟩
    refine ⟨_, straight_line_run P simulate n fuel keys ⟨hN, hR, hnr, hH⟩ hn hfuel, ?_, ?_⟩
    · rw [(APEX_writeback_eqs _).2.1, ticks_clock]
      simp only [boot]
      push_cast
      ring
    · rw [(APEX_writeback_eqs _).2.2.2.2.2.2.2.2.2.2.2.2.2.2.2.1, hlast.1, b2,
        Nat.min_eq_left (by omega)]
      simp only [if_true]
      push_cast
      omega

/-- C19 on the first scenario (`N = 4`) with budget 7: the ADD, entry 2, is in
the Execute latch at the start of iteration 4, and the run stops by retiring
HALT with `clock == 7` and four instructions retired. -/
theorem C19_one_stage_per_tick_witness :
    latch_holds (prog_add 5 10 0 1 2) 2 (ticks 4 (boot (prog_add 5 10 0 1 2) false 7)).execute
    ∧ ∃ final, APEX_cpu_run 8 [] (boot (prog_add 5 10 0 1 2) false 7)
        = some (StopCause.halt_retired, final)
      ∧ final.clock = 7 ∧ final.insn_completed = 4 := by
  have h := C19_one_stage_per_tick (prog_add 5 10 0 1 2) false 7 8 []
    ⟨by decide, by decide, by decide, by decide⟩ (by decide) (by decide)
  obtain ⟨final, r1, r2, r3⟩ := h.2.2
  exact ⟨(h.1 2 (by decide)).2.2.2.2.2.1, final, r1, r2, r3⟩

/-- C20: Execute on a live conditional branch.  If the flag test of the opcode
holds (BP: `pos_flag`, BNP: not `pos_flag`, BZ: `zero_flag`, BNZ: not
`zero_flag`) it sets `pc` to the branch's own pc plus `imm`, suspends Fetch,
invalidates the Decode latch and enables Fetch; otherwise it leaves `pc`, the
suspension flag and the Decode and Fetch latches alone.  In both cases the
flags, the register file, the scoreboard and data memory are unchanged and the
branch is handed to the Memory latch. -/
theorem C20_conditional_branch (cpu : APEX_CPU) (hl : cpu.execute.has_insn = true)
    (hb : cpu.execute.opcode = OPCODE_BP ∨ cpu.execute.opcode = OPCODE_BNP
      ∨ cpu.execute.opcode = OPCODE_BZ ∨ cpu.execute.opcode = OPCODE_BNZ) :
    (((cpu.execute.opcode = OPCODE_BP ∧ cpu.pos_flag = true)
        ∨ (cpu.execute.opcode = OPCODE_BNP ∧ cpu.pos_flag = false)
        ∨ (cpu.execute.opcode = OPCODE_BZ ∧ cpu.zero_flag = true)
        ∨ (cpu.execute.opcode = OPCODE_BNZ ∧ cpu.zero_flag = false)) →
      (APEX_execute cpu).pc = add32 cpu.execute.pc cpu.execute.imm
      ∧ (APEX_execute cpu).fetch_from_next_cycle = true
      ∧ (APEX_execute cpu).decode = { cpu.decode with has_insn := false }
      ∧ (APEX_execute cpu).fetch = { cpu.fetch with has_insn := true })
    ∧ (¬ ((cpu.execute.opcode = OPCODE_BP ∧ cpu.pos_flag = true)
        ∨ (cpu.execute.opcode = OPCODE_BNP ∧ cpu.pos_flag = false)
        ∨ (cpu.execute.opcode = OPCODE_BZ ∧ cpu.zero_flag = true)
        ∨ (cpu.execute.opcode = OPCODE_BNZ ∧ cpu.zero_flag = false)) →
      (APEX_execute cpu).pc = cpu.pc
      ∧ (APEX_execute cpu).fetch_from_next_cycle = cpu.fetch_from_next_cycle
      ∧ (APEX_execute cpu).decode = cpu.decode
      ∧ (APEX_execute cpu).fetch = cpu.fetch)
    ∧ (APEX_execute cpu).zero_flag = cpu.zero_flag
    ∧ (APEX_execute cpu).pos_flag = cpu.pos_flag
    ∧ (APEX_execute cpu).regs = cpu.regs
    ∧ (APEX_execute cpu).regsStatus = cpu.regsStatus
    ∧ (APEX_execute cpu).reg_values = cpu.reg_values
    ∧ (APEX_execute cpu).data_memory = cpu.data_memory
    ∧ (APEX_execute cpu).memory = cpu.execute := by
  rcases hb with hop | hop | hop | hop
  all_goals
    refine ⟨?_, ?_, ?_⟩
    · intro h
      simp [hop] at h
      simp [APEX_execute_eqs, execute_dispatch_cases, hl, hop, h, redirect]
    · intro h
      simp [hop] at h
      simp [APEX_execute_eqs, execute_dispatch_cases, hl, hop, h, redirect]
    · cases hp : cpu.pos_flag <;> cases hz : cpu.zero_flag <;>
        simp [APEX_execute_eqs, execute_dispatch_cases, hl, hop, hp, hz, redirect]

/-- C20 on the BZ of the branch scenario, taken because `zero_flag` is set. -/
theorem C20_conditional_branch_witness :
    (ticks 3 (boot (prog_bz 1 2) false 9)).execute.opcode = OPCODE_BZ
    ∧ (ticks 3 (boot (prog_bz 1 2) false 9)).zero_flag = true
    ∧ (APEX_execute (ticks 3 (boot (prog_bz 1 2) false 9))).pc = 4012
    ∧ (APEX_execute (ticks 3 (boot (prog_bz 1 2) false 9))).fetch_from_next_cycle = true
    ∧ (APEX_execute (ticks 3 (boot (prog_bz 1 2) false 9))).zero_flag = true := by
  have h := C20_conditional_branch (ticks 3 (boot (prog_bz 1 2) false 9)) (by decide)
    (Or.inr (Or.inr (Or.inl (by decide))))
  have h1 := h.1 (Or.inr (Or.inr (Or.inl ⟨by decide, by decide⟩)))
  refine ⟨by decide, by decide, ?_, h1.2.1, ?_⟩
  · rw [h1.1]; decide
  · rw [h.2.2.1]; decide

/-- C21: after Execute processes a live ADD, ADDL, SUB, SUBL or MUL, `pos_flag`
is true exactly when the result is not 0, for positive and for negative results
alike, `zero_flag` is true exactly when the result is 0, and so exactly one of
the two flags is set. -/
theorem C21_positive_flag_nonzero (cpu : APEX_CPU) (hl : cpu.execute.has_insn = true)
    (hs : sets_flags cpu.execute.opcode = true) :
    ((APEX_execute cpu).pos_flag = true ↔ (APEX_execute cpu).memory.result_buffer ≠ 0)
    ∧ ((APEX_execute cpu).zero_flag = true ↔ (APEX_execute cpu).memory.result_buffer = 0)
    ∧ ((APEX_execute cpu).memory.result_buffer > 0 → (APEX_execute cpu).pos_flag = true)
    ∧ ((APEX_execute cpu).memory.result_buffer < 0 → (APEX_execute cpu).pos_flag = true)
    ∧ (APEX_execute cpu).pos_flag = !(APEX_execute cpu).zero_flag := by
  cases hop : cpu.execute.opcode <;> simp [hop, sets_flags] at hs <;>
    simp [APEX_execute_eqs, execute_dispatch_cases, hl, hop] <;>
    refine ⟨fun h => ?_, fun h => ?_⟩ <;> omega

/-- C21 on `ADD R1,R0,R0` with `R0 == -1`: the result is -2, `pos_flag` is set
and `zero_flag` is not. -/
theorem C21_positive_flag_nonzero_witness :
    (APEX_execute (ticks 3 (boot prog_neg false 20))).memory.result_buffer = -2
    ∧ (APEX_execute (ticks 3 (boot prog_neg false 20))).pos_flag = true
    ∧ (APEX_execute (ticks 3 (boot prog_neg false 20))).zero_flag = false := by
  have h := C21_positive_flag_nonzero (ticks 3 (boot prog_neg false 20)) (by decide) (by decide)
  have hp := h.2.2.2.1 (by decide)
  refine ⟨by decide, hp, ?_⟩
  have h5 := h.2.2.2.2
  rw [hp] at h5
  cases hz : (APEX_execute (ticks 3 (boot prog_neg false 20))).zero_flag
  · rfl
  · rw [hz] at h5
    exact absurd h5 (by decide)

/-- C22: Execute on a live CMP sets `pos_flag` exactly when `rs1_value >
rs2_value` and `zero_flag` exactly when `rs1_value == rs2_value` (both are false
when `rs1_value < rs2_value`), changes no register, no forwarded value, no
pending bit and no data-memory word, and hands the latch unchanged to the
Memory latch.  The Memory stage and Writeback on a live CMP change no register,
no pending bit and no data-memory word either; the Memory stage hands the latch
on unchanged and Writeback retires it without the stop signal. -/
theorem C22_cmp_sets_flags_only (cpu : APEX_CPU) :
    (cpu.execute.has_insn = true → cpu.execute.opcode = OPCODE_CMP →
      ((APEX_execute cpu).pos_flag = true ↔ cpu.execute.rs1_value > cpu.execute.rs2_value)
      ∧ ((APEX_execute cpu).zero_flag = true ↔ cpu.execute.rs1_value = cpu.execute.rs2_value)
      ∧ (cpu.execute.rs1_value < cpu.execute.rs2_value →
          (APEX_execute cpu).pos_flag = false ∧ (APEX_execute cpu).zero_flag = false)
      ∧ (APEX_execute cpu).regs = cpu.regs
      ∧ (APEX_execute cpu).regsStatus = cpu.regsStatus
      ∧ (APEX_execute cpu).reg_values = cpu.reg_values
      ∧ (APEX_execute cpu).data_memory = cpu.data_memory
      ∧ (APEX_execute cpu).memory = cpu.execute)
    ∧ (cpu.memory.has_insn = true → cpu.memory.opcode = OPCODE_CMP →
      (APEX_memory cpu).regs = cpu.regs
      ∧ (APEX_memory cpu).regsStatus = cpu.regsStatus
      ∧ (APEX_memory cpu).reg_values = cpu.reg_values
      ∧ (APEX_memory cpu).data_memory = cpu.data_memory
      ∧ (APEX_memory cpu).zero_flag = cpu.zero_flag
      ∧ (APEX_memory cpu).pos_flag = cpu.pos_flag
      ∧ (APEX_memory cpu).writeback = cpu.memory)
    ∧ (cpu.writeback.has_insn = true → cpu.writeback.opcode = OPCODE_CMP →
      (APEX_writeback cpu).1.regs = cpu.regs
      ∧ (APEX_writeback cpu).1.regsStatus = cpu.regsStatus
      ∧ (APEX_writeback cpu).1.reg_values = cpu.reg_values
      ∧ (APEX_writeback cpu).1.data_memory = cpu.data_memory
      ∧ (APEX_writeback cpu).1.zero_flag = cpu.zero_flag
      ∧ (APEX_writeback cpu).1.pos_flag = cpu.pos_flag
      ∧ (APEX_writeback cpu).1.insn_completed = cpu.insn_completed + 1
      ∧ (APEX_writeback cpu).2 = false) := by
  refine ⟨?_, ?_, ?_⟩
  · intro hl hop
    simp [APEX_execute_eqs, execute_dispatch_cases, hl, hop]
    intro h
    constructor <;> omega
  · intro hl hop
    simp [APEX_memory_eqs, memory_dispatch_eqs, hl, hop, is_load, is_store]
  · intro hl hop
    simp [APEX_writeback_eqs, writeback_dispatch_eqs, hl, hop, commits_rd]

/-- C22 on the CMP of `[MOVC R0,#3; MOVC R1,#5; CMP R0,R1; HALT]`, which compares
3 with 5 and clears both flags. -/
theorem C22_cmp_sets_flags_only_witness :
    (ticks 4 (boot prog_cmp false 8)).execute.rs1_value = 3
    ∧ (ticks 4 (boot prog_cmp false 8)).execute.rs2_value = 5
    ∧ (APEX_execute (ticks 4 (boot prog_cmp false 8))).pos_flag = false
    ∧ (APEX_execute (ticks 4 (boot prog_cmp false 8))).zero_flag = false
    ∧ (APEX_execute (ticks 4 (boot prog_cmp false 8))).regs
        = (ticks 4 (boot prog_cmp false 8)).regs := by
  have h := (C22_cmp_sets_flags_only (ticks 4 (boot prog_cmp false 8))).1 (by decide) (by decide)
  have h3 := h.2.2.1 (by decide)
  exact ⟨by decide, by decide, h3.1, h3.2, h.2.2.2.1⟩

/-- C23: Fetch, Decode, Execute and the Memory stage leave the register file
`regs` unchanged, and so does Writeback on a latch that is not live.  Writeback
on a live ADD, SUB, MUL, AND, OR, XOR, ADDL, SUBL, MOVC or LOAD sets `regs[rd]`
to the latch's `result_buffer`, sets `regsStatus[rd]` to `FALSE` and leaves
every other register and pending bit unchanged.  Writeback on a live STORE,
HALT, CMP, BZ, BNZ, BP, BNP, NOP or JUMP changes no register and no pending
bit. -/
theorem C23_regs_changed_only_by_writeback (cpu : APEX_CPU) :
    (APEX_fetch cpu).regs = cpu.regs
    ∧ (APEX_decode cpu).regs = cpu.regs
    ∧ (APEX_execute cpu).regs = cpu.regs
    ∧ (APEX_memory cpu).regs = cpu.regs
    ∧ (cpu.writeback.has_insn = false →
        (APEX_writeback cpu).1.regs = cpu.regs
        ∧ (APEX_writeback cpu).1.regsStatus = cpu.regsStatus)
    ∧ (cpu.writeback.has_insn = true → writes_rd_only cpu.writeback.opcode = true →
        (APEX_writeback cpu).1.regs cpu.writeback.rd = cpu.writeback.result_buffer
        ∧ (APEX_writeback cpu).1.regsStatus cpu.writeback.rd = FALSE
        ∧ ∀ r, r ≠ cpu.writeback.rd →
            (APEX_writeback cpu).1.regs r = cpu.regs r
            ∧ (APEX_writeback cpu).1.regsStatus r = cpu.regsStatus r)
    ∧ (cpu.writeback.has_insn = true → writeback_no_work cpu.writeback.opcode = true →
        (APEX_writeback cpu).1.regs = cpu.regs
        ∧ (APEX_writeback cpu).1.regsStatus = cpu.regsStatus) := by
  refine ⟨(APEX_fetch_eqs cpu).2.2.1, (APEX_decode_eqs cpu).2.2.2.1,
    (APEX_execute_eqs cpu).2.2.1, (APEX_memory_eqs cpu).2.2.2.1, ?_, ?_, ?_⟩
  · intro hl
    simp [APEX_writeback_eqs, hl]
  · intro hl hw
    cases hop : cpu.writeback.opcode <;> simp [hop, writes_rd_only] at hw <;>
      simp [APEX_writeback_eqs, writeback_dispatch_eqs, hl, hop, commits_rd, upd_apply] <;>
      intro r hr <;> simp [hr]
  · intro hl hw
    cases hop : cpu.writeback.opcode <;> simp [hop, writeback_no_work] at hw <;>
      simp [APEX_writeback_eqs, writeback_dispatch_eqs, hl, hop, commits_rd]

/-- C23 on the first MOVC of the first scenario in the Writeback latch: it
commits 5 to `R0`, clears the pending bit of `R0` and leaves `R1` alone. -/
theorem C23_regs_changed_only_by_writeback_witness :
    (ticks 4 (boot (prog_add 5 10 0 1 2) false 8)).regs 0 = 0
    ∧ (APEX_writeback (ticks 4 (boot (prog_add 5 10 0 1 2) false 8))).1.regs 0 = 5
    ∧ (APEX_writeback (ticks 4 (boot (prog_add 5 10 0 1 2) false 8))).1.regsStatus 0 = FALSE
    ∧ (APEX_writeback (ticks 4 (boot (prog_add 5 10 0 1 2) false 8))).1.regs 1
        = (ticks 4 (boot (prog_add 5 10 0 1 2) false 8)).regs 1 := by
  have h := (C23_regs_changed_only_by_writeback
    (ticks 4 (boot (prog_add 5 10 0 1 2) false 8))).2.2.2.2.2.1 (by decide) (by decide)
  exact ⟨by decide, h.1.trans (by decide), h.2.1, (h.2.2 1 (by decide)).1⟩

/-- C24: the Memory stage on a live latch.  For LOAD and LDI the Writeback
latch receives the latch with `result_buffer` set to
`data_memory[memory_address]`, and data memory is unchanged.  For STORE and STI
`data_memory[memory_address]` becomes `rs2_value`, no other word changes and
the Writeback latch receives the latch unchanged.  For every other opcode data
memory is unchanged and the Writeback latch receives the latch unchanged.  In
all cases the Writeback latch is live, the Memory latch is the latch handed on
with `has_insn` false, and nothing else in the machine changes.  On a latch
that is not live the Memory stage changes nothing.  Fetch, Decode, Execute and
Writeback leave data memory unchanged.  (Data memory is a total map in the
embedding, so the statement holds for every `memory_address`.) -/
theorem C24_memory_stage (cpu : APEX_CPU) :
    (cpu.memory.has_insn = true →
      (is_load cpu.memory.opcode = true →
        (APEX_memory cpu).writeback
            = { cpu.memory with result_buffer := cpu.data_memory cpu.memory.memory_address }
        ∧ (APEX_memory cpu).data_memory = cpu.data_memory)
      ∧ (is_store cpu.memory.opcode = true →
        (APEX_memory cpu).data_memory cpu.memory.memory_address = cpu.memory.rs2_value
        ∧ (∀ a, a ≠ cpu.memory.memory_address →
            (APEX_memory cpu).data_memory a = cpu.data_memory a)
        ∧ (APEX_memory cpu).writeback = cpu.memory)
      ∧ (is_load cpu.memory.opcode = false → is_store cpu.memory.opcode = false →
        (APEX_memory cpu).data_memory = cpu.data_memory
        ∧ (APEX_memory cpu).writeback = cpu.memory)
      ∧ (APEX_memory cpu).writeback.has_insn = true
      ∧ (APEX_memory cpu).memory = { (APEX_memory cpu).writeback with has_insn := false }
      ∧ (APEX_memory cpu).regs = cpu.regs
      ∧ (APEX_memory cpu).regsStatus = cpu.regsStatus
      ∧ (APEX_memory cpu).reg_values = cpu.reg_values
      ∧ (APEX_memory cpu).pc = cpu.pc
      ∧ (APEX_memory cpu).zero_flag = cpu.zero_flag
      ∧ (APEX_memory cpu).pos_flag = cpu.pos_flag
      ∧ (APEX_memory cpu).fetch = cpu.fetch
      ∧ (APEX_memory cpu).decode = cpu.decode
      ∧ (APEX_memory cpu).execute = cpu.execute)
    ∧ (cpu.memory.has_insn = false → APEX_memory cpu = cpu)
    ∧ (APEX_fetch cpu).data_memory = cpu.data_memory
    ∧ (APEX_decode cpu).data_memory = cpu.data_memory
    ∧ (APEX_execute cpu).data_memory = cpu.data_memory
    ∧ (APEX_writeback cpu).1.data_memory = cpu.data_memory := by
  refine ⟨?_, ?_, (APEX_fetch_eqs cpu).2.2.2.2.2.2.1, (APEX_decode_eqs cpu).2.2.2.2.2.2.2.1,
    (APEX_execute_eqs cpu).2.2.2.2.1, (APEX_writeback_eqs cpu).2.2.2.2.1⟩
  · intro hl
    refine ⟨?_, ?_, ?_, ?_⟩
    · intro h
      have h2 : is_store cpu.memory.opcode = false := by
        cases hop : cpu.memory.opcode <;> simp [hop, is_load] at h <;> rfl
      simp [APEX_memory_eqs, memory_dispatch_eqs, hl, h, h2]
    · intro h
      have h2 : is_load cpu.memory.opcode = false := by
        cases hop : cpu.memory.opcode <;> simp [hop, is_store] at h <;> rfl
      simp [APEX_memory_eqs, memory_dispatch_eqs, hl, h, h2, upd_apply]
      intro a ha
      simp [ha]
    · intro h h2
      simp [APEX_memory_eqs, memory_dispatch_eqs, hl, h, h2]
    · cases h : is_load cpu.memory.opcode <;>
        simp [APEX_memory_eqs, memory_dispatch_eqs, hl, h]
  · intro hl
    unfold APEX_memory
    rw [if_neg (by rw [hl]; exact Bool.false_ne_true)]

/-- C24 on the STORE of `[MOVC R0,#7; STORE R0,R1,#0; LDI R2,R1,#0; HALT]` in the
Memory latch: the word at address 0 becomes 7 and the word at address 1 stays
0. -/
theorem C24_memory_stage_witness :
    (ticks 4 (boot prog_ldi false 20)).memory.opcode = OPCODE_STORE
    ∧ (ticks 4 (boot prog_ldi false 20)).data_memory 0 = 0
    ∧ (APEX_memory (ticks 4 (boot prog_ldi false 20))).data_memory 0 = 7
    ∧ (APEX_memory (ticks 4 (boot prog_ldi false 20))).data_memory 1 = 0
    ∧ (APEX_memory (ticks 4 (boot prog_ldi false 20))).writeback.has_insn = true := by
  have h := (C24_memory_stage (ticks 4 (boot prog_ldi false 20))).1 (by decide)
  have hs := h.2.1 (by decide)
  refine ⟨by decide, by decide, ?_, ?_, h.2.2.2.1⟩
  · have h0 : (ticks 4 (boot prog_ldi false 20)).memory.memory_address = 0 := by decide
    have h7 : (ticks 4 (boot prog_ldi false 20)).memory.rs2_value = 7 := by decide
    rw [← h7, ← hs.1, h0]
  · have h0 : (1 : Int) ≠ (ticks 4 (boot prog_ldi false 20)).memory.memory_address := by decide
    rw [hs.2.1 1 h0]
    decide

/-- The reduction `wrap32 x` is the representative of `x` modulo 2^32 in the
range of a C `int`. -/
theorem wrap32_spec (x : Int) :
    -2147483648 ≤ wrap32 x ∧ wrap32 x ≤ 2147483647 ∧ (wrap32 x - x) % 4294967296 = 0 := by
  unfold wrap32
  omega

/-- A natural number below 2^31 as an integer, and its complement, fit a C
`int`. -/
theorem int_fits_of_lt (k : Nat) (h : k < 2 ^ 31) :
    (-2147483648 ≤ (k : Int) ∧ (k : Int) ≤ 2147483647)
    ∧ (-2147483648 ≤ Int.negSucc k ∧ Int.negSucc k ≤ 2147483647) := by
  rw [Int.negSucc_eq]
  have : 2 ^ 31 = 2147483648 := by norm_num
  omega

/-- The bitwise operations on two C `int` values need no reduction: their
result fits a C `int`. -/
theorem bitwise_fits_int (a b : Int) (ha1 : -2147483648 ≤ a) (ha2 : a ≤ 2147483647)
    (hb1 : -2147483648 ≤ b) (hb2 : b ≤ 2147483647) :
    and32 a b = Int.land a b ∧ or32 a b = Int.lor a b ∧ xor32 a b = Int.xor a b := by
  have key : ∀ (f : Bool → Bool → Bool) (x y : Nat), x < 2 ^ 31 → y < 2 ^ 31 →
      Nat.bitwise f x y < 2 ^ 31 := fun f x y hx hy => Nat.bitwise_lt_two_pow hx hy
  have h31 : 2 ^ 31 = 2147483648 := by norm_num
  unfold and32 or32 xor32
  rcases a with m | m <;> rcases b with n | n
  all_goals
    have hm : m < 2 ^ 31 := by
      first
        | (simp only [Int.ofNat_eq_coe] at ha2; omega)
        | (rw [Int.negSucc_eq] at ha1; omega)
    have hn : n < 2 ^ 31 := by
      first
        | (simp only [Int.ofNat_eq_coe] at hb2; omega)
        | (rw [Int.negSucc_eq] at hb1; omega)
    refine ⟨?_, ?_, ?_⟩
  · exact wrap32_of_range _ (int_fits_of_lt _ (key and m n hm hn)).1.1
      (int_fits_of_lt _ (key and m n hm hn)).1.2
  · exact wrap32_of_range _ (int_fits_of_lt _ (key or m n hm hn)).1.1
      (int_fits_of_lt _ (key or m n hm hn)).1.2
  · exact wrap32_of_range _ (int_fits_of_lt _ (key bne m n hm hn)).1.1
      (int_fits_of_lt _ (key bne m n hm hn)).1.2
  · exact wrap32_of_range _ (int_fits_of_lt _ (key (fun a b => a && !b) m n hm hn)).1.1
      (int_fits_of_lt _ (key (fun a b => a && !b) m n hm hn)).1.2
  · exact wrap32_of_range _ (int_fits_of_lt _ (key (fun a b => a && !b) n m hn hm)).2.1
      (int_fits_of_lt _ (key (fun a b => a && !b) n m hn hm)).2.2
  · exact wrap32_of_range _ (int_fits_of_lt _ (key bne m n hm hn)).2.1
      (int_fits_of_lt _ (key bne m n hm hn)).2.2
  · exact wrap32_of_range _ (int_fits_of_lt _ (key (fun a b => a && !b) n m hn hm)).1.1
      (int_fits_of_lt _ (key (fun a b => a && !b) n m hn hm)).1.2
  · exact wrap32_of_range _ (int_fits_of_lt _ (key (fun a b => a && !b) m n hm hn)).2.1
      (int_fits_of_lt _ (key (fun a b => a && !b) m n hm hn)).2.2
  · exact wrap32_of_range _ (int_fits_of_lt _ (key bne m n hm hn)).2.1
      (int_fits_of_lt _ (key bne m n hm hn)).2.2
  · exact wrap32_of_range _ (int_fits_of_lt _ (key or m n hm hn)).2.1
      (int_fits_of_lt _ (key or m n hm hn)).2.2
  · exact wrap32_of_range _ (int_fits_of_lt _ (key and m n hm hn)).2.1
      (int_fits_of_lt _ (key and m n hm hn)).2.2
  · exact wrap32_of_range _ (int_fits_of_lt _ (key bne m n hm hn)).1.1
      (int_fits_of_lt _ (key bne m n hm hn)).1.2

/-- C25: Execute on a live arithmetic or bitwise instruction hands the latch to
the Memory latch with `result_buffer` set to the C result: `rs1_value +
rs2_value` (ADD), `rs1_value - rs2_value` (SUB), `rs1_value * rs2_value` (MUL),
`rs1_value & rs2_value` (AND), `rs1_value | rs2_value` (OR), `rs1_value ^
rs2_value` (XOR), `rs1_value + imm` (ADDL) and `rs1_value - imm` (SUBL).  The
result is the value of the operation reduced to 32 bits in two's complement: it
fits a C `int`, differs from the exact value by a multiple of 2^32 and is the
exact value whenever that fits; the bitwise results of operands that fit are
always exact. -/
theorem C25_alu_results (cpu : APEX_CPU) (hl : cpu.execute.has_insn = true)
    (ha : is_arith cpu.execute.opcode = true) :
    (cpu.execute.opcode = OPCODE_ADD → (APEX_execute cpu).memory.result_buffer
        = add32 cpu.execute.rs1_value cpu.execute.rs2_value)
    ∧ (cpu.execute.opcode = OPCODE_SUB → (APEX_execute cpu).memory.result_buffer
        = sub32 cpu.execute.rs1_value cpu.execute.rs2_value)
    ∧ (cpu.execute.opcode = OPCODE_MUL → (APEX_execute cpu).memory.result_buffer
        = mul32 cpu.execute.rs1_value cpu.execute.rs2_value)
    ∧ (cpu.execute.opcode = OPCODE_AND → (APEX_execute cpu).memory.result_buffer
        = and32 cpu.execute.rs1_value cpu.execute.rs2_value)
    ∧ (cpu.execute.opcode = OPCODE_OR → (APEX_execute cpu).memory.result_buffer
        = or32 cpu.execute.rs1_value cpu.execute.rs2_value)
    ∧ (cpu.execute.opcode = OPCODE_XOR → (APEX_execute cpu).memory.result_buffer
        = xor32 cpu.execute.rs1_value cpu.execute.rs2_value)
    ∧ (cpu.execute.opcode = OPCODE_ADDL → (APEX_execute cpu).memory.result_buffer
        = add32 cpu.execute.rs1_value cpu.execute.imm)
    ∧ (cpu.execute.opcode = OPCODE_SUBL → (APEX_execute cpu).memory.result_buffer
        = sub32 cpu.execute.rs1_value cpu.execute.imm)
    ∧ (APEX_execute cpu).memory
        = { cpu.execute with result_buffer := wrap32 (alu_exact cpu.execute) }
    ∧ -2147483648 ≤ (APEX_execute cpu).memory.result_buffer
    ∧ (APEX_execute cpu).memory.result_buffer ≤ 2147483647
    ∧ ((APEX_execute cpu).memory.result_buffer - alu_exact cpu.execute) % 4294967296 = 0
    ∧ (-2147483648 ≤ alu_exact cpu.execute → alu_exact cpu.execute ≤ 2147483647 →
        (APEX_execute cpu).memory.result_buffer = alu_exact cpu.execute)
    ∧ (is_bitwise cpu.execute.opcode = true →
        -2147483648 ≤ cpu.execute.rs1_value → cpu.execute.rs1_value ≤ 2147483647 →
        -2147483648 ≤ cpu.execute.rs2_value → cpu.execute.rs2_value ≤ 2147483647 →
        (APEX_execute cpu).memory.result_buffer = alu_exact cpu.execute) := by
  have hm : (APEX_execute cpu).memory
      = { cpu.execute with result_buffer := wrap32 (alu_exact cpu.execute) } := by
    cases hop : cpu.execute.opcode <;> simp [hop, is_arith] at ha <;>
      simp [APEX_execute_eqs, execute_dispatch_cases, hl, hop, alu_exact, add32, sub32, mul32,
        and32, or32, xor32]
  have hr : (APEX_execute cpu).memory.result_buffer = wrap32 (alu_exact cpu.execute) := by
    rw [hm]
  have hs := wrap32_spec (alu_exact cpu.execute)
  refine ⟨?_, ?_, ?_, ?_, ?_, ?_, ?_, ?_, hm, ?_, ?_, ?_, ?_, ?_⟩
  · intro hop; rw [hr]; simp [alu_exact, hop, add32]
  · intro hop; rw [hr]; simp [alu_exact, hop, sub32]
  · intro hop; rw [hr]; simp [alu_exact, hop, mul32]
  · intro hop; rw [hr]; simp [alu_exact, hop, and32]
  · intro hop; rw [hr]; simp [alu_exact, hop, or32]
  · intro hop; rw [hr]; simp [alu_exact, hop, xor32]
  · intro hop; rw [hr]; simp [alu_exact, hop, add32]
  · intro hop; rw [hr]; simp [alu_exact, hop, sub32]
  · rw [hr]; exact hs.1
  · rw [hr]; exact hs.2.1
  · rw [hr]; exact hs.2.2
  · intro h1 h2
    rw [hr]
    exact wrap32_of_range _ h1 h2
  · intro hb a1 a2 b1 b2
    rw [hr]
    have hf := bitwise_fits_int _ _ a1 a2 b1 b2
    cases hop : cpu.execute.opcode <;> simp [hop, is_bitwise] at hb
    · simpa [alu_exact, hop, and32] using hf.1
    · simpa [alu_exact, hop, or32] using hf.2.1
    · simpa [alu_exact, hop, xor32] using hf.2.2

/-- C25 on the ADD of the first scenario, which adds 5 and 10. -/
theorem C25_alu_results_witness :
    (ticks 4 (boot (prog_add 5 10 0 1 2) false 8)).execute.rs1_value = 5
    ∧ (ticks 4 (boot (prog_add 5 10 0 1 2) false 8)).execute.rs2_value = 10
    ∧ (APEX_execute (ticks 4 (boot (prog_add 5 10 0 1 2) false 8))).memory.result_buffer = 15
    ∧ (APEX_execute (ticks 4 (boot (prog_add 5 10 0 1 2) false 8))).memory.has_insn = true := by
  have h := C25_alu_results (ticks 4 (boot (prog_add 5 10 0 1 2) false 8)) (by decide)
    (by decide)
  refine ⟨by decide, by decide, (h.1 (by decide)).trans (by decide), ?_⟩
  rw [h.2.2.2.2.2.2.2.2.1]
  decide

/-! ## Runs that stop on the cycle budget -/

/-- A Decode latch that is live after Execute was not invalidated: Execute did
not redirect. -/
theorem execute_decode_live (c : APEX_CPU) (h : (APEX_execute c).decode.has_insn = true) :
    execute_redirects c = false := by
  cases hr : execute_redirects c
  · rfl
  · exfalso
    unfold execute_redirects branch_condition at hr
    cases hl : c.execute.has_insn
    · simp [hl] at hr
    · cases hop : c.execute.opcode <;> simp [hl, hop] at hr <;>
        simp [APEX_execute_eqs, execute_dispatch_cases, hl, hop, hr, redirect] at h

/-- Each of Decode, Execute and the Memory stage leaves its own latch empty. -/
theorem own_latch_empty (c : APEX_CPU) :
    (APEX_decode c).decode.has_insn = false
    ∧ (APEX_execute c).execute.has_insn = false
    ∧ (APEX_memory c).memory.has_insn = false := by
  refine ⟨?_, ?_, ?_⟩
  · cases hl : c.decode.has_insn <;> simp [APEX_decode_eqs, hl]
  · cases hl : c.execute.has_insn
    · simp [APEX_execute_eqs, hl]
    · exact (execute_hands_on c hl).2.2
  · cases hl : c.memory.has_insn
    · simp [APEX_memory_eqs, hl]
    · exact (memory_hands_insn c hl).2.2

/-- Where the live instructions of the latches after a tick come from: the
Writeback, Memory and Execute latches took them over from the latch before,
the Execute latch only when Execute did not redirect, and the Decode latch from
the Fetch of that tick, which then left `pc` four bytes behind the fetched
address and is enabled unless it fetched a HALT. -/
theorem tick_provenance (s : APEX_CPU) :
    ((tick s).writeback.has_insn = true →
      s.memory.has_insn = true ∧ (tick s).writeback.pc = s.memory.pc
      ∧ (tick s).writeback.opcode = s.memory.opcode)
    ∧ ((tick s).memory.has_insn = true →
      s.execute.has_insn = true ∧ (tick s).memory.pc = s.execute.pc
      ∧ (tick s).memory.opcode = s.execute.opcode)
    ∧ ((tick s).execute.has_insn = true →
      s.decode.has_insn = true ∧ (tick s).execute.pc = s.decode.pc
      ∧ (tick s).execute.opcode = s.decode.opcode
      ∧ execute_redirects s = false)
    ∧ ((tick s).decode.has_insn = true →
      (APEX_decode (APEX_execute (APEX_memory (APEX_writeback s).1))).fetch.has_insn = true
      ∧ (APEX_decode (APEX_execute (APEX_memory
          (APEX_writeback s).1))).fetch_from_next_cycle = false
      ∧ (tick s).decode.pc = (APEX_decode (APEX_execute (APEX_memory (APEX_writeback s).1))).pc
      ∧ (tick s).pc = add32 (tick s).decode.pc 4
      ∧ (tick s).fetch_from_next_cycle = false
      ∧ ((tick s).decode.opcode ≠ OPCODE_HALT → (tick s).fetch.has_insn = true))
    ∧ (execute_redirects s = false →
      (APEX_decode (APEX_execute (APEX_memory (APEX_writeback s).1))).pc = s.pc
      ∧ (APEX_decode (APEX_execute (APEX_memory (APEX_writeback s).1))).fetch = s.fetch
      ∧ (APEX_decode (APEX_execute (APEX_memory (APEX_writeback s).1))).fetch_from_next_cycle
          = s.fetch_from_next_cycle) := by
  obtain ⟨t1, t2, t3, t4, t5, t6, t7, t8, t9, t10⟩ := tick_data s
  have hMr : execute_redirects (APEX_memory (APEX_writeback s).1) = execute_redirects s := by
    simp only [execute_redirects, branch_condition, APEX_memory_eqs, APEX_writeback_eqs]
  have hMd : (APEX_memory (APEX_writeback s).1).decode = s.decode := by
    simp only [APEX_memory_eqs, APEX_writeback_eqs]
  refine ⟨?_, ?_, ?_, ?_, ?_⟩
  · intro h
    rw [t5] at h ⊢
    cases hl : s.memory.has_insn
    · exfalso
      simp only [APEX_memory_eqs, APEX_writeback_eqs, hl, Bool.false_eq_true, if_false] at h
    · have hl2 : (APEX_writeback s).1.memory.has_insn = true := by
        simpa only [APEX_writeback_eqs] using hl
      have := (memory_hands_insn _ hl2).2.1
      simp only [APEX_writeback_eqs] at this
      exact ⟨rfl, this.1, this.2.1⟩
  · intro h
    rw [t4] at h ⊢
    cases hl : s.execute.has_insn
    · exfalso
      simp only [APEX_execute_eqs, t7, hl, Bool.false_eq_true, if_false] at h
      rw [(own_latch_empty (APEX_writeback s).1).2.2] at h
      exact absurd h (by simp)
    · have := (execute_hands_on _ (t7 ▸ hl)).2.1
      rw [t7] at this
      exact ⟨rfl, this.1, this.2.1⟩
  · intro h
    rw [t6] at h ⊢
    cases hl : (APEX_execute (APEX_memory (APEX_writeback s).1)).decode.has_insn
    · exfalso
      simp only [APEX_decode_eqs, hl, Bool.false_eq_true, if_false] at h
      rw [(own_latch_empty (APEX_memory (APEX_writeback s).1)).2.1] at h
      exact absurd h (by simp)
    · have hr := execute_decode_live _ hl
      have hd := (execute_no_redirect _ hr).2.2.2
      rw [hMd] at hd
      rw [hd] at hl
      have := (decode_hands_on _ (hd ▸ hl)).2.1
      rw [hd] at this
      exact ⟨hl, this.1, this.2.1, hMr ▸ hr⟩
  · intro h
    have hdd : (APEX_decode (APEX_execute (APEX_memory (APEX_writeback s).1))).decode.has_insn
        = false := (own_latch_empty _).1
    by_cases hc : (APEX_decode (APEX_execute (APEX_memory (APEX_writeback s).1))).fetch.has_insn
          = true
        ∧ (APEX_decode (APEX_execute (APEX_memory
            (APEX_writeback s).1))).fetch_from_next_cycle = false
    · refine ⟨hc.1, hc.2, ?_, ?_, ?_, ?_⟩
      · simp only [tick_eqs, APEX_fetch_eqs, hc, and_self, if_true, fetched_latch]
      · simp only [tick_eqs, APEX_fetch_eqs, hc, and_self, if_true, fetched_latch]
      · simp only [tick_eqs, APEX_fetch_eqs, hc.1, if_true]
      · intro hne
        simp only [tick_eqs, APEX_fetch_eqs, hc, and_self, if_true, fetched_latch] at hne ⊢
        rw [if_neg hne]
    · exfalso
      simp only [tick_eqs, APEX_fetch_eqs, hc, if_false] at h
      rw [hdd] at h
      exact absurd h (by simp)
  · intro hr
    have h1 := execute_no_redirect _ (hMr.trans hr)
    simp only [APEX_memory_eqs, APEX_writeback_eqs] at h1
    simp only [APEX_decode_eqs]
    exact ⟨h1.1, h1.2.2.1, h1.2.1⟩
theorem tdiv_four (x : Int) :
    (0 ≤ x → Int.tdiv x 4 = x / 4) ∧ (x < 0 → Int.tdiv x 4 = -((-x) / 4)) := by
  refine ⟨fun h => Int.tdiv_eq_ediv h (by decide), fun h => ?_⟩
  have h1 : x = -(-x) := by omega
  rw [h1, Int.neg_tdiv, Int.tdiv_eq_ediv (by omega) (by decide)]
  simp

/-- The entry after the last one is outside the table. -/
theorem next_index_outside (code : List APEX_Instruction) (p : Int) (hN : 2 ≤ code.length)
    (h : get_code_memory_index_from_pc p = (code.length : Int) - 1) :
    ¬ in_table code (add32 p 4) := by
  unfold in_table
  unfold get_code_memory_index_from_pc at *
  have hq := wrap32_spec (p - 4000)
  have hq2 := wrap32_spec (wrap32 (p + 4) - 4000)
  have hq3 := wrap32_spec (p + 4)
  unfold add32 sub32 at *
  generalize wrap32 (p - 4000) = q at *
  generalize wrap32 (wrap32 (p + 4) - 4000) = q2 at *
  generalize wrap32 (p + 4) = p2 at *
  have hqpos : 0 ≤ q := by
    by_contra hneg
    rw [(tdiv_four q).2 (by omega)] at h
    omega
  rw [(tdiv_four q).1 hqpos] at h
  by_cases h2 : 0 ≤ q2
  · rw [(tdiv_four q2).1 h2]
    omega
  · rw [(tdiv_four q2).2 (by omega)]
    omega

/-- What `fetch_in_range` says when the Fetch of iteration `j` does fetch. -/
theorem fetch_in_range_spec (cpu : APEX_CPU) (j : Nat) (h : fetch_in_range cpu j = true)
    (hf : (APEX_decode (APEX_execute (APEX_memory
        (APEX_writeback (ticks j cpu)).1))).fetch.has_insn = true)
    (hn : (APEX_decode (APEX_execute (APEX_memory
        (APEX_writeback (ticks j cpu)).1))).fetch_from_next_cycle = false) :
    in_table cpu.code_memory
      (APEX_decode (APEX_execute (APEX_memory (APEX_writeback (ticks j cpu)).1))).pc := by
  have hc : (APEX_decode (APEX_execute (APEX_memory
      (APEX_writeback (ticks j cpu)).1))).code_memory = cpu.code_memory := by
    simp only [APEX_decode_eqs, APEX_execute_eqs, APEX_memory_eqs, APEX_writeback_eqs,
      ticks_code_memory]
  unfold fetch_in_range at h
  simp only [hf, hn, hc] at h
  simpa [in_table] using h

/-- From the initial machine an instruction needs one iteration to reach the
Decode latch, two to reach the Execute latch, three to reach the Memory latch
and four to reach the Writeback latch. -/
theorem boot_depth (code : List APEX_Instruction) (simulate : Bool) (n : Int) (t : Nat) :
    ((ticks t (boot code simulate n)).decode.has_insn = true → 1 ≤ t)
    ∧ ((ticks t (boot code simulate n)).execute.has_insn = true → 2 ≤ t)
    ∧ ((ticks t (boot code simulate n)).memory.has_insn = true → 3 ≤ t)
    ∧ ((ticks t (boot code simulate n)).writeback.has_insn = true → 4 ≤ t) := by
  induction t with
  | zero =>
    refine ⟨?_, ?_, ?_, ?_⟩ <;> intro h <;> simp [ticks_zero, boot, zero_stage] at h
  | succ t ih =>
    rw [ticks_succ_outer]
    obtain ⟨p1, p2, p3, _, _⟩ := tick_provenance (ticks t (boot code simulate n))
    refine ⟨fun _ => by omega, fun h => ?_, fun h => ?_, fun h => ?_⟩
    · have := ih.1 (p3 h).1
      omega
    · have := ih.2.1 (p2 h).1
      omega
    · have := ih.2.2.1 (p1 h).1
      omega

/-- The instructions in flight in a run whose fetches read inside the table:
every live latch holds an instruction fetched from an entry of the table, and
an instruction that has got beyond the Decode latch is a HALT or was not
fetched from the last entry, because the Fetch that followed it read inside
the table as well. -/
theorem in_flight_entries (code : List APEX_Instruction) (simulate : Bool) (n : Int) (t : Nat)
    (hr : ∀ j, j < t → fetch_in_range (boot code simulate n) j = true) :
    ((ticks t (boot code simulate n)).decode.has_insn = true →
      in_table code (ticks t (boot code simulate n)).decode.pc)
    ∧ ((ticks t (boot code simulate n)).execute.has_insn = true →
      in_table code (ticks t (boot code simulate n)).execute.pc
      ∧ (2 ≤ code.length → (ticks t (boot code simulate n)).execute.opcode ≠ OPCODE_HALT →
          get_code_memory_index_from_pc (ticks t (boot code simulate n)).execute.pc
            ≠ (code.length : Int) - 1))
    ∧ ((ticks t (boot code simulate n)).memory.has_insn = true →
      in_table code (ticks t (boot code simulate n)).memory.pc
      ∧ (2 ≤ code.length → (ticks t (boot code simulate n)).memory.opcode ≠ OPCODE_HALT →
          get_code_memory_index_from_pc (ticks t (boot code simulate n)).memory.pc
            ≠ (code.length : Int) - 1))
    ∧ ((ticks t (boot code simulate n)).writeback.has_insn = true →
      in_table code (ticks t (boot code simulate n)).writeback.pc
      ∧ (2 ≤ code.length → (ticks t (boot code simulate n)).writeback.opcode ≠ OPCODE_HALT →
          get_code_memory_index_from_pc (ticks t (boot code simulate n)).writeback.pc
            ≠ (code.length : Int) - 1)) := by
  induction t with
  | zero =>
    refine ⟨?_, ?_, ?_, ?_⟩ <;> intro h <;> simp [ticks_zero, boot, zero_stage] at h
  | succ t ih =>
    have ih := ih (fun j hj => hr j (Nat.lt_succ_of_lt hj))
    have hrt := hr t (Nat.lt_succ_self t)
    obtain ⟨p1, p2, p3, p4, p5⟩ := tick_provenance (ticks t (boot code simulate n))
    rw [ticks_succ_outer]
    refine ⟨fun h => ?_, fun h => ?_, fun h => ?_, fun h => ?_⟩
    · obtain ⟨a1, a2, a3, _⟩ := p4 h
      rw [a3]
      exact fetch_in_range_spec _ t hrt a1 a2
    · obtain ⟨a1, a2, a3, a4⟩ := p3 h
      rw [a2, a3]
      refine ⟨ih.1 a1, fun hN hne hidx => ?_⟩
      -- the Decode latch was filled by the Fetch of the iteration before
      have ht : 1 ≤ t := (boot_depth code simulate n t).1 a1
      obtain ⟨t0, rfl⟩ : ∃ t0, t = t0 + 1 := ⟨t - 1, by omega⟩
      rw [ticks_succ_outer] at a1 a4 hne hidx p5
      obtain ⟨_, _, _, b4, b5, b6⟩ := (tick_provenance (ticks t0 (boot code simulate n))).2.2.2.1 a1
      obtain ⟨c1, c2, c3⟩ := p5 a4
      have hin := fetch_in_range_spec _ (t0 + 1) hrt
        (by rw [ticks_succ_outer, c2]; exact b6 hne)
        (by rw [ticks_succ_outer, c3]; exact b5)
      rw [ticks_succ_outer, c1, b4] at hin
      exact next_index_outside code _ hN hidx hin
    · obtain ⟨a1, a2, a3⟩ := p2 h
      rw [a2, a3]
      exact ih.2.1 a1
    · obtain ⟨a1, a2, a3⟩ := p1 h
      rw [a2, a3]
      exact ih.2.2.1 a1

/-- A bound on the number of retired instructions: if the live instructions the
first `k` Writebacks saw were fetched from pairwise different entries with
index below `m`, there are at most `m` of them. -/
theorem retired_by_le (cpu : APEX_CPU) (k m : Nat)
    (hin : ∀ j, j < k → (ticks j cpu).writeback.has_insn = true →
      0 ≤ get_code_memory_index_from_pc (ticks j cpu).writeback.pc
      ∧ get_code_memory_index_from_pc (ticks j cpu).writeback.pc < (m : Int))
    (hinj : ∀ i, i < k → ∀ j, j < k →
      (ticks i cpu).writeback.has_insn = true → (ticks j cpu).writeback.has_insn = true →
      get_code_memory_index_from_pc (ticks i cpu).writeback.pc
        = get_code_memory_index_from_pc (ticks j cpu).writeback.pc → i = j) :
    retired_by cpu k ≤ m := by
  unfold retired_by
  have hmem : ∀ j, j ∈ (List.range k).filter (fun j => (ticks j cpu).writeback.has_insn) →
      j < k ∧ (ticks j cpu).writeback.has_insn = true := by
    intro j hj
    rw [List.mem_filter, List.mem_range] at hj
    exact hj
  have hnd : ((List.range k).filter (fun j => (ticks j cpu).writeback.has_insn)).Nodup :=
    (List.nodup_range k).filter _
  have hnd2 : (((List.range k).filter (fun j => (ticks j cpu).writeback.has_insn)).map
      (fun j => (get_code_memory_index_from_pc (ticks j cpu).writeback.pc).toNat)).Nodup := by
    apply List.Nodup.map_on _ hnd
    intro i hi j hj hij
    obtain ⟨i1, i2⟩ := hmem i hi
    obtain ⟨j1, j2⟩ := hmem j hj
    have hi3 := (hin i i1 i2).1
    have hj3 := (hin j j1 j2).1
    apply hinj i i1 j j1 i2 j2
    have := congrArg (fun x : Nat => (x : Int)) hij
    simp only [Int.toNat_of_nonneg hi3, Int.toNat_of_nonneg hj3] at this
    exact this
  have hsub : (((List.range k).filter (fun j => (ticks j cpu).writeback.has_insn)).map
      (fun j => (get_code_memory_index_from_pc (ticks j cpu).writeback.pc).toNat)).toFinset
        ⊆ Finset.range m := by
    intro x hx
    rw [List.mem_toFinset, List.mem_map] at hx
    obtain ⟨j, hj, rfl⟩ := hx
    obtain ⟨j1, j2⟩ := hmem j hj
    have := hin j j1 j2
    rw [Finset.mem_range]
    omega
  have hcard := Finset.card_le_card hsub
  rw [List.toFinset_card_of_nodup hnd2, Finset.card_range, List.length_map] at hcard
  exact hcard

/-- The first tick from the initial machine: the entry at address 4000 is
fetched, `pc` is 4004 and Fetch stays enabled unless that entry is a HALT. -/
theorem first_tick (code : List APEX_Instruction) (simulate : Bool) (n : Int) :
    (tick (boot code simulate n)).pc = 4004
    ∧ (tick (boot code simulate n)).fetch_from_next_cycle = false
    ∧ ((insn_at code 0).opcode ≠ OPCODE_HALT →
        (tick (boot code simulate n)).fetch.has_insn = true)
    ∧ (tick (boot code simulate n)).execute.has_insn = false := by
  have hc : code_at code (get_code_memory_index_from_pc 4000) = insn_at code 0 :=
    (code_at_eqs code).1
  refine ⟨?_, ?_, ?_, ?_⟩
  · simp [tick_eqs, APEX_fetch_eqs, APEX_decode_eqs, APEX_execute_eqs, APEX_memory_eqs,
      APEX_writeback_eqs, boot, zero_stage, pc_eqs]
  · simp [tick_eqs, APEX_fetch_eqs, APEX_decode_eqs, APEX_execute_eqs, APEX_memory_eqs,
      APEX_writeback_eqs, boot, zero_stage]
  · intro hne
    simp [tick_eqs, APEX_fetch_eqs, APEX_decode_eqs, APEX_execute_eqs, APEX_memory_eqs,
      APEX_writeback_eqs, boot, zero_stage, fetched_latch, hc, hne]
  · simp [tick_eqs, APEX_fetch_eqs, APEX_decode_eqs, APEX_execute_eqs, APEX_memory_eqs,
      APEX_writeback_eqs, boot, zero_stage]

/-- A one-entry program whose fetches read inside the table and whose HALT is
not retired has a budget of at most three cycles. -/
theorem single_entry_budget (code : List APEX_Instruction) (simulate : Bool) (n : Nat)
    (hN : code.length = 1)
    (hno : ∀ j, j ≤ n → (APEX_writeback (ticks j (boot code simulate n))).2 = false)
    (hr : ∀ j, j < n → fetch_in_range (boot code simulate n) j = true) : n ≤ 3 := by
  by_contra hn
  obtain ⟨f1, f2, f3, f4⟩ := first_tick code simulate n
  by_cases hH : (insn_at code 0).opcode = OPCODE_HALT
  · -- the HALT is retired in iteration 4
    have hP : straight_line code := by
      refine ⟨by omega, by rw [hN]; decide, ?_, ?_⟩
      · intro i hi
        have : i = 0 := by omega
        rw [this, hH]
        rfl
      · intro i hi
        have : i = 0 := by omega
        rw [this, hN]
        exact ⟨fun _ => rfl, fun _ => hH⟩
    have hw := (schedule_ticks code simulate n hP 4).2.2.2.2.2.2.2.1.1 ⟨by omega, by omega⟩
    have h4 := hno 4 (by omega)
    rw [writeback_stops, hw.1, hw.2.2.1, hH] at h4
    exact absurd h4 (by decide)
  · -- the Fetch of iteration 1 reads outside the table
    have hnr : execute_redirects (tick (boot code simulate n)) = false := by
      unfold execute_redirects
      rw [f4]
      rfl
    obtain ⟨c1, c2, c3⟩ := (tick_provenance (tick (boot code simulate n))).2.2.2.2 hnr
    have hin := fetch_in_range_spec (boot code simulate n) 1 (hr 1 (by omega))
      (by rw [show ticks 1 (boot code simulate n) = tick (boot code simulate n) from rfl, c2]
          exact f3 hH)
      (by rw [show ticks 1 (boot code simulate n) = tick (boot code simulate n) from rfl, c3]
          exact f2)
    rw [show ticks 1 (boot code simulate n) = tick (boot code simulate n) from rfl, c1, f1] at hin
    have h1 : get_code_memory_index_from_pc 4004 = 1 := by decide
    unfold in_table at hin
    rw [h1] at hin
    have : ((boot code simulate n).code_memory.length : Int) = 1 := by
      simp [boot, hN]
    omega

/-- C7 (amended): for every program and every cycle budget `n ≥ 0` in a
non-interactive mode, the loop leaves at the first iteration `k ≤ n` in which
Writeback retires HALT or `clock == n`, and at no earlier one.  If none of the
Writebacks of iterations `0..n` retires HALT, the run ends because of the
budget, with `clock == n` and with `insn_completed` equal to the number of live
instructions those `n + 1` Writebacks saw.  That number is smaller than the
program's instruction count whenever the program is not empty, the fetches of
iterations `0..n-1` read inside the instruction table and no entry of the
program is retired more than once.  For a straight-line program of `N`
instructions and a budget `n < N + 3` the run ends because of the budget with
`n - 3` instructions retired (none when `n < 3`), fewer than `N`. -/
theorem C7_run_stops_at_first_stop (code : List APEX_Instruction) (simulate : Bool)
    (n : Nat) (keys : List Char) :
    (∃ k, k ≤ n ∧ stops_at (boot code simulate n) k = true
      ∧ (∀ j, j < k → stops_at (boot code simulate n) j = false)
      ∧ ∀ fuel, k < fuel →
          ∃ cause, APEX_cpu_run fuel keys (boot code simulate n)
              = some (cause, (APEX_writeback (ticks k (boot code simulate n))).1)
            ∧ (cause = StopCause.halt_retired
                ↔ (APEX_writeback (ticks k (boot code simulate n))).2 = true))
    ∧ ((∀ j, j ≤ n → (APEX_writeback (ticks j (boot code simulate n))).2 = false) →
        ∀ fuel, n < fuel →
          ∃ final, APEX_cpu_run fuel keys (boot code simulate n)
              = some (StopCause.budget, final)
            ∧ final = (APEX_writeback (ticks n (boot code simulate n))).1
            ∧ final.clock = n
            ∧ final.insn_completed = retired_by (boot code simulate n) (n + 1)
            ∧ (0 < code.length →
                (∀ j, j < n → fetch_in_range (boot code simulate n) j = true) →
                retired_once (boot code simulate n) n →
                final.insn_completed < (code.length : Int)))
    ∧ (straight_line code → n < code.length + 3 →
        ∀ fuel, n < fuel →
          ∃ final, APEX_cpu_run fuel keys (boot code simulate n)
              = some (StopCause.budget, final)
            ∧ final.clock = n
            ∧ final.insn_completed = ((n - 3 : Nat) : Int)
            ∧ final.insn_completed < (code.length : Int)) := by
  have hclock : ∀ j, (ticks j (boot code simulate n)).clock = j := by
    intro j; rw [ticks_clock]; simp [boot]
  have hcycle : ∀ j, (ticks j (boot code simulate n)).cycle = n := by
    intro j; rw [ticks_cycle]; simp [boot]
  have hn : stops_at (boot code simulate n) n = true := by
    simp [stops_at, hclock, hcycle]
  have hex : ∃ k, stops_at (boot code simulate n) k = true := ⟨n, hn⟩
  have hbudget : (∀ j, j ≤ n → (APEX_writeback (ticks j (boot code simulate n))).2 = false) →
      ∀ fuel, n < fuel → APEX_cpu_run fuel keys (boot code simulate n)
        = some (StopCause.budget, (APEX_writeback (ticks n (boot code simulate n))).1) := by
    intro hno fuel hfuel
    have hmin : ∀ j, j < n → stops_at (boot code simulate n) j = false := by
      intro j hj
      have h1 := hno j (Nat.le_of_lt hj)
      have h2 : ¬ ((j : Int) = (n : Int)) := by omega
      simp [stops_at, hclock, hcycle, h1, h2]
    rw [run_first_stop _ keys n fuel rfl hn hmin hfuel, hno n (Nat.le_refl n)]
    simp
  refine ⟨⟨Nat.find hex, Nat.find_min' hex hn, Nat.find_spec hex, ?_, ?_⟩, ?_, ?_⟩
  · intro j hj
    have := Nat.find_min hex hj
    simpa using this
  · intro fuel hfuel
    refine ⟨_, run_first_stop _ keys (Nat.find hex) fuel rfl (Nat.find_spec hex) ?_ hfuel, ?_⟩
    · intro j hj
      have := Nat.find_min hex hj
      simpa using this
    · cases h : (APEX_writeback (ticks (Nat.find hex) (boot code simulate n))).2 <;> simp
  · intro hno fuel hfuel
    have hcount : (APEX_writeback (ticks n (boot code simulate n))).1.insn_completed
        = retired_by (boot code simulate n) (n + 1) := by
      have h := ticks_insn_completed (boot code simulate n) n
      simp only [APEX_writeback_eqs, h, retired_by_succ]
      cases h : (ticks n (boot code simulate n)).writeback.has_insn <;> simp [boot]
    refine ⟨_, hbudget hno fuel hfuel, rfl, ?_, hcount, ?_⟩
    · simp [APEX_writeback_eqs, hclock]
    · intro hN hr hone
      rw [hcount]
      have hinj : ∀ i, i < n + 1 → ∀ j, j < n + 1 →
          (ticks i (boot code simulate n)).writeback.has_insn = true →
          (ticks j (boot code simulate n)).writeback.has_insn = true →
          get_code_memory_index_from_pc (ticks i (boot code simulate n)).writeback.pc
            = get_code_memory_index_from_pc (ticks j (boot code simulate n)).writeback.pc →
          i = j :=
        fun i hi j hj => hone i (by omega) j (by omega)
      by_cases h1 : code.length = 1
      · have hn3 := single_entry_budget code simulate n h1 hno hr
        have hle := retired_by_le (boot code simulate n) (n + 1) 0 (by
          intro j hj hl
          have := (boot_depth code simulate n j).2.2.2 hl
          omega) hinj
        omega
      · have hle := retired_by_le (boot code simulate n) (n + 1) (code.length - 1) (by
          intro j hj hl
          obtain ⟨a1, a2⟩ := (in_flight_entries code simulate n j
            (fun i hi => hr i (by omega))).2.2.2 hl
          have hne : (ticks j (boot code simulate n)).writeback.opcode ≠ OPCODE_HALT := by
            intro hx
            have := hno j (by omega)
            rw [writeback_stops, hl, hx] at this
            exact absurd this (by decide)
          have := a2 (by omega) hne
          unfold in_table at a1
          omega) hinj
        omega
  · intro hP hlt fuel hfuel
    have hS := schedule_ticks code simulate n hP
    obtain ⟨hN, hR, hnr, hH⟩ := hP
    have hno : ∀ j, j ≤ n → (APEX_writeback (ticks j (boot code simulate n))).2 = false := by
      intro j hj
      rw [writeback_stops]
      cases hl : (ticks j (boot code simulate n)).writeback.has_insn
      · rfl
      · obtain ⟨c1, c2, c3⟩ := stage_at_live code j 4 _ (hS j).2.2.2.2.2.2.2.1 hl
        have hne : ¬ (insn_at code (j - 4)).opcode = OPCODE_HALT := by
          intro hx
          have := (hH (j - 4) (by omega)).1 hx
          omega
        rw [c3.2.2.1]
        simp [hne]
    have hcount : (APEX_writeback (ticks n (boot code simulate n))).1.insn_completed
        = ((n - 3 : Nat) : Int) := by
      rw [(APEX_writeback_eqs _).2.2.2.2.2.2.2.2.2.2.2.2.2.2.2.1, (hS n).2.2.2.2.2.2.2.2]
      cases hl : (ticks n (boot code simulate n)).writeback.has_insn
      · have : ¬ (4 ≤ n ∧ n < code.length + 4) := by
          intro hx
          have := ((hS n).2.2.2.2.2.2.2.1.1 hx).1
          rw [hl] at this
          exact absurd this (by simp)
        simp only [Bool.false_eq_true, if_false]
        congr 1
        omega
      · obtain ⟨c1, c2, _⟩ := stage_at_live code n 4 _ (hS n).2.2.2.2.2.2.2.1 hl
        simp only [if_true]
        rw [Nat.min_eq_left (by omega)]
        omega
    refine ⟨_, hbudget hno fuel hfuel, ?_, hcount, ?_⟩
    · simp [APEX_writeback_eqs, hclock]
    · rw [hcount]
      omega

/-- C7 (amended) on the first scenario with budget 5, where two of the four
instructions are retired, and on the branch scenario with budget 8, where the
run stops on the budget with three of the five instructions retired (the
instruction behind the taken branch is never retired). -/
theorem C7_run_stops_at_first_stop_witness :
    (∃ final, APEX_cpu_run 6 [] (boot (prog_add 5 10 0 1 2) false 5)
        = some (StopCause.budget, final)
      ∧ final.clock = 5 ∧ final.insn_completed = 2
      ∧ final.insn_completed < ((prog_add 5 10 0 1 2).length : Int))
    ∧ ∃ final, APEX_cpu_run 9 [] (boot (prog_bz 1 2) false 8)
        = some (StopCause.budget, final)
      ∧ final.clock = 8 ∧ final.insn_completed = 3
      ∧ final.insn_completed < ((prog_bz 1 2).length : Int) := by
  obtain ⟨final, h1, _, h3, h4, h5⟩ :=
    (C7_run_stops_at_first_stop (prog_add 5 10 0 1 2) false 5 []).2.1 (by decide) 6 (by decide)
  obtain ⟨final2, g1, _, g3, g4, g5⟩ :=
    (C7_run_stops_at_first_stop (prog_bz 1 2) false 8 []).2.1 (by decide) 9 (by decide)
  refine ⟨⟨final, h1, h3, ?_, h5 (by decide) (by decide) (by unfold retired_once; decide)⟩,
    final2, g1, g3, ?_, g5 (by decide) (by decide) (by unfold retired_once; decide)⟩
  · rw [h4]
    decide
  · rw [g4]
    decide

end Apex
